import Mathlib

/-!
Stencil_Master: the status-page row classifier.

A shallow embedding of the two `rowCallback` functions of the status page
(`src/Pallet_app/static/app.js`, `src/stencil_app/static/app.js`) and the
properties of the derived status text and highlight classes.

Modelling conventions.

* A JavaScript Number is `JSNum`: NaN, the two infinities, or a finite value
  carried as a rational (every finite double is a rational; comparisons of
  doubles are exact, so `<` and `===` against the constants 35 and 36 are the
  comparisons of the rationals).
* The record handed to `rowCallback` carries, for the revalidation date, the
  value of `Date.parse(...)`: `none` for NaN (absent or invalid date), `some ms`
  for a time value in integer milliseconds; and, for each tension field, the
  value of `parseFloat(...)`.
* `new Date()` is the parameter `today` (milliseconds) of `rowCallback`; a call that
  reads the wall clock itself is `rowCallbackCall`, and the callback followed from the raw
  `data` object, with its exceptions, is `rowCallbackRaw`.
* `Math.ceil((reval - today) / 86400000)` is modelled twice. `ceilDaysDouble` is the
  computation as the source performs it, in doubles: the difference and the quotient are
  each rounded to the nearest double. `ceilDays` is the exact ceiling of the rational
  quotient, and it is what the row callbacks use. `ceilDaysDouble_eq_ceilDays` proves that
  the two agree whenever |reval - today| < 2^53 (a wall clock within 285,000 years of the
  stored date); beyond that bound they can differ, as `ceilDaysDouble_example` shows, at
  values of about 10^8 days, far from the thresholds 1, 5 and 10.
* A table row is its list of CSS classes and the texts of its `td` cells.
-/

namespace StencilMaster

/-! ## JavaScript values -/

/-- A JavaScript Number: NaN, an infinity, or a finite value. -/
inductive JSNum where
  | nan
  | negInf
  | posInf
  | fin (q : ℚ)
  deriving DecidableEq

namespace JSNum

/-- The global `isNaN(t)` on a Number. -/
def isNaN : JSNum → Bool
  | nan => true
  | _ => false

/-- The comparison `t < k` against a finite constant `k`. -/
def lt (t : JSNum) (k : ℚ) : Bool :=
  match t with
  | nan => false
  | negInf => true
  | posInf => false
  | fin q => decide (q < k)

/-- The comparison `t === k` against a finite constant `k`. -/
def strictEq (t : JSNum) (k : ℚ) : Bool :=
  match t with
  | fin q => decide (q = k)
  | _ => false

end JSNum

/-- A text field of a record as the server sends it: missing, `null`, or a string. -/
inductive JSVal where
  | undefined
  | null
  | str (s : String)
  deriving DecidableEq

/-- The expression `v || ""`: falsy values (missing, `null`, the empty string) give `""`. -/
def JSVal.orEmpty : JSVal → String
  | JSVal.str s => if s = "" then "" else s
  | _ => ""

/-! ## Rows -/

/-- A rendered table row: its CSS classes and the texts of its cells. -/
structure Row where
  classes : List String
  cells : List String
  deriving DecidableEq

/-- The class list of `$(row).removeClass('case1 case2 case3 tension-red tension-pink')`. -/
def highlightClasses : List String :=
  ["case1", "case2", "case3", "tension-red", "tension-pink"]

/-- jQuery `removeClass` with a list of class names. -/
def removeClass (names : List String) (row : Row) : Row :=
  { row with classes := row.classes.filter (fun c => !names.contains c) }

/-- jQuery `addClass` with one class name: appended unless already present. -/
def addClass (name : String) (row : Row) : Row :=
  if row.classes.contains name then row
  else { row with classes := row.classes ++ [name] }

/-- The effect of `$('td:eq(i)', row).text(txt)`: the text of the cell at 0-based index `i`
is replaced; an index past the last cell selects nothing. -/
def setCellText (i : Nat) (txt : String) (row : Row) : Row :=
  { row with cells := row.cells.set i txt }

/-- The highlight classes a row carries, in order. -/
def Row.highlights (row : Row) : List String :=
  row.classes.filter (fun c => highlightClasses.contains c)

/-! ## Date arithmetic -/

/-- The constant `1000*60*60*24`: milliseconds per day. -/
def msPerDay : ℤ := 1000 * 60 * 60 * 24

/-- The value `Math.ceil((reval - today) / (1000*60*60*24))` for a valid date. -/
def ceilDays (reval today : ℤ) : ℤ :=
  ⌈((reval - today : ℤ) : ℚ) / (msPerDay : ℚ)⌉

/-- Rounding to the nearest integer, a tie going to the even one. -/
def roundHalfEven (s : ℚ) : ℤ :=
  if s - ⌊s⌋ < 1 / 2 then ⌊s⌋
  else if 1 / 2 < s - ⌊s⌋ then ⌊s⌋ + 1
  else if ⌊s⌋ % 2 = 0 then ⌊s⌋
  else ⌊s⌋ + 1

/-- The double nearest to a rational, a tie going to the even significand: the rounding that
every arithmetic operation on Numbers applies to its exact result. The format is binary64
with its 53-bit significand; overflow and subnormal results, which a difference or a
quotient of time values never reaches, are not modelled. -/
def roundDouble (q : ℚ) : ℚ :=
  if q = 0 then 0
  else (roundHalfEven (q / 2 ^ (Int.log 2 |q| - 52)) : ℚ) * 2 ^ (Int.log 2 |q| - 52)

/-- The value `Math.ceil((reval - today) / (1000*60*60*24))` as the source computes it: the
subtraction and the division are operations on doubles, `Math.ceil` is exact. The two time
values are integers of magnitude at most 8.64e15 and are doubles themselves. -/
def ceilDaysDouble (reval today : ℤ) : ℤ :=
  ⌈roundDouble (roundDouble ((reval - today : ℤ) : ℚ) / (msPerDay : ℚ))⌉

/-- The constant `diffDays` of `rowCallback`: `none` is NaN (the date did not parse). -/
def diffDays (parsed : Option ℤ) (today : ℤ) : Option ℤ :=
  parsed.map (fun reval => ceilDays reval today)

/-! ## Pallet status page -/

namespace Pallet

/-- The fields of a pallet record that `rowCallback` reads. -/
structure Data where
  /-- The value `Date.parse(data.pallet_revalidation_dt)`. -/
  pallet_revalidation_dt : Option ℤ
  condition_status : JSVal

/-- The `rowCallback` of the pallet status table. Its own parameters are `row` and `data`;
`today` is the value of `new Date()` that the body takes. -/
def rowCallback (today : ℤ) (row : Row) (data : Data) : Row :=
  let row := removeClass highlightClasses row
  let diffDays := diffDays data.pallet_revalidation_dt today
  let condStatus := data.condition_status.orEmpty
  let (row, condStatus) :=
    match diffDays with
    | none => (row, condStatus)
    | some d =>
      if d ≤ 1 then (addClass "case3" row, "REVALIDATION TIME END")
      else if d ≤ 5 then (addClass "case2" row, "RE-VALIDATION NEED TO DONE SOON")
      else if d ≤ 10 then (addClass "case1" row, "RE-VALIDATION NEED TO DONE SOON")
      else (row, condStatus)
  setCellText 9 condStatus row

end Pallet

/-! ## Stencil status page -/

namespace Stencil

/-- The fields of a stencil record that `rowCallback` reads. -/
structure Data where
  /-- The value `Date.parse(data.stencil_revalidation_dt)`. -/
  stencil_revalidation_dt : Option ℤ
  status : JSVal
  /-- The value `parseFloat(data.tension_a)`, and likewise for b to e. -/
  tension_a : JSNum
  tension_b : JSNum
  tension_c : JSNum
  tension_d : JSNum
  tension_e : JSNum

/-- The block "Revalidation Date Highlight" of `rowCallback`. -/
def revalidationDateHighlight (diffDays : Option ℤ) (st : Row × String) : Row × String :=
  match diffDays with
  | none => st
  | some d =>
    if d ≤ 1 then (addClass "case3" st.1, "Revalidation Time End")
    else if d ≤ 5 then (addClass "case2" st.1, "Re-Validation Need to Done Soon")
    else if d ≤ 10 then (addClass "case1" st.1, "Re-Validation Need to Done Soon")
    else st

/-- The array `tensions` of `rowCallback`. -/
def tensions (data : Data) : List JSNum :=
  [data.tension_a, data.tension_b, data.tension_c, data.tension_d, data.tension_e]

/-- The loop `for (const t of tensions)` of the block "Tension Highlight", with its two
`break`s. -/
def tensionHighlight : List JSNum → Row × String → Row × String
  | [], st => st
  | t :: rest, st =>
    if !t.isNaN then
      if t.lt 35 then (addClass "tension-red" st.1, "Stencil EOL")
      else if t.strictEq 35 || t.strictEq 36 then
        (addClass "tension-pink" st.1, "Stencil Re-Order Soon")
      else tensionHighlight rest st
    else tensionHighlight rest st

/-- The `rowCallback` of the stencil status table. Its own parameters are `row` and `data`;
`today` is the value of `new Date()` that the body takes. -/
def rowCallback (today : ℤ) (row : Row) (data : Data) : Row :=
  let row := removeClass highlightClasses row
  let diffDays := diffDays data.stencil_revalidation_dt today
  let statusText := data.status.orEmpty
  let st := revalidationDateHighlight diffDays (row, statusText)
  let st := tensionHighlight (tensions data) st
  setCellText 14 st.2 st.1

end Stencil


/-! ## Spreadsheet export

`downloadExcel` hands each fetched list to the local function `makeSheet`. The sheet is
modelled by what `makeSheet` computes: the array of arrays given to `aoa_to_sheet` and the
column widths stored under `!cols`.

* The built-in conversion of a Number to a string is the parameter `numToString`.
* `new Date(v)` is the parameter `newDate`: `none` for an invalid date, otherwise the
  local-time fields that `getDate`, `getMonth`, `getFullYear`, `getHours` and `getMinutes`
  return.
* `toUpperCase` maps the letters a to z, which covers the column names the callers pass.
* `length` is `jsLength`, the number of UTF-16 code units.
-/

/-- A JSON value of a fetched record: missing, `null`, a boolean, a number or a string. -/
inductive JSValue where
  | undefined
  | null
  | bool (b : Bool)
  | num (n : JSNum)
  | str (s : String)
  deriving DecidableEq

namespace JSValue

/-- The expression `v ?? d`: `d` replaces a missing or `null` value only. -/
def nullish (v d : JSValue) : JSValue :=
  match v with
  | undefined => d
  | null => d
  | _ => v

/-- The truthiness of a value, as tested by `v ? a : b` and `!v`. -/
def truthy : JSValue → Bool
  | undefined => false
  | null => false
  | bool b => b
  | num JSNum.nan => false
  | num (JSNum.fin q) => decide (q ≠ 0)
  | num _ => true
  | str s => decide (s ≠ "")

/-- The conversion `String(v)`. -/
def toStr (numToString : JSNum → String) : JSValue → String
  | undefined => "undefined"
  | null => "null"
  | bool true => "true"
  | bool false => "false"
  | num n => numToString n
  | str s => s

end JSValue

/-- A text field, as in the row callbacks, seen as a JSON value. -/
def JSVal.toValue : JSVal → JSValue
  | JSVal.undefined => JSValue.undefined
  | JSVal.null => JSValue.null
  | JSVal.str s => JSValue.str s

/-- A fetched record: its keys with their values. -/
abbrev Record := List (String × JSValue)

/-- The property access `r[k]`: a missing key gives `undefined`. -/
def getProp (r : Record) (k : String) : JSValue :=
  (r.lookup k).getD JSValue.undefined

/-- The method `toUpperCase` on text made of ASCII characters, such as the column names
that the callers of `makeSheet` pass: the letters a to z are mapped to A to Z. -/
def toUpperCase (s : String) : String :=
  ⟨s.data.map Char.toUpper⟩

/-- The property `length` of a string: the number of UTF-16 code units, 2 for a character
outside the basic plane. -/
def jsLength (s : String) : Nat :=
  (s.data.map (fun c => if 65536 ≤ c.toNat then 2 else 1)).sum

/-- What `makeSheet` builds: the sheet name, the array of arrays and the `wch` widths. -/
structure Sheet where
  sheetName : String
  aoa : List (List JSValue)
  colWidths : List Nat
  deriving DecidableEq

/-- The body of `cols.map((c, i) => ...)` in `makeSheet`: the `wch` of column `i`. -/
def colWidth (numToString : JSNum → String) (rows : List (List JSValue)) (i : Nat)
    (c : String) : Nat :=
  let maxLen := rows.foldl (fun maxLen r =>
    let val := if (r.getD i JSValue.undefined).truthy
      then (r.getD i JSValue.undefined).toStr numToString else ""
    if jsLength val > maxLen then jsLength val else maxLen) (jsLength c)
  maxLen + 2

/-- The local-time fields of a valid `Date`. -/
structure LocalDate where
  /-- Day of the month, `getDate()`. -/
  date : Nat
  /-- Month from 0, `getMonth()`. -/
  month : Nat
  fullYear : ℤ
  hours : Nat
  minutes : Nat
  deriving DecidableEq

/-- The call `s.padStart(2, '0')`. -/
def padStart2 (s : String) : String :=
  if s.length < 2 then "".pushn '0' (2 - s.length) ++ s else s

namespace Stencil

/-- The function `makeSheet` of the stencil `downloadExcel`. -/
def makeSheet (numToString : JSNum → String) (data : List Record) (cols : List String)
    (sheetName : String) : Sheet :=
  let rows := data.map (fun r => cols.map (fun k => (getProp r k).nullish (JSValue.str "")))
  let aoa := cols.map (fun c => JSValue.str (toUpperCase c)) :: rows
  let aoa := aoa ++ [[JSValue.str "Stencil Master List"]]
  let colWidths := cols.mapIdx (fun i c => colWidth numToString rows i c)
  { sheetName := sheetName, aoa := aoa, colWidths := colWidths }

/-- The column list of the sheet "Home" in the stencil `downloadExcel`. -/
def homeSheetCols : List String :=
  ["id", "fg", "side", "customer", "stencil_no", "rack_no", "location", "status"]

/-- The column list of the sheet "Status" in the stencil `downloadExcel`. -/
def statusSheetCols : List String :=
  ["fg", "side", "customer", "stencil_no", "rack_no", "location",
    "stencil_validation_dt", "stencil_revalidation_dt",
    "tension_a", "tension_b", "tension_c", "tension_d", "tension_e",
    "remarks", "status", "emp_id"]

end Stencil

namespace Pallet

/-- The function `formatExcelDate` of the pallet `downloadExcel`. -/
def formatExcelDate (newDate : JSValue → Option LocalDate) (dateString : JSValue) :
    JSValue :=
  if !dateString.truthy then JSValue.str ""
  else
    match newDate dateString with
    | none => dateString
    | some date =>
      let day := padStart2 (toString date.date)
      let month := padStart2 (toString (date.month + 1))
      let year := date.fullYear
      let hours := date.hours
      let minutes := padStart2 (toString date.minutes)
      let ampm := if hours ≥ 12 then "PM" else "AM"
      let hours := if hours % 12 = 0 then 12 else hours % 12
      JSValue.str (day ++ "/" ++ month ++ "/" ++ toString year ++ " " ++ toString hours
        ++ ":" ++ minutes ++ " " ++ ampm)

/-- The function `makeSheet` of the pallet `downloadExcel`. -/
def makeSheet (numToString : JSNum → String) (newDate : JSValue → Option LocalDate)
    (data : List Record) (cols : List String) (sheetName : String) : Sheet :=
  let rows := data.map (fun r => cols.map (fun k =>
    if ["out_time", "in_time"].contains k then formatExcelDate newDate (getProp r k)
    else (getProp r k).nullish (JSValue.str "")))
  let aoa := cols.map (fun c => JSValue.str (toUpperCase c)) :: rows
  let aoa := aoa ++ [[JSValue.str "Pallet Master List"]]
  let colWidths := cols.mapIdx (fun i c => colWidth numToString rows i c)
  { sheetName := sheetName, aoa := aoa, colWidths := colWidths }

/-- The column list of the sheet "Received List" in the pallet `downloadExcel`. -/
def receivedSheetCols : List String :=
  ["id", "fg", "customer", "pallet_no", "pallet_qty", "rack_no", "location",
    "pallet_supplier",
    "supplier_prt_no", "date_received", "pallet_validation_dt", "pallet_revalidation_dt",
    "received_by", "condition_status", "production_status", "remarks", "emp_id"]

/-- The column list of the sheet "Status" in the pallet `downloadExcel`. -/
def statusSheetCols : List String :=
  ["fg", "customer", "pallet_no", "pallet_qty", "rack_no", "location",
    "pallet_validation_dt", "pallet_revalidation_dt",
    "remarks", "condition_status", "production_status", "emp_id"]

/-- The column list of the sheet "ISOS" in the pallet `downloadExcel`. -/
def isosSheetCols : List String :=
  ["pallet_no", "fg", "customer", "rack_no", "location", "out_time", "in_time", "remarks",
    "status", "operator_id"]

end Pallet

/-! ## Status table columns and the ISOS page

The two ISOS handlers are modelled from the point where their `fetch` has settled: the scan
handler receives the parsed lookup response, the submit handler the parsed operator list
(`none` when the fetch or its `json()` failed). The page is what the handlers change: the
variable `currentAction`, the modal, the scan input, the alerts shown and the requests sent.

* The built-in `String.prototype.toUpperCase`, a full Unicode mapping, is the parameter
  `upper` of the handlers.
* `trim` removes the white space and line terminator characters of the language.
* A property access or a method call on a missing or `null` value throws; the `catch` of
  the handler takes over.
-/

namespace Stencil

/-- The `data` keys of the `columns` of the stencil status table, in order. -/
def statusTableColumns : List String :=
  ["fg", "side", "customer", "stencil_no", "rack_no", "location",
    "stencil_validation_dt", "stencil_revalidation_dt",
    "tension_a", "tension_b", "tension_c", "tension_d", "tension_e",
    "remarks", "status", "emp_id"]

end Stencil

/-- The rank of the date class a row carries: `case3` 3, `case2` 2, `case1` 1, none 0. -/
def dateSeverity (row : Row) : Nat :=
  if "case3" ∈ row.classes then 3
  else if "case2" ∈ row.classes then 2
  else if "case1" ∈ row.classes then 1
  else 0

/-- The characters that `trim` strips: the white space characters (tab, vertical tab, form
feed, space, no-break space, the byte order mark and the space separators of Unicode) and
the line terminators (line feed, carriage return, U+2028, U+2029). -/
def isJsWhiteSpace (c : Char) : Bool :=
  [9, 10, 11, 12, 13, 32, 160, 5760, 8232, 8233, 8239, 8287, 12288, 65279].contains c.toNat
    || (8192 ≤ c.toNat && c.toNat ≤ 8202)

/-- The method `trim` on a form value. -/
def jsTrim (s : String) : String :=
  ⟨((s.data.dropWhile isJsWhiteSpace).reverse.dropWhile isJsWhiteSpace).reverse⟩

namespace Pallet

/-- The `data` keys of the `columns` of the pallet status table, in order. -/
def statusTableColumns : List String :=
  ["fg", "customer", "pallet_no", "pallet_qty", "rack_no", "location",
    "pallet_validation_dt", "pallet_revalidation_dt",
    "remarks", "condition_status", "production_status", "emp_id"]

/-- What the ISOS handlers change on the page. -/
structure IsosPage where
  /-- The variable `currentAction`: `null`, "OUT" or "IN". -/
  currentAction : Option String
  modalShown : Bool
  modalTitle : String
  /-- The value of the form field `#pallet_no`. -/
  palletNoField : String
  /-- The value of `#scanInput`. -/
  scanInput : String
  /-- The texts passed to `alert`, oldest first. -/
  alerts : List String
  /-- The URLs of the POST requests sent, oldest first. -/
  requests : List String
  deriving DecidableEq

/-- The parts of the lookup response that the scan handler reads. -/
structure LookupData where
  /-- The truthiness of `data.ok`. -/
  ok : Bool
  error : JSVal
  /-- The field `data.pallet.condition_status`; `none` when `data.pallet` is missing or
  `null`, where the access throws. -/
  condition_status : Option JSVal
  /-- The truthiness of `data.active_cycle`. -/
  active_cycle : Bool

/-- The constant `blockedStatuses` of the scan handler. -/
def blockedStatuses : List String :=
  ["MOVE", "REWORK", "SCRAP", "REVALIDATION TIME END", "RE-VALIDATION NEED TO DONE SOON"]

/-- The test of the "Condition Status Gate":
`data.pallet.condition_status && blockedStatuses.includes(...toUpperCase())`. -/
def gateBlocks (upper : String → String) (condition_status : JSVal) : Bool :=
  match condition_status with
  | JSVal.str s => if s = "" then false else blockedStatuses.contains (upper s)
  | _ => false

/-- The scan handler (Enter in `#scanInput`) from the parsed lookup response on. Every path
ends with the scan input cleared, by the `finally` of the handler. -/
def scanLookup (upper : String → String) (page : IsosPage) (palletNo : String)
    (data : LookupData) : IsosPage :=
  let page := { page with scanInput := "" }
  if !data.ok then
    { page with alerts := page.alerts ++
        [if data.error.orEmpty = "" then "Pallet not found" else data.error.orEmpty] }
  else
    match data.condition_status with
    | none => { page with alerts := page.alerts ++ ["Lookup failed"] }
    | some condition_status =>
      if gateBlocks upper condition_status then
        { page with alerts := page.alerts ++
            ["❌ Access Denied: Pallet is in Condition Status \"" ++
              condition_status.orEmpty ++ "\""] }
      else
        let page := { page with palletNoField := palletNo }
        let page :=
          if data.active_cycle then
            { page with currentAction := some "IN", modalTitle := "Scan IN: " ++ palletNo }
          else
            { page with currentAction := some "OUT", modalTitle := "Scan OUT: " ++ palletNo }
        { page with modalShown := true }

/-- The constant `opId` of the submit handler, from `formData.operator_id`. -/
def opIdOf (upper : String → String) (operator_id : JSVal) : String :=
  match operator_id with
  | JSVal.str s => if s = "" then "" else upper (jsTrim s)
  | _ => ""

/-- The array `operators.map(o => o.operator_id.toUpperCase())`, given the `operator_id`
of each entry: `none` when the call throws on an entry without a string `operator_id`. -/
def validIdsOf (upper : String → String) : List JSVal → Option (List String)
  | [] => some []
  | JSVal.str s :: rest =>
    match validIdsOf upper rest with
    | some ids => some (upper s :: ids)
    | none => none
  | _ :: _ => none

/-- The submit handler (click on `#isosSubmitBtn`) up to the request it sends; `operators`
is the parsed operator list, `none` when its fetch failed. -/
def submitClick (upper : String → String) (page : IsosPage) (operator_id : JSVal)
    (operators : Option (List JSVal)) : IsosPage :=
  let opId := opIdOf upper operator_id
  match operators.bind (validIdsOf upper) with
  | none => { page with alerts := page.alerts ++ ["Could not validate operator ID"] }
  | some validIds =>
    if !validIds.contains opId then
      { page with alerts := page.alerts ++ ["❌ Invalid Operator ID are Notallowed."] }
    else
      let url := if page.currentAction = some "OUT" then "/api/isos_out" else "/api/isos_in"
      { page with requests := page.requests ++ [url] }

end Pallet

/-! ## The callbacks on the raw row data

The row callbacks above take the fields of the record already parsed. Here the callback is
followed from the object DataTables passes as `data`: a property access on `undefined` or
`null` throws a `TypeError`, every other step is defined on every value. `Date.parse` and
`parseFloat` are the parameters `dateParse` and `parseFloat`; `text(v)` shows `String(v)`.
-/

/-- The argument `data` of a row callback: missing, `null`, or an object. -/
inductive RowData where
  | undefined
  | null
  | obj (r : Record)

/-- An exception thrown by the callback. -/
inductive JSError where
  | typeError
  deriving DecidableEq

/-- The property access `data.k`: it throws on `undefined` and on `null`. -/
def getField (data : RowData) (k : String) : Except JSError JSValue :=
  match data with
  | RowData.obj r => Except.ok (getProp r k)
  | _ => Except.error JSError.typeError

/-- The text that `text(v || "")` shows for a stored value `v`. -/
def storedText (numToString : JSNum → String) (v : JSValue) : String :=
  if v.truthy then v.toStr numToString else ""

namespace Pallet

/-- The pallet `rowCallback` on the raw `data`. -/
def rowCallbackRaw (dateParse : JSValue → Option ℤ) (numToString : JSNum → String)
    (today : ℤ) (row : Row) (data : RowData) : Except JSError Row := do
  let row := removeClass highlightClasses row
  let reval ← getField data "pallet_revalidation_dt"
  let diffDays := diffDays (dateParse reval) today
  let condition_status ← getField data "condition_status"
  let condStatus := storedText numToString condition_status
  let (row, condStatus) :=
    match diffDays with
    | none => (row, condStatus)
    | some d =>
      if d ≤ 1 then (addClass "case3" row, "REVALIDATION TIME END")
      else if d ≤ 5 then (addClass "case2" row, "RE-VALIDATION NEED TO DONE SOON")
      else if d ≤ 10 then (addClass "case1" row, "RE-VALIDATION NEED TO DONE SOON")
      else (row, condStatus)
  pure (setCellText 9 condStatus row)

end Pallet

namespace Stencil

/-- The stencil `rowCallback` on the raw `data`. -/
def rowCallbackRaw (dateParse : JSValue → Option ℤ) (parseFloat : JSValue → JSNum)
    (numToString : JSNum → String) (today : ℤ) (row : Row) (data : RowData) :
    Except JSError Row := do
  let row := removeClass highlightClasses row
  let reval ← getField data "stencil_revalidation_dt"
  let diffDays := diffDays (dateParse reval) today
  let status ← getField data "status"
  let statusText := storedText numToString status
  let st := revalidationDateHighlight diffDays (row, statusText)
  let tension_a ← getField data "tension_a"
  let tension_b ← getField data "tension_b"
  let tension_c ← getField data "tension_c"
  let tension_d ← getField data "tension_d"
  let tension_e ← getField data "tension_e"
  let tensions := [parseFloat tension_a, parseFloat tension_b, parseFloat tension_c,
    parseFloat tension_d, parseFloat tension_e]
  let st := tensionHighlight tensions st
  pure (setCellText 14 st.2 st.1)

end Stencil

/-! ## The wall clock

A row callback takes `row` and `data` and reads the time itself. A call is modelled against
the wall clock: the reading that `new Date()` returns now and the readings of later calls.
-/

/-- The wall clock: the reading of the next `new Date()` and the readings after it. -/
structure WallClock where
  now : ℤ
  later : List ℤ
  deriving DecidableEq

/-- The expression `new Date()`: the current reading, and the clock moved on. -/
def WallClock.newDate (clock : WallClock) : ℤ × WallClock :=
  (clock.now,
    match clock.later with
    | [] => clock
    | t :: rest => ⟨t, rest⟩)

namespace Pallet

/-- A call `rowCallback(row, data)` of the pallet status table. -/
def rowCallbackCall (row : Row) (data : Data) (clock : WallClock) : Row × WallClock :=
  let today := clock.newDate
  (rowCallback today.1 row data, today.2)

end Pallet

namespace Stencil

/-- A call `rowCallback(row, data)` of the stencil status table. -/
def rowCallbackCall (row : Row) (data : Data) (clock : WallClock) : Row × WallClock :=
  let today := clock.newDate
  (rowCallback today.1 row data, today.2)

end Stencil

/-! ## Helper lemmas: date arithmetic -/

theorem msPerDay_eq : msPerDay = 86400000 := by decide

theorem ceilDays_le_iff (reval today n : ℤ) :
    ceilDays reval today ≤ n ↔ reval - today ≤ n * msPerDay := by
  unfold ceilDays
  rw [Int.ceil_le, div_le_iff₀ (by rw [msPerDay_eq]; norm_num)]
  exact_mod_cast Iff.rfl

theorem lt_ceilDays_iff (reval today n : ℤ) :
    n < ceilDays reval today ↔ n * msPerDay < reval - today := by
  rw [← not_le, ceilDays_le_iff, not_le]

/-- The ceiling as an integer division, used to evaluate `ceilDays` on concrete dates. -/
theorem ceilDays_eq (reval today : ℤ) :
    ceilDays reval today = -((today - reval) / msPerDay) := by
  apply le_antisymm
  · rw [ceilDays_le_iff]
    have := Int.lt_ediv_add_one_mul_self (today - reval) (show 0 < msPerDay by decide)
    have h2 := Int.ediv_mul_le (today - reval) (show msPerDay ≠ 0 by decide)
    nlinarith
  · have h : ceilDays reval today ≤ ceilDays reval today := le_refl _
    rw [ceilDays_le_iff] at h
    have h3 : today - reval ≥ (-(ceilDays reval today)) * msPerDay := by linarith
    have := Int.le_ediv_of_mul_le (show 0 < msPerDay by decide) h3
    linarith

/-! ## Helper lemmas: rows -/

theorem removeClass_cells (names : List String) (row : Row) :
    (removeClass names row).cells = row.cells := rfl

theorem addClass_cells (name : String) (row : Row) :
    (addClass name row).cells = row.cells := by
  unfold addClass
  split <;> rfl

theorem mem_removeClass (names : List String) (row : Row) (c : String) :
    c ∈ (removeClass names row).classes ↔ c ∈ row.classes ∧ c ∉ names := by
  simp [removeClass, List.mem_filter]

theorem highlights_removeClass (row : Row) :
    (removeClass highlightClasses row).highlights = [] := by
  simp only [Row.highlights, removeClass, List.filter_filter, List.filter_eq_nil_iff]
  intro c _
  cases h : highlightClasses.contains c <;> simp [h]

/-- Adding a class that the row does not carry appends it. -/
theorem addClass_classes (name : String) (row : Row) (h : name ∉ row.classes) :
    (addClass name row).classes = row.classes ++ [name] := by
  simp [addClass, h]

theorem mem_addClass (name : String) (row : Row) (c : String) :
    c ∈ (addClass name row).classes ↔ c ∈ row.classes ∨ c = name := by
  unfold addClass
  split
  · rename_i h
    have hm : name ∈ row.classes := by simpa using h
    constructor
    · exact fun hc => Or.inl hc
    · rintro (hc | rfl)
      · exact hc
      · exact hm
  · simp

/-- After the initial `removeClass`, adding one highlight class appends it. -/
theorem addClass_removeClass_classes (name : String) (row : Row)
    (h : name ∈ highlightClasses) :
    (addClass name (removeClass highlightClasses row)).classes =
      (removeClass highlightClasses row).classes ++ [name] := by
  apply addClass_classes
  rw [mem_removeClass]
  exact fun hc => hc.2 h

theorem highlights_append (row : Row) (extra : List String) :
    Row.highlights { row with classes := row.classes ++ extra } =
      row.highlights ++ extra.filter (fun c => highlightClasses.contains c) := by
  simp [Row.highlights]

theorem setCellText_classes (i : Nat) (txt : String) (row : Row) :
    (setCellText i txt row).classes = row.classes := rfl

theorem setCellText_highlights (i : Nat) (txt : String) (row : Row) :
    (setCellText i txt row).highlights = row.highlights := rfl

theorem setCellText_get (i : Nat) (txt : String) (row : Row) (h : i < row.cells.length) :
    (setCellText i txt row).cells[i]? = some txt := by
  simp [setCellText, h]

/-- After the initial `removeClass`, adding one highlight class leaves exactly it. -/
theorem highlights_addClass_removeClass (name : String) (row : Row)
    (h : name ∈ highlightClasses) :
    (addClass name (removeClass highlightClasses row)).highlights = [name] := by
  have h1 := addClass_removeClass_classes name row h
  have h2 := highlights_removeClass row
  unfold Row.highlights at h2 ⊢
  rw [h1, List.filter_append, h2]
  simp [h]

/-! ## C1: pallet, critical window -/

/-- C1. Pallet status page: when `pallet_revalidation_dt` parses and `diffDays <= 1`
(expired dates included), the status cell shows exactly "REVALIDATION TIME END" and the only
highlight class on the row is `case3`, appended to the row's other classes, whatever the
stored `condition_status` is. -/
theorem pallet_critical_window (today : ℤ) (row : Row) (data : Pallet.Data) (reval : ℤ)
    (hparse : data.pallet_revalidation_dt = some reval)
    (hdiff : ceilDays reval today ≤ 1)
    (hcell : 9 < row.cells.length) :
    (Pallet.rowCallback today row data).cells[9]? = some "REVALIDATION TIME END" ∧
    (Pallet.rowCallback today row data).classes =
      (removeClass highlightClasses row).classes ++ ["case3"] ∧
    (Pallet.rowCallback today row data).highlights = ["case3"] := by
  have hrow : Pallet.rowCallback today row data =
      setCellText 9 "REVALIDATION TIME END"
        (addClass "case3" (removeClass highlightClasses row)) := by
    simp [Pallet.rowCallback, diffDays, hparse, hdiff]
  rw [hrow]
  refine ⟨?_, ?_, ?_⟩
  · apply setCellText_get
    rw [addClass_cells, removeClass_cells]
    exact hcell
  · rw [setCellText_classes]
    exact addClass_removeClass_classes "case3" row (by decide)
  · rw [setCellText_highlights]
    exact highlights_addClass_removeClass "case3" row (by decide)

/-- Witness for C1: a date that expired 5 ms ago on a row marked `case1`, stored status
"MOVE". -/
theorem pallet_critical_window_witness :
    (Pallet.rowCallback 0 ⟨["odd", "case1"], List.replicate 12 "x"⟩
        ⟨some (-5), JSVal.str "MOVE"⟩).cells[9]? = some "REVALIDATION TIME END" ∧
    (Pallet.rowCallback 0 ⟨["odd", "case1"], List.replicate 12 "x"⟩
        ⟨some (-5), JSVal.str "MOVE"⟩).classes =
      (removeClass highlightClasses ⟨["odd", "case1"], List.replicate 12 "x"⟩).classes
        ++ ["case3"] ∧
    (Pallet.rowCallback 0 ⟨["odd", "case1"], List.replicate 12 "x"⟩
        ⟨some (-5), JSVal.str "MOVE"⟩).highlights = ["case3"] :=
  pallet_critical_window 0 ⟨["odd", "case1"], List.replicate 12 "x"⟩
    ⟨some (-5), JSVal.str "MOVE"⟩ (-5) rfl (by rw [ceilDays_eq]; decide) (by decide)

/-! ## Helper lemmas: the two blocks of the stencil callback -/

theorem revalidationDateHighlight_cells (d : Option ℤ) (st : Row × String) :
    (Stencil.revalidationDateHighlight d st).1.cells = st.1.cells := by
  unfold Stencil.revalidationDateHighlight
  cases d with
  | none => rfl
  | some d => dsimp only; split_ifs <;> simp [addClass_cells]

/-- The date block adds nothing but `case1`, `case2` or `case3`. -/
theorem revalidationDateHighlight_mem (d : Option ℤ) (st : Row × String) (c : String)
    (h : c ∈ (Stencil.revalidationDateHighlight d st).1.classes) :
    c ∈ st.1.classes ∨ c = "case1" ∨ c = "case2" ∨ c = "case3" := by
  unfold Stencil.revalidationDateHighlight at h
  cases d with
  | none => exact Or.inl h
  | some d =>
    dsimp only at h
    split_ifs at h
    · rcases (mem_addClass _ _ _).1 h with h | h
      · exact Or.inl h
      · exact Or.inr (Or.inr (Or.inr h))
    · rcases (mem_addClass _ _ _).1 h with h | h
      · exact Or.inl h
      · exact Or.inr (Or.inr (Or.inl h))
    · rcases (mem_addClass _ _ _).1 h with h | h
      · exact Or.inl h
      · exact Or.inr (Or.inl h)
    · exact Or.inl h

/-- After the initial `removeClass` and the date block the row carries no tension class. -/
theorem tension_not_mem_after_date (d : Option ℤ) (row : Row) (txt c : String)
    (hc : c = "tension-red" ∨ c = "tension-pink") :
    c ∉ (Stencil.revalidationDateHighlight d
      (removeClass highlightClasses row, txt)).1.classes := by
  intro h
  rcases revalidationDateHighlight_mem _ _ _ h with h | h | h | h
  · rw [mem_removeClass] at h
    rcases hc with rfl | rfl <;> exact h.2 (by decide)
  all_goals rcases hc with rfl | rfl <;> exact absurd h (by decide)

/-- Entries on which neither test of the loop fires are passed over. -/
theorem tensionHighlight_skip (pre rest : List JSNum) (st : Row × String)
    (h : ∀ u ∈ pre, u.lt 35 = false ∧ u.strictEq 35 = false ∧ u.strictEq 36 = false) :
    Stencil.tensionHighlight (pre ++ rest) st = Stencil.tensionHighlight rest st := by
  induction pre with
  | nil => rfl
  | cons u pre ih =>
    have hu := h u (List.mem_cons_self _ _)
    have ih2 := ih (fun v hv => h v (List.mem_cons_of_mem _ hv))
    simp [Stencil.tensionHighlight, hu.1, hu.2.1, hu.2.2, ih2]

theorem tensionHighlight_none (ts : List JSNum) (st : Row × String)
    (h : ∀ u ∈ ts, u.lt 35 = false ∧ u.strictEq 35 = false ∧ u.strictEq 36 = false) :
    Stencil.tensionHighlight ts st = st := by
  have := tensionHighlight_skip ts [] st h
  simpa [Stencil.tensionHighlight] using this

/-- The first test of the loop: a value below 35 ends the scan. -/
theorem tensionHighlight_fail (t : JSNum) (post : List JSNum) (st : Row × String)
    (h : t.lt 35 = true) :
    Stencil.tensionHighlight (t :: post) st =
      (addClass "tension-red" st.1, "Stencil EOL") := by
  have hn : t.isNaN = false := by
    cases t <;> simp_all [JSNum.lt, JSNum.isNaN]
  simp [Stencil.tensionHighlight, h, hn]

/-- The second test of the loop: a value equal to 35 or 36 ends the scan when no earlier
value is below 35. -/
theorem tensionHighlight_warn (pre : List JSNum) (w : JSNum) (post : List JSNum)
    (st : Row × String) (hpre : ∀ u ∈ pre, u.lt 35 = false)
    (hw : w = JSNum.fin 35 ∨ w = JSNum.fin 36) :
    Stencil.tensionHighlight (pre ++ w :: post) st =
      (addClass "tension-pink" st.1, "Stencil Re-Order Soon") := by
  induction pre with
  | nil =>
    have h35 : ¬ ((35 : ℚ) < 35) := by norm_num
    have h36 : ¬ ((36 : ℚ) < 35) := by norm_num
    rcases hw with rfl | rfl <;>
      simp [Stencil.tensionHighlight, JSNum.isNaN, JSNum.lt, JSNum.strictEq, h35, h36]
  | cons u pre ih =>
    have hu := hpre u (List.mem_cons_self _ _)
    have ih2 := ih (fun v hv => hpre v (List.mem_cons_of_mem _ hv))
    simp only [List.cons_append, Stencil.tensionHighlight, hu]
    by_cases h1 : u.isNaN = true
    · simp [h1, ih2]
    · by_cases h2 : (u.strictEq 35 || u.strictEq 36) = true
      · simp [h1, h2]
      · simp [h1, h2, ih2]

/-- The loop leaves its input unchanged or ends in one of its two `break` branches. -/
theorem tensionHighlight_cases (ts : List JSNum) (st : Row × String) :
    Stencil.tensionHighlight ts st = st ∨
    Stencil.tensionHighlight ts st = (addClass "tension-red" st.1, "Stencil EOL") ∨
    Stencil.tensionHighlight ts st =
      (addClass "tension-pink" st.1, "Stencil Re-Order Soon") := by
  induction ts with
  | nil => exact Or.inl rfl
  | cons t rest ih =>
    unfold Stencil.tensionHighlight
    split_ifs
    · exact Or.inr (Or.inl rfl)
    · exact Or.inr (Or.inr rfl)
    · exact ih
    · exact ih

/-- In the critical window the date block adds `case3` and sets its text. -/
theorem revalidationDateHighlight_critical (d : ℤ) (st : Row × String) (h : d ≤ 1) :
    Stencil.revalidationDateHighlight (some d) st =
      (addClass "case3" st.1, "Revalidation Time End") := by
  simp [Stencil.revalidationDateHighlight, h]

/-- Which branch ends the loop depends on the tension list only. -/
theorem tensionHighlight_uniform (ts : List JSNum) :
    (∀ st, Stencil.tensionHighlight ts st = st) ∨
    (∀ st, Stencil.tensionHighlight ts st =
      (addClass "tension-red" st.1, "Stencil EOL")) ∨
    (∀ st, Stencil.tensionHighlight ts st =
      (addClass "tension-pink" st.1, "Stencil Re-Order Soon")) := by
  induction ts with
  | nil => exact Or.inl (fun _ => rfl)
  | cons t rest ih =>
    by_cases h1 : (!t.isNaN) = true
    · by_cases h2 : t.lt 35 = true
      · exact Or.inr (Or.inl (fun st => by simp [Stencil.tensionHighlight, h1, h2]))
      · by_cases h3 : (t.strictEq 35 || t.strictEq 36) = true
        · exact Or.inr (Or.inr (fun st => by
            rw [Stencil.tensionHighlight, if_pos h1, if_neg h2, if_pos h3]))
        · rcases ih with h | h | h
          · exact Or.inl (fun st => by
              rw [Stencil.tensionHighlight, if_pos h1, if_neg h2, if_neg h3, h])
          · exact Or.inr (Or.inl (fun st => by
              rw [Stencil.tensionHighlight, if_pos h1, if_neg h2, if_neg h3, h]))
          · exact Or.inr (Or.inr (fun st => by
              rw [Stencil.tensionHighlight, if_pos h1, if_neg h2, if_neg h3, h]))
    · rcases ih with h | h | h
      · exact Or.inl (fun st => by rw [Stencil.tensionHighlight, if_neg h1, h])
      · exact Or.inr (Or.inl (fun st => by rw [Stencil.tensionHighlight, if_neg h1, h]))
      · exact Or.inr (Or.inr (fun st => by rw [Stencil.tensionHighlight, if_neg h1, h]))

/-- In the 2 to 10 day window the date block adds `case2` or `case1` and sets its text. -/
theorem revalidationDateHighlight_soon (d : ℤ) (st : Row × String)
    (hlo : 2 ≤ d) (hhi : d ≤ 10) :
    Stencil.revalidationDateHighlight (some d) st =
      (addClass (if d ≤ 5 then "case2" else "case1") st.1,
        "Re-Validation Need to Done Soon") := by
  have h1 : ¬ d ≤ 1 := by omega
  by_cases h5 : d ≤ 5 <;> simp [Stencil.revalidationDateHighlight, h1, h5, hhi]

/-- The pallet callback in the 2 to 10 day window. -/
theorem pallet_rowCallback_soon (today : ℤ) (row : Row) (cs : JSVal) (r : ℤ)
    (hlo : 2 ≤ ceilDays r today) (hhi : ceilDays r today ≤ 10) :
    Pallet.rowCallback today row ⟨some r, cs⟩ =
      setCellText 9 "RE-VALIDATION NEED TO DONE SOON"
        (addClass (if ceilDays r today ≤ 5 then "case2" else "case1")
          (removeClass highlightClasses row)) := by
  have h1 : ¬ ceilDays r today ≤ 1 := by omega
  by_cases h5 : ceilDays r today ≤ 5 <;>
    simp [Pallet.rowCallback, diffDays, h1, h5, hhi]

theorem orEmpty_eq (v : JSVal) :
    v.orEmpty = match v with
      | JSVal.str s => s
      | _ => "" := by
  cases v with
  | undefined => rfl
  | null => rfl
  | str s =>
    simp only [JSVal.orEmpty]
    split_ifs with h
    · exact h.symm
    · rfl

/-- The stencil callback as the composition of its blocks. -/
theorem stencil_rowCallback_eq (today : ℤ) (row : Row) (data : Stencil.Data) :
    Stencil.rowCallback today row data =
      setCellText 14
        (Stencil.tensionHighlight (Stencil.tensions data)
          (Stencil.revalidationDateHighlight (diffDays data.stencil_revalidation_dt today)
            (removeClass highlightClasses row, data.status.orEmpty))).2
        (Stencil.tensionHighlight (Stencil.tensions data)
          (Stencil.revalidationDateHighlight (diffDays data.stencil_revalidation_dt today)
            (removeClass highlightClasses row, data.status.orEmpty))).1 := rfl

/-! ## C3: the first failing tension value wins -/

/-- C3. Stencil status page: when the first tension value on which either test of the loop
fires is below 35, the status cell shows "Stencil EOL" and `tension-red` is appended to
the classes the date block left (and `tension-pink` is not added), whatever the date block
produced and whatever values follow in the list. -/
theorem stencil_first_failing_wins (today : ℤ) (row : Row) (data : Stencil.Data)
    (pre : List JSNum) (t : JSNum) (post : List JSNum)
    (hsplit : Stencil.tensions data = pre ++ t :: post)
    (hpre : ∀ u ∈ pre, u.lt 35 = false ∧ u.strictEq 35 = false ∧ u.strictEq 36 = false)
    (hfail : t.lt 35 = true)
    (hcell : 14 < row.cells.length) :
    (Stencil.rowCallback today row data).cells[14]? = some "Stencil EOL" ∧
    (Stencil.rowCallback today row data).classes =
      (Stencil.revalidationDateHighlight (diffDays data.stencil_revalidation_dt today)
        (removeClass highlightClasses row, data.status.orEmpty)).1.classes
        ++ ["tension-red"] ∧
    "tension-pink" ∉ (Stencil.rowCallback today row data).classes := by
  rw [stencil_rowCallback_eq, hsplit, tensionHighlight_skip pre _ _ hpre,
    tensionHighlight_fail t post _ hfail]
  have hnot := tension_not_mem_after_date (diffDays data.stencil_revalidation_dt today) row
    data.status.orEmpty
  refine ⟨?_, ?_, ?_⟩
  · apply setCellText_get
    rw [addClass_cells, revalidationDateHighlight_cells, removeClass_cells]
    exact hcell
  · rw [setCellText_classes]
    exact addClass_classes _ _ (hnot "tension-red" (Or.inl rfl))
  · rw [setCellText_classes, mem_addClass]
    rintro (h | h)
    · exact hnot "tension-pink" (Or.inr rfl) h
    · exact absurd h (by decide)

/-- Witness for C3: tensions 40, 34, 36 (the last two fields absent) on a date 3 days off:
the scan stops at 34. -/
theorem stencil_first_failing_wins_witness :
    (Stencil.rowCallback 0 ⟨["odd"], List.replicate 16 "x"⟩
      ⟨some 259200000, JSVal.null, JSNum.fin 40, JSNum.fin 34, JSNum.fin 36, JSNum.nan,
        JSNum.nan⟩).cells[14]? = some "Stencil EOL" ∧
    (Stencil.rowCallback 0 ⟨["odd"], List.replicate 16 "x"⟩
      ⟨some 259200000, JSVal.null, JSNum.fin 40, JSNum.fin 34, JSNum.fin 36, JSNum.nan,
        JSNum.nan⟩).classes =
      (Stencil.revalidationDateHighlight (diffDays (some 259200000) 0)
        (removeClass highlightClasses ⟨["odd"], List.replicate 16 "x"⟩,
          JSVal.null.orEmpty)).1.classes ++ ["tension-red"] ∧
    "tension-pink" ∉ (Stencil.rowCallback 0 ⟨["odd"], List.replicate 16 "x"⟩
      ⟨some 259200000, JSVal.null, JSNum.fin 40, JSNum.fin 34, JSNum.fin 36, JSNum.nan,
        JSNum.nan⟩).classes :=
  stencil_first_failing_wins 0 ⟨["odd"], List.replicate 16 "x"⟩
    ⟨some 259200000, JSVal.null, JSNum.fin 40, JSNum.fin 34, JSNum.fin 36, JSNum.nan,
      JSNum.nan⟩
    [JSNum.fin 40] (JSNum.fin 34) [JSNum.fin 36, JSNum.nan, JSNum.nan] rfl
    (by decide) (by decide) (by decide)

/-! ## C4: a value equal to 35 or 36 and none below 35 -/

/-- C4. Stencil status page: when no tension value is below 35 and at least one equals 35
or 36, the status cell shows "Stencil Re-Order Soon" and `tension-pink` is appended to the
classes the date block left (and `tension-red` is not added). -/
theorem stencil_reorder_soon (today : ℤ) (row : Row) (data : Stencil.Data)
    (hnone : ∀ u ∈ Stencil.tensions data, u.lt 35 = false)
    (hsome : ∃ u ∈ Stencil.tensions data, u = JSNum.fin 35 ∨ u = JSNum.fin 36)
    (hcell : 14 < row.cells.length) :
    (Stencil.rowCallback today row data).cells[14]? = some "Stencil Re-Order Soon" ∧
    (Stencil.rowCallback today row data).classes =
      (Stencil.revalidationDateHighlight (diffDays data.stencil_revalidation_dt today)
        (removeClass highlightClasses row, data.status.orEmpty)).1.classes
        ++ ["tension-pink"] ∧
    "tension-red" ∉ (Stencil.rowCallback today row data).classes := by
  obtain ⟨w, hmem, hw⟩ := hsome
  obtain ⟨pre, post, hsplit⟩ := List.append_of_mem hmem
  have hpre : ∀ u ∈ pre, u.lt 35 = false := fun u hu =>
    hnone u (by rw [hsplit]; exact List.mem_append_left _ hu)
  rw [stencil_rowCallback_eq, hsplit, tensionHighlight_warn pre w post _ hpre hw]
  have hnot := tension_not_mem_after_date (diffDays data.stencil_revalidation_dt today) row
    data.status.orEmpty
  refine ⟨?_, ?_, ?_⟩
  · apply setCellText_get
    rw [addClass_cells, revalidationDateHighlight_cells, removeClass_cells]
    exact hcell
  · rw [setCellText_classes]
    exact addClass_classes _ _ (hnot "tension-pink" (Or.inr rfl))
  · rw [setCellText_classes, mem_addClass]
    rintro (h | h)
    · exact hnot "tension-red" (Or.inl rfl) h
    · exact absurd h (by decide)

/-- Witness for C4: tensions 40, 41, 35 (the last two fields absent), no date: the match is
at index 2. -/
theorem stencil_reorder_soon_witness :
    (Stencil.rowCallback 0 ⟨["odd"], List.replicate 16 "x"⟩
      ⟨none, JSVal.null, JSNum.fin 40, JSNum.fin 41, JSNum.fin 35, JSNum.nan,
        JSNum.nan⟩).cells[14]? = some "Stencil Re-Order Soon" ∧
    (Stencil.rowCallback 0 ⟨["odd"], List.replicate 16 "x"⟩
      ⟨none, JSVal.null, JSNum.fin 40, JSNum.fin 41, JSNum.fin 35, JSNum.nan,
        JSNum.nan⟩).classes =
      (Stencil.revalidationDateHighlight (diffDays none 0)
        (removeClass highlightClasses ⟨["odd"], List.replicate 16 "x"⟩,
          JSVal.null.orEmpty)).1.classes ++ ["tension-pink"] ∧
    "tension-red" ∉ (Stencil.rowCallback 0 ⟨["odd"], List.replicate 16 "x"⟩
      ⟨none, JSVal.null, JSNum.fin 40, JSNum.fin 41, JSNum.fin 35, JSNum.nan,
        JSNum.nan⟩).classes :=
  stencil_reorder_soon 0 ⟨["odd"], List.replicate 16 "x"⟩
    ⟨none, JSVal.null, JSNum.fin 40, JSNum.fin 41, JSNum.fin 35, JSNum.nan, JSNum.nan⟩
    (by decide) ⟨JSNum.fin 35, by decide, Or.inl rfl⟩ (by decide)

/-! ## C5: no tension test fires -/

/-- C5. Stencil status page: when every tension value is unparseable (NaN) or above 35 and
different from 36, the tension block changes nothing: the callback returns the row the date
block produced, with the date block's text written to the status cell. -/
theorem stencil_no_tension_match (today : ℤ) (row : Row) (data : Stencil.Data)
    (hno : ∀ u ∈ Stencil.tensions data,
      u = JSNum.nan ∨ u = JSNum.posInf ∨ ∃ q, u = JSNum.fin q ∧ 35 < q ∧ q ≠ 36) :
    Stencil.rowCallback today row data =
      setCellText 14
        (Stencil.revalidationDateHighlight (diffDays data.stencil_revalidation_dt today)
          (removeClass highlightClasses row, data.status.orEmpty)).2
        (Stencil.revalidationDateHighlight (diffDays data.stencil_revalidation_dt today)
          (removeClass highlightClasses row, data.status.orEmpty)).1 := by
  have hcode : ∀ u ∈ Stencil.tensions data,
      u.lt 35 = false ∧ u.strictEq 35 = false ∧ u.strictEq 36 = false := by
    intro u hu
    rcases hno u hu with rfl | rfl | ⟨q, rfl, hq, hq36⟩
    · exact ⟨rfl, rfl, rfl⟩
    · exact ⟨rfl, rfl, rfl⟩
    · refine ⟨?_, ?_, ?_⟩
      · simpa [JSNum.lt] using le_of_lt hq
      · simpa [JSNum.strictEq] using ne_of_gt hq
      · simpa [JSNum.strictEq] using hq36
  rw [stencil_rowCallback_eq, tensionHighlight_none _ _ hcode]

/-- Witness for C5: tensions 40, 41, 42, 35.5 (the last field absent) on a date 3 days off
give the date block's text and `case2`. -/
theorem stencil_no_tension_match_witness :
    Stencil.rowCallback 0 ⟨["odd", "tension-red"], List.replicate 16 "x"⟩
      ⟨some 259200000, JSVal.str "MOVE", JSNum.fin 40, JSNum.fin 41, JSNum.fin 42,
        JSNum.fin (71 / 2), JSNum.nan⟩ =
    ⟨["odd", "case2"],
      List.replicate 14 "x" ++ ["Re-Validation Need to Done Soon", "x"]⟩ := by
  have h : ceilDays 259200000 0 = 3 := by rw [ceilDays_eq]; decide
  rw [stencil_no_tension_match 0 ⟨["odd", "tension-red"], List.replicate 16 "x"⟩
    ⟨some 259200000, JSVal.str "MOVE", JSNum.fin 40, JSNum.fin 41, JSNum.fin 42,
      JSNum.fin (71 / 2), JSNum.nan⟩
    (by
      intro u hu
      simp only [Stencil.tensions, List.mem_cons, List.mem_singleton, List.not_mem_nil,
        or_false] at hu
      rcases hu with rfl | rfl | rfl | rfl | rfl
      · exact Or.inr (Or.inr ⟨40, rfl, by norm_num, by norm_num⟩)
      · exact Or.inr (Or.inr ⟨41, rfl, by norm_num, by norm_num⟩)
      · exact Or.inr (Or.inr ⟨42, rfl, by norm_num, by norm_num⟩)
      · exact Or.inr (Or.inr ⟨71 / 2, rfl, by norm_num, by norm_num⟩)
      · exact Or.inl rfl)]
  simp only [diffDays, Option.map, h]
  decide

/-! ## C6: pallet, the 2 to 10 day window -/

/-- C6. Pallet status page: when `pallet_revalidation_dt` parses and `2 <= diffDays <= 10`,
the status cell shows exactly "RE-VALIDATION NEED TO DONE SOON"; on the same record with
another date, `diffDays <= 1` gives "REVALIDATION TIME END" and `diffDays >= 11` gives the
stored `condition_status`. -/
theorem pallet_soon_window (today : ℤ) (row : Row) (data : Pallet.Data) (reval : ℤ)
    (hparse : data.pallet_revalidation_dt = some reval)
    (hlo : 2 ≤ ceilDays reval today) (hhi : ceilDays reval today ≤ 10)
    (hcell : 9 < row.cells.length) :
    (Pallet.rowCallback today row data).cells[9]? =
      some "RE-VALIDATION NEED TO DONE SOON" ∧
    (∀ r, ceilDays r today ≤ 1 →
      (Pallet.rowCallback today row ⟨some r, data.condition_status⟩).cells[9]? =
        some "REVALIDATION TIME END") ∧
    (∀ r, 11 ≤ ceilDays r today →
      (Pallet.rowCallback today row ⟨some r, data.condition_status⟩).cells[9]? =
        some data.condition_status.orEmpty) := by
  refine ⟨?_, ?_, ?_⟩
  · have h1 : ¬ ceilDays reval today ≤ 1 := by omega
    by_cases h5 : ceilDays reval today ≤ 5
    · have hrow : Pallet.rowCallback today row data =
          setCellText 9 "RE-VALIDATION NEED TO DONE SOON"
            (addClass "case2" (removeClass highlightClasses row)) := by
        simp [Pallet.rowCallback, diffDays, hparse, h1, h5]
      rw [hrow]
      apply setCellText_get
      rw [addClass_cells, removeClass_cells]
      exact hcell
    · have hrow : Pallet.rowCallback today row data =
          setCellText 9 "RE-VALIDATION NEED TO DONE SOON"
            (addClass "case1" (removeClass highlightClasses row)) := by
        simp [Pallet.rowCallback, diffDays, hparse, h1, h5, hhi]
      rw [hrow]
      apply setCellText_get
      rw [addClass_cells, removeClass_cells]
      exact hcell
  · intro r hr
    have hrow : Pallet.rowCallback today row ⟨some r, data.condition_status⟩ =
        setCellText 9 "REVALIDATION TIME END"
          (addClass "case3" (removeClass highlightClasses row)) := by
      simp [Pallet.rowCallback, diffDays, hr]
    rw [hrow]
    apply setCellText_get
    rw [addClass_cells, removeClass_cells]
    exact hcell
  · intro r hr
    have h1 : ¬ ceilDays r today ≤ 1 := by omega
    have h5 : ¬ ceilDays r today ≤ 5 := by omega
    have h10 : ¬ ceilDays r today ≤ 10 := by omega
    have hrow : Pallet.rowCallback today row ⟨some r, data.condition_status⟩ =
        setCellText 9 data.condition_status.orEmpty
          (removeClass highlightClasses row) := by
      simp [Pallet.rowCallback, diffDays, h1, h5, h10]
    rw [hrow]
    apply setCellText_get
    rw [removeClass_cells]
    exact hcell

/-- Witness for C6: the boundaries 2, 5, 6 and 10 days give the text, 1 day gives the
critical text and 11 days give the stored "MOVE". -/
theorem pallet_soon_window_witness :
    ((Pallet.rowCallback 0 ⟨[], List.replicate 12 "x"⟩
        ⟨some (2 * 86400000), JSVal.str "MOVE"⟩).cells[9]? =
      some "RE-VALIDATION NEED TO DONE SOON" ∧
    (Pallet.rowCallback 0 ⟨[], List.replicate 12 "x"⟩
        ⟨some (5 * 86400000), JSVal.str "MOVE"⟩).cells[9]? =
      some "RE-VALIDATION NEED TO DONE SOON" ∧
    (Pallet.rowCallback 0 ⟨[], List.replicate 12 "x"⟩
        ⟨some (6 * 86400000), JSVal.str "MOVE"⟩).cells[9]? =
      some "RE-VALIDATION NEED TO DONE SOON" ∧
    (Pallet.rowCallback 0 ⟨[], List.replicate 12 "x"⟩
        ⟨some (10 * 86400000), JSVal.str "MOVE"⟩).cells[9]? =
      some "RE-VALIDATION NEED TO DONE SOON") ∧
    (Pallet.rowCallback 0 ⟨[], List.replicate 12 "x"⟩
        ⟨some (1 * 86400000), JSVal.str "MOVE"⟩).cells[9]? =
      some "REVALIDATION TIME END" ∧
    (Pallet.rowCallback 0 ⟨[], List.replicate 12 "x"⟩
        ⟨some (11 * 86400000), JSVal.str "MOVE"⟩).cells[9]? = some "MOVE" := by
  have e1 : ceilDays (1 * 86400000) 0 = 1 := by rw [ceilDays_eq]; decide
  have e2 : ceilDays (2 * 86400000) 0 = 2 := by rw [ceilDays_eq]; decide
  have e5 : ceilDays (5 * 86400000) 0 = 5 := by rw [ceilDays_eq]; decide
  have e6 : ceilDays (6 * 86400000) 0 = 6 := by rw [ceilDays_eq]; decide
  have e10 : ceilDays (10 * 86400000) 0 = 10 := by rw [ceilDays_eq]; decide
  have e11 : ceilDays (11 * 86400000) 0 = 11 := by rw [ceilDays_eq]; decide
  have w2 := pallet_soon_window 0 ⟨[], List.replicate 12 "x"⟩
    ⟨some (2 * 86400000), JSVal.str "MOVE"⟩ (2 * 86400000) rfl
    (by rw [e2]) (by rw [e2]; decide) (by decide)
  have w5 := pallet_soon_window 0 ⟨[], List.replicate 12 "x"⟩
    ⟨some (5 * 86400000), JSVal.str "MOVE"⟩ (5 * 86400000) rfl
    (by rw [e5]; decide) (by rw [e5]; decide) (by decide)
  have w6 := pallet_soon_window 0 ⟨[], List.replicate 12 "x"⟩
    ⟨some (6 * 86400000), JSVal.str "MOVE"⟩ (6 * 86400000) rfl
    (by rw [e6]; decide) (by rw [e6]; decide) (by decide)
  have w10 := pallet_soon_window 0 ⟨[], List.replicate 12 "x"⟩
    ⟨some (10 * 86400000), JSVal.str "MOVE"⟩ (10 * 86400000) rfl
    (by rw [e10]; decide) (by rw [e10]) (by decide)
  exact ⟨⟨w2.1, w5.1, w6.1, w10.1⟩, w2.2.1 (1 * 86400000) (by rw [e1]),
    w2.2.2 (11 * 86400000) (by rw [e11])⟩

/-! ## C7: the 2 to 5 day and the 6 to 10 day windows -/

/-- C7 (as stated, refuted). With `diffDays = 2` the row gets `case2`, with `diffDays = 10` it
gets `case1`, in the pallet and in the stencil callback: the two windows do not add the same
highlight class. -/
theorem date_windows_counterexample :
    ceilDays (2 * 86400000) 0 = 2 ∧ ceilDays (10 * 86400000) 0 = 10 ∧
    (Pallet.rowCallback 0 ⟨[], List.replicate 12 "x"⟩
      ⟨some (2 * 86400000), JSVal.null⟩).highlights = ["case2"] ∧
    (Pallet.rowCallback 0 ⟨[], List.replicate 12 "x"⟩
      ⟨some (10 * 86400000), JSVal.null⟩).highlights = ["case1"] ∧
    (Stencil.rowCallback 0 ⟨[], List.replicate 16 "x"⟩
      ⟨some (2 * 86400000), JSVal.null, JSNum.nan, JSNum.nan, JSNum.nan, JSNum.nan,
        JSNum.nan⟩).highlights = ["case2"] ∧
    (Stencil.rowCallback 0 ⟨[], List.replicate 16 "x"⟩
      ⟨some (10 * 86400000), JSVal.null, JSNum.nan, JSNum.nan, JSNum.nan, JSNum.nan,
        JSNum.nan⟩).highlights = ["case1"] := by
  have e2 : ceilDays (2 * 86400000) 0 = 2 := by rw [ceilDays_eq]; decide
  have e10 : ceilDays (10 * 86400000) 0 = 10 := by rw [ceilDays_eq]; decide
  refine ⟨e2, e10, ?_, ?_, ?_, ?_⟩
  · rw [pallet_rowCallback_soon _ _ _ _ (by rw [e2]) (by rw [e2]; decide), e2]; decide
  · rw [pallet_rowCallback_soon _ _ _ _ (by rw [e10]; decide) (by rw [e10]), e10]; decide
  · simp only [stencil_rowCallback_eq, diffDays, Option.map, e2]; decide
  · simp only [stencil_rowCallback_eq, diffDays, Option.map, e10]; decide

/-- C7 (amended). For two revalidation dates whose `diffDays` both lie in 2..10, the pallet
callback and the stencil callback (same record, same row) write the same cell texts; the
highlight class added by the date block is `case2` when `diffDays <= 5` and `case1` when
`diffDays >= 6`. -/
theorem date_windows_same_text (today : ℤ) (prow : Row) (pcs : JSVal) (srow : Row)
    (sdata : Stencil.Data) (r1 r2 : ℤ)
    (h1lo : 2 ≤ ceilDays r1 today) (h1hi : ceilDays r1 today ≤ 10)
    (h2lo : 2 ≤ ceilDays r2 today) (h2hi : ceilDays r2 today ≤ 10) :
    (Pallet.rowCallback today prow ⟨some r1, pcs⟩).cells =
      (Pallet.rowCallback today prow ⟨some r2, pcs⟩).cells ∧
    (Stencil.rowCallback today srow { sdata with stencil_revalidation_dt := some r1 }).cells =
      (Stencil.rowCallback today srow
        { sdata with stencil_revalidation_dt := some r2 }).cells ∧
    (Pallet.rowCallback today prow ⟨some r1, pcs⟩).highlights =
      [if ceilDays r1 today ≤ 5 then "case2" else "case1"] ∧
    ("case2" ∈ (Stencil.rowCallback today srow
        { sdata with stencil_revalidation_dt := some r1 }).classes ↔
      ceilDays r1 today ≤ 5) ∧
    ("case1" ∈ (Stencil.rowCallback today srow
        { sdata with stencil_revalidation_dt := some r1 }).classes ↔
      6 ≤ ceilDays r1 today) := by
  have hpc : ∀ r, 2 ≤ ceilDays r today → ceilDays r today ≤ 10 →
      (Pallet.rowCallback today prow ⟨some r, pcs⟩).cells =
        prow.cells.set 9 "RE-VALIDATION NEED TO DONE SOON" := by
    intro r hlo hhi
    rw [pallet_rowCallback_soon _ _ _ _ hlo hhi]
    simp [setCellText, addClass_cells, removeClass_cells]
  have hts : Stencil.tensions { sdata with stencil_revalidation_dt := some r1 } =
      Stencil.tensions sdata := rfl
  have hts2 : Stencil.tensions { sdata with stencil_revalidation_dt := some r2 } =
      Stencil.tensions sdata := rfl
  have hin : ∀ c : String, c = "case1" ∨ c = "case2" →
      (c ∈ (addClass (if ceilDays r1 today ≤ 5 then "case2" else "case1")
          (removeClass highlightClasses srow)).classes ↔
        c = (if ceilDays r1 today ≤ 5 then "case2" else "case1")) := by
    intro c hc
    rw [mem_addClass, mem_removeClass]
    constructor
    · rintro (h | h)
      · rcases hc with rfl | rfl <;> exact absurd (by decide) h.2
      · exact h
    · exact fun h => Or.inr h
  have hsd : ∀ r, diffDays
      ({ sdata with stencil_revalidation_dt := some r } : Stencil.Data).stencil_revalidation_dt
      today = some (ceilDays r today) := fun r => rfl
  have hmem : ∀ c : String, c = "case1" ∨ c = "case2" →
      (c ∈ (Stencil.rowCallback today srow
          { sdata with stencil_revalidation_dt := some r1 }).classes ↔
        c = (if ceilDays r1 today ≤ 5 then "case2" else "case1")) := by
    intro c hc
    rw [stencil_rowCallback_eq, hsd, hts, revalidationDateHighlight_soon _ _ h1lo h1hi,
      setCellText_classes]
    rcases tensionHighlight_uniform (Stencil.tensions sdata) with h | h | h <;> rw [h]
    · exact hin c hc
    · rw [mem_addClass, hin c hc]
      constructor
      · rintro (h | h)
        · exact h
        · rcases hc with rfl | rfl <;> exact absurd h (by decide)
      · exact fun h => Or.inl h
    · rw [mem_addClass, hin c hc]
      constructor
      · rintro (h | h)
        · exact h
        · rcases hc with rfl | rfl <;> exact absurd h (by decide)
      · exact fun h => Or.inl h
  refine ⟨?_, ?_, ?_, ?_, ?_⟩
  · rw [hpc r1 h1lo h1hi, hpc r2 h2lo h2hi]
  · rw [stencil_rowCallback_eq, stencil_rowCallback_eq, hsd, hsd, hts, hts2,
      revalidationDateHighlight_soon _ _ h1lo h1hi,
      revalidationDateHighlight_soon _ _ h2lo h2hi]
    rcases tensionHighlight_uniform (Stencil.tensions sdata) with h | h | h <;>
      simp [h, setCellText, addClass_cells, removeClass_cells]
  · rw [pallet_rowCallback_soon _ _ _ _ h1lo h1hi, setCellText_highlights]
    apply highlights_addClass_removeClass
    split_ifs <;> decide
  · rw [hmem "case2" (Or.inr rfl)]
    by_cases h5 : ceilDays r1 today ≤ 5
    · simp [h5]
    · simp [h5]
  · rw [hmem "case1" (Or.inl rfl)]
    by_cases h5 : ceilDays r1 today ≤ 5
    · have : ¬ 6 ≤ ceilDays r1 today := by omega
      simp [h5, this]
    · have : 6 ≤ ceilDays r1 today := by omega
      simp [h5, this]

/-- Witness for C7 (amended): 2 days against 10 days, stencil tensions 40, 40, 40. -/
theorem date_windows_same_text_witness :
    (Pallet.rowCallback 0 ⟨[], List.replicate 12 "x"⟩
        ⟨some (2 * 86400000), JSVal.str "MOVE"⟩).cells =
      (Pallet.rowCallback 0 ⟨[], List.replicate 12 "x"⟩
        ⟨some (10 * 86400000), JSVal.str "MOVE"⟩).cells :=
  (date_windows_same_text 0 ⟨[], List.replicate 12 "x"⟩ (JSVal.str "MOVE")
    ⟨[], List.replicate 16 "x"⟩
    ⟨none, JSVal.null, JSNum.fin 40, JSNum.fin 40, JSNum.fin 40, JSNum.nan, JSNum.nan⟩
    (2 * 86400000) (10 * 86400000)
    (by rw [ceilDays_eq]; decide) (by rw [ceilDays_eq]; decide)
    (by rw [ceilDays_eq]; decide) (by rw [ceilDays_eq]; decide)).1

/-! ## C8: passthrough -/

/-- C8. Passthrough: when the revalidation date is absent or unparseable or has
`diffDays > 10`, and (stencil) no tension test fires, the status cell shows the stored
condition field unchanged (the empty string when the field is absent) and the row keeps
only its own non-highlight classes: no highlight class is added. -/
theorem passthrough (today : ℤ) (prow : Row) (pdata : Pallet.Data) (srow : Row)
    (sdata : Stencil.Data)
    (hp : ∀ r, pdata.pallet_revalidation_dt = some r → 10 < ceilDays r today)
    (hs : ∀ r, sdata.stencil_revalidation_dt = some r → 10 < ceilDays r today)
    (hno : ∀ u ∈ Stencil.tensions sdata,
      u.lt 35 = false ∧ u.strictEq 35 = false ∧ u.strictEq 36 = false)
    (hpc : 9 < prow.cells.length) (hsc : 14 < srow.cells.length) :
    ((Pallet.rowCallback today prow pdata).cells[9]? =
        some (match pdata.condition_status with
          | JSVal.str s => s
          | _ => "") ∧
      (Pallet.rowCallback today prow pdata).classes =
        (removeClass highlightClasses prow).classes ∧
      (Pallet.rowCallback today prow pdata).highlights = []) ∧
    ((Stencil.rowCallback today srow sdata).cells[14]? =
        some (match sdata.status with
          | JSVal.str s => s
          | _ => "") ∧
      (Stencil.rowCallback today srow sdata).classes =
        (removeClass highlightClasses srow).classes ∧
      (Stencil.rowCallback today srow sdata).highlights = []) := by
  have hprow : Pallet.rowCallback today prow pdata =
      setCellText 9 pdata.condition_status.orEmpty (removeClass highlightClasses prow) := by
    cases hd : pdata.pallet_revalidation_dt with
    | none => simp [Pallet.rowCallback, diffDays, hd]
    | some r =>
      have h := hp r hd
      have h1 : ¬ ceilDays r today ≤ 1 := by omega
      have h5 : ¬ ceilDays r today ≤ 5 := by omega
      have h10 : ¬ ceilDays r today ≤ 10 := by omega
      simp [Pallet.rowCallback, diffDays, hd, h1, h5, h10]
  have hdate : Stencil.revalidationDateHighlight
      (diffDays sdata.stencil_revalidation_dt today)
      (removeClass highlightClasses srow, sdata.status.orEmpty) =
      (removeClass highlightClasses srow, sdata.status.orEmpty) := by
    cases hd : sdata.stencil_revalidation_dt with
    | none => simp [Stencil.revalidationDateHighlight, diffDays]
    | some r =>
      have h := hs r hd
      have h1 : ¬ ceilDays r today ≤ 1 := by omega
      have h5 : ¬ ceilDays r today ≤ 5 := by omega
      have h10 : ¬ ceilDays r today ≤ 10 := by omega
      simp [Stencil.revalidationDateHighlight, diffDays, h1, h5, h10]
  have hsrow : Stencil.rowCallback today srow sdata =
      setCellText 14 sdata.status.orEmpty (removeClass highlightClasses srow) := by
    rw [stencil_rowCallback_eq, tensionHighlight_none _ _ hno, hdate]
  rw [hprow, hsrow, ← orEmpty_eq, ← orEmpty_eq]
  exact ⟨⟨setCellText_get _ _ _ (by rw [removeClass_cells]; exact hpc), rfl,
      highlights_removeClass prow⟩,
    ⟨setCellText_get _ _ _ (by rw [removeClass_cells]; exact hsc), rfl,
      highlights_removeClass srow⟩⟩

/-- Witness for C8: a pallet record without a date whose stored status is "REWORK" on a
row marked `case3`, and a stencil record 11 days before its date with tensions 40 and 37
and no stored status. -/
theorem passthrough_witness :
    ((Pallet.rowCallback 0 ⟨["even", "case3"], List.replicate 12 "x"⟩
        ⟨none, JSVal.str "REWORK"⟩).cells[9]? = some "REWORK" ∧
      (Pallet.rowCallback 0 ⟨["even", "case3"], List.replicate 12 "x"⟩
        ⟨none, JSVal.str "REWORK"⟩).classes =
        (removeClass highlightClasses ⟨["even", "case3"], List.replicate 12 "x"⟩).classes ∧
      (Pallet.rowCallback 0 ⟨["even", "case3"], List.replicate 12 "x"⟩
        ⟨none, JSVal.str "REWORK"⟩).highlights = []) ∧
    ((Stencil.rowCallback 0 ⟨["odd"], List.replicate 16 "x"⟩
        ⟨some (11 * 86400000), JSVal.undefined, JSNum.fin 40, JSNum.fin 37, JSNum.nan,
          JSNum.nan, JSNum.nan⟩).cells[14]? = some "" ∧
      (Stencil.rowCallback 0 ⟨["odd"], List.replicate 16 "x"⟩
        ⟨some (11 * 86400000), JSVal.undefined, JSNum.fin 40, JSNum.fin 37, JSNum.nan,
          JSNum.nan, JSNum.nan⟩).classes =
        (removeClass highlightClasses ⟨["odd"], List.replicate 16 "x"⟩).classes ∧
      (Stencil.rowCallback 0 ⟨["odd"], List.replicate 16 "x"⟩
        ⟨some (11 * 86400000), JSVal.undefined, JSNum.fin 40, JSNum.fin 37, JSNum.nan,
          JSNum.nan, JSNum.nan⟩).highlights = []) :=
  passthrough 0 ⟨["even", "case3"], List.replicate 12 "x"⟩ ⟨none, JSVal.str "REWORK"⟩
    ⟨["odd"], List.replicate 16 "x"⟩
    ⟨some (11 * 86400000), JSVal.undefined, JSNum.fin 40, JSNum.fin 37, JSNum.nan,
      JSNum.nan, JSNum.nan⟩
    (fun _ h => absurd h (by simp))
    (fun r h => by
      have hr : r = 11 * 86400000 := (Option.some.inj h).symm
      rw [hr, ceilDays_eq]; decide)
    (by decide) (by decide) (by decide)

/-! ## C10: a warning value before a failing value -/

/-- C10. Stencil status page: when a tension value equal to 35 or 36 comes before the
first value below 35, the scan stops there: the status cell shows "Stencil Re-Order Soon"
(not "Stencil EOL"), the row gets `tension-pink` and does not get `tension-red`, whatever
values follow. -/
theorem stencil_warning_before_failing (today : ℤ) (row : Row) (data : Stencil.Data)
    (pre : List JSNum) (w : JSNum) (post : List JSNum)
    (hsplit : Stencil.tensions data = pre ++ w :: post)
    (hpre : ∀ u ∈ pre, u.lt 35 = false)
    (hw : w = JSNum.fin 35 ∨ w = JSNum.fin 36)
    (hcell : 14 < row.cells.length) :
    (Stencil.rowCallback today row data).cells[14]? = some "Stencil Re-Order Soon" ∧
    (Stencil.rowCallback today row data).cells[14]? ≠ some "Stencil EOL" ∧
    "tension-pink" ∈ (Stencil.rowCallback today row data).classes ∧
    "tension-red" ∉ (Stencil.rowCallback today row data).classes := by
  rw [stencil_rowCallback_eq, hsplit, tensionHighlight_warn pre w post _ hpre hw]
  have hnot := tension_not_mem_after_date (diffDays data.stencil_revalidation_dt today) row
    data.status.orEmpty
  have hget : (setCellText 14 "Stencil Re-Order Soon"
      (addClass "tension-pink" (Stencil.revalidationDateHighlight
        (diffDays data.stencil_revalidation_dt today)
        (removeClass highlightClasses row, data.status.orEmpty)).1)).cells[14]? =
      some "Stencil Re-Order Soon" := by
    apply setCellText_get
    rw [addClass_cells, revalidationDateHighlight_cells, removeClass_cells]
    exact hcell
  refine ⟨hget, ?_, ?_, ?_⟩
  · rw [hget]; decide
  · rw [setCellText_classes]
    exact (mem_addClass _ _ _).2 (Or.inr rfl)
  · rw [setCellText_classes, mem_addClass]
    rintro (h | h)
    · exact hnot "tension-red" (Or.inl rfl) h
    · exact absurd h (by decide)

/-- Witness for C10: tensions 36, 34, 40, 40, 40: the scan stops at 36 and the 34 is never
observed. -/
theorem stencil_warning_before_failing_witness :
    (Stencil.rowCallback 0 ⟨["odd"], List.replicate 16 "x"⟩
      ⟨none, JSVal.null, JSNum.fin 36, JSNum.fin 34, JSNum.fin 40, JSNum.fin 40,
        JSNum.fin 40⟩).cells[14]? = some "Stencil Re-Order Soon" ∧
    (Stencil.rowCallback 0 ⟨["odd"], List.replicate 16 "x"⟩
      ⟨none, JSVal.null, JSNum.fin 36, JSNum.fin 34, JSNum.fin 40, JSNum.fin 40,
        JSNum.fin 40⟩).cells[14]? ≠ some "Stencil EOL" ∧
    "tension-pink" ∈ (Stencil.rowCallback 0 ⟨["odd"], List.replicate 16 "x"⟩
      ⟨none, JSVal.null, JSNum.fin 36, JSNum.fin 34, JSNum.fin 40, JSNum.fin 40,
        JSNum.fin 40⟩).classes ∧
    "tension-red" ∉ (Stencil.rowCallback 0 ⟨["odd"], List.replicate 16 "x"⟩
      ⟨none, JSVal.null, JSNum.fin 36, JSNum.fin 34, JSNum.fin 40, JSNum.fin 40,
        JSNum.fin 40⟩).classes :=
  stencil_warning_before_failing 0 ⟨["odd"], List.replicate 16 "x"⟩
    ⟨none, JSVal.null, JSNum.fin 36, JSNum.fin 34, JSNum.fin 40, JSNum.fin 40, JSNum.fin 40⟩
    [] (JSNum.fin 36) [JSNum.fin 34, JSNum.fin 40, JSNum.fin 40, JSNum.fin 40] rfl
    (by decide) (Or.inr rfl) (by decide)

/-! ## Helper lemmas: the shape of the row a callback returns -/

/-- After the initial `removeClass`, adding a highlight class gives this row. -/
theorem addClass_removeClass_eq (name : String) (row : Row) (h : name ∈ highlightClasses) :
    addClass name (removeClass highlightClasses row) =
      ⟨(removeClass highlightClasses row).classes ++ [name], row.cells⟩ := by
  have hn : name ∉ (removeClass highlightClasses row).classes := by
    rw [mem_removeClass]
    exact fun hc => hc.2 h
  have hc : (removeClass highlightClasses row).classes.contains name = false := by
    simpa using hn
  unfold addClass
  rw [hc]
  rfl

/-- Adding a class to a row given by its fields. -/
theorem addClass_mk (name : String) (cls cells : List String) (h : name ∉ cls) :
    addClass name ⟨cls, cells⟩ = ⟨cls ++ [name], cells⟩ := by
  simp [addClass, h]

theorem removeClass_eq (row : Row) :
    removeClass highlightClasses row =
      ⟨(removeClass highlightClasses row).classes, row.cells⟩ := rfl

/-- The date block on a cleared row: the classes it appends and the text it leaves depend on
`diffDays` and the incoming text only. -/
theorem revalidationDateHighlight_shape (d : Option ℤ) (txt : String) :
    ∃ D : List String, ∃ txt1 : String,
      (D = [] ∨ D = ["case1"] ∨ D = ["case2"] ∨ D = ["case3"]) ∧
      ∀ row : Row, Stencil.revalidationDateHighlight d
          (removeClass highlightClasses row, txt) =
        (⟨(removeClass highlightClasses row).classes ++ D, row.cells⟩, txt1) := by
  cases d with
  | none =>
    exact ⟨[], txt, Or.inl rfl, fun row => by
      simp [Stencil.revalidationDateHighlight, removeClass]⟩
  | some d =>
    by_cases h1 : d ≤ 1
    · exact ⟨["case3"], "Revalidation Time End", Or.inr (Or.inr (Or.inr rfl)), fun row => by
        simp only [Stencil.revalidationDateHighlight, h1, if_true]
        rw [addClass_removeClass_eq _ _ (by decide)]⟩
    · by_cases h5 : d ≤ 5
      · exact ⟨["case2"], "Re-Validation Need to Done Soon", Or.inr (Or.inr (Or.inl rfl)),
          fun row => by
            simp only [Stencil.revalidationDateHighlight, h1, h5, if_true, if_false]
            rw [addClass_removeClass_eq _ _ (by decide)]⟩
      · by_cases h10 : d ≤ 10
        · exact ⟨["case1"], "Re-Validation Need to Done Soon", Or.inr (Or.inl rfl),
            fun row => by
              simp only [Stencil.revalidationDateHighlight, h1, h5, h10, if_true, if_false]
              rw [addClass_removeClass_eq _ _ (by decide)]⟩
        · exact ⟨[], txt, Or.inl rfl, fun row => by
            simp [Stencil.revalidationDateHighlight, h1, h5, h10, removeClass]⟩

/-- A class of the date block is not a tension class and is a highlight class. -/
theorem dateClasses_facts (D : List String)
    (hD : D = [] ∨ D = ["case1"] ∨ D = ["case2"] ∨ D = ["case3"]) :
    "tension-red" ∉ D ∧ "tension-pink" ∉ D ∧ (∀ c ∈ D, c ∈ highlightClasses) ∧
      D.length ≤ 1 := by
  rcases hD with rfl | rfl | rfl | rfl <;> decide

theorem tensionClasses_facts (T : List String)
    (hT : T = [] ∨ T = ["tension-red"] ∨ T = ["tension-pink"]) :
    (∀ c ∈ T, c ∈ highlightClasses) ∧ T.length ≤ 1 := by
  rcases hT with rfl | rfl | rfl <;> decide

/-- The stencil callback returns the cleared classes followed by at most one date class and
at most one tension class, and the cells with one text written at index 14; which classes
and which text depends on the record and the date only. -/
theorem stencil_rowCallback_shape (today : ℤ) (data : Stencil.Data) :
    ∃ D T : List String, ∃ txt : String,
      (D = [] ∨ D = ["case1"] ∨ D = ["case2"] ∨ D = ["case3"]) ∧
      (T = [] ∨ T = ["tension-red"] ∨ T = ["tension-pink"]) ∧
      ∀ row : Row, Stencil.rowCallback today row data =
        ⟨(removeClass highlightClasses row).classes ++ D ++ T, row.cells.set 14 txt⟩ := by
  obtain ⟨D, txt1, hD, hdate⟩ := revalidationDateHighlight_shape
    (diffDays data.stencil_revalidation_dt today) data.status.orEmpty
  obtain ⟨hred, hpink, -, -⟩ := dateClasses_facts D hD
  have hnot : ∀ (row : Row) (c : String), c ∈ highlightClasses → c ∉ D →
      c ∉ (removeClass highlightClasses row).classes ++ D := by
    intro row c hc hcD hmem
    rcases List.mem_append.1 hmem with h | h
    · exact ((mem_removeClass _ _ _).1 h).2 hc
    · exact hcD h
  rcases tensionHighlight_uniform (Stencil.tensions data) with h | h | h
  · exact ⟨D, [], txt1, hD, Or.inl rfl, fun row => by
      rw [stencil_rowCallback_eq, hdate, h]
      simp [setCellText]⟩
  · exact ⟨D, ["tension-red"], "Stencil EOL", hD, Or.inr (Or.inl rfl), fun row => by
      rw [stencil_rowCallback_eq, hdate, h]
      simp only []
      rw [addClass_mk _ _ _ (hnot row _ (by decide) hred)]
      rfl⟩
  · exact ⟨D, ["tension-pink"], "Stencil Re-Order Soon", hD, Or.inr (Or.inr rfl), fun row => by
      rw [stencil_rowCallback_eq, hdate, h]
      simp only []
      rw [addClass_mk _ _ _ (hnot row _ (by decide) hpink)]
      rfl⟩

/-- The pallet callback returns the cleared classes followed by at most one date class, and
the cells with one text written at index 9. -/
theorem pallet_rowCallback_shape (today : ℤ) (data : Pallet.Data) :
    ∃ D : List String, ∃ txt : String,
      (D = [] ∨ D = ["case1"] ∨ D = ["case2"] ∨ D = ["case3"]) ∧
      ∀ row : Row, Pallet.rowCallback today row data =
        ⟨(removeClass highlightClasses row).classes ++ D, row.cells.set 9 txt⟩ := by
  cases hd : data.pallet_revalidation_dt with
  | none =>
    exact ⟨[], data.condition_status.orEmpty, Or.inl rfl, fun row => by
      simp [Pallet.rowCallback, diffDays, hd, setCellText, removeClass]⟩
  | some r =>
    by_cases h1 : ceilDays r today ≤ 1
    · exact ⟨["case3"], "REVALIDATION TIME END", Or.inr (Or.inr (Or.inr rfl)), fun row => by
        simp only [Pallet.rowCallback, diffDays, hd, Option.map, h1, if_true]
        rw [addClass_removeClass_eq _ _ (by decide)]
        rfl⟩
    · by_cases h5 : ceilDays r today ≤ 5
      · exact ⟨["case2"], "RE-VALIDATION NEED TO DONE SOON", Or.inr (Or.inr (Or.inl rfl)),
          fun row => by
            simp only [Pallet.rowCallback, diffDays, hd, Option.map, h1, h5, if_true,
              if_false]
            rw [addClass_removeClass_eq _ _ (by decide)]
            rfl⟩
      · by_cases h10 : ceilDays r today ≤ 10
        · exact ⟨["case1"], "RE-VALIDATION NEED TO DONE SOON", Or.inr (Or.inl rfl),
            fun row => by
              simp only [Pallet.rowCallback, diffDays, hd, Option.map, h1, h5, h10, if_true,
                if_false]
              rw [addClass_removeClass_eq _ _ (by decide)]
              rfl⟩
        · exact ⟨[], data.condition_status.orEmpty, Or.inl rfl, fun row => by
            simp [Pallet.rowCallback, diffDays, hd, h1, h5, h10, setCellText, removeClass]⟩

/-- The highlight classes of cleared classes followed by highlight classes. -/
theorem highlights_mk_append (row : Row) (E cells : List String)
    (hE : ∀ c ∈ E, c ∈ highlightClasses) :
    Row.highlights ⟨(removeClass highlightClasses row).classes ++ E, cells⟩ = E := by
  have h0 := highlights_removeClass row
  unfold Row.highlights at h0 ⊢
  rw [List.filter_append, h0, List.nil_append, List.filter_eq_self]
  intro c hc
  simpa using hE c hc

/-- Clearing a row made of cleared classes followed by highlight classes. -/
theorem removeClass_mk_append (row : Row) (E cells : List String)
    (hE : ∀ c ∈ E, c ∈ highlightClasses) :
    (removeClass highlightClasses
        ⟨(removeClass highlightClasses row).classes ++ E, cells⟩).classes =
      (removeClass highlightClasses row).classes := by
  simp only [removeClass, List.filter_append, List.filter_filter, Bool.and_self]
  have hnil : E.filter (fun c => !highlightClasses.contains c) = [] := by
    rw [List.filter_eq_nil_iff]
    intro c hc
    simpa using hE c hc
  rw [hnil, List.append_nil]

/-! ## C11: how many highlight classes a row carries -/

/-- C11 (as stated, refuted). A stencil record with an expired date and `tension_a = 34`
leaves the row with two highlight classes, `case3` and `tension-red`: the tension class is
added next to the date class. -/
theorem stencil_two_highlights_counterexample :
    (Stencil.rowCallback 0 ⟨["odd", "tension-pink"], List.replicate 16 "x"⟩
      ⟨some (-5), JSVal.null, JSNum.fin 34, JSNum.nan, JSNum.nan, JSNum.nan,
        JSNum.nan⟩).highlights = ["case3", "tension-red"] ∧
    ¬ (Stencil.rowCallback 0 ⟨["odd", "tension-pink"], List.replicate 16 "x"⟩
      ⟨some (-5), JSVal.null, JSNum.fin 34, JSNum.nan, JSNum.nan, JSNum.nan,
        JSNum.nan⟩).highlights.length ≤ 1 := by
  have h : ceilDays (-5) 0 = 0 := by rw [ceilDays_eq]; decide
  constructor <;> simp only [stencil_rowCallback_eq, diffDays, Option.map, h] <;> decide

/-- C11 (amended). After the stencil callback the row carries at most one date class
(`case1`, `case2`, `case3`) followed by at most one tension class (`tension-red`,
`tension-pink`), hence at most two highlight classes; after the pallet callback it carries at
most one. -/
theorem highlight_classes_per_row (today : ℤ) (srow : Row) (sdata : Stencil.Data)
    (prow : Row) (pdata : Pallet.Data) :
    (∃ D T : List String,
      (D = [] ∨ D = ["case1"] ∨ D = ["case2"] ∨ D = ["case3"]) ∧
      (T = [] ∨ T = ["tension-red"] ∨ T = ["tension-pink"]) ∧
      (Stencil.rowCallback today srow sdata).highlights = D ++ T) ∧
    (Stencil.rowCallback today srow sdata).highlights.length ≤ 2 ∧
    (Pallet.rowCallback today prow pdata).highlights.length ≤ 1 := by
  obtain ⟨D, T, txt, hD, hT, hs⟩ := stencil_rowCallback_shape today sdata
  obtain ⟨P, ptxt, hP, hp⟩ := pallet_rowCallback_shape today pdata
  obtain ⟨-, -, hDh, hDl⟩ := dateClasses_facts D hD
  obtain ⟨hTh, hTl⟩ := tensionClasses_facts T hT
  obtain ⟨-, -, hPh, hPl⟩ := dateClasses_facts P hP
  have hDT : ∀ c ∈ D ++ T, c ∈ highlightClasses := by
    intro c hc
    rcases List.mem_append.1 hc with h | h
    · exact hDh c h
    · exact hTh c h
  have hsh : (Stencil.rowCallback today srow sdata).highlights = D ++ T := by
    rw [hs srow, List.append_assoc]
    exact highlights_mk_append srow (D ++ T) _ hDT
  have hph : (Pallet.rowCallback today prow pdata).highlights = P := by
    rw [hp prow]
    exact highlights_mk_append prow P _ hPh
  refine ⟨⟨D, T, hD, hT, hsh⟩, ?_, ?_⟩
  · rw [hsh, List.length_append]; omega
  · rw [hph]; exact hPl

/-! ## C12: the date block of the two variants -/

/-- C12 (as stated, refuted). With an expired date and no tension value, the pallet callback
writes "REVALIDATION TIME END" and the stencil callback writes "Revalidation Time End":
the texts differ. -/
theorem variants_text_counterexample :
    (Pallet.rowCallback 0 ⟨[], List.replicate 12 "x"⟩
      ⟨some (-5), JSVal.str "MOVE"⟩).cells[9]? = some "REVALIDATION TIME END" ∧
    (Stencil.rowCallback 0 ⟨[], List.replicate 16 "x"⟩
      ⟨some (-5), JSVal.str "MOVE", JSNum.nan, JSNum.nan, JSNum.nan, JSNum.nan,
        JSNum.nan⟩).cells[14]? = some "Revalidation Time End" ∧
    (Pallet.rowCallback 0 ⟨[], List.replicate 12 "x"⟩
      ⟨some (-5), JSVal.str "MOVE"⟩).cells[9]? ≠
    (Stencil.rowCallback 0 ⟨[], List.replicate 16 "x"⟩
      ⟨some (-5), JSVal.str "MOVE", JSNum.nan, JSNum.nan, JSNum.nan, JSNum.nan,
        JSNum.nan⟩).cells[14]? := by
  have h : ceilDays (-5) 0 = 0 := by rw [ceilDays_eq]; decide
  refine ⟨?_, ?_, ?_⟩ <;>
    simp only [stencil_rowCallback_eq, Pallet.rowCallback, diffDays, Option.map, h] <;>
    decide

/-- C12 (amended). For the same revalidation date and stored text, a stencil record whose
five tension values are all NaN gets the same highlight classes as the pallet record; the
status texts are equal when the date is unparseable or `diffDays > 10`, and when
`diffDays <= 10` they differ in letter case only: the pallet text is the stencil text in
upper case. -/
theorem variants_same_date_block (today : ℤ) (prow srow : Row) (date : Option ℤ)
    (cs : JSVal) :
    (Pallet.rowCallback today prow ⟨date, cs⟩).highlights =
      (Stencil.rowCallback today srow
        ⟨date, cs, JSNum.nan, JSNum.nan, JSNum.nan, JSNum.nan, JSNum.nan⟩).highlights ∧
    ∃ ptxt stxt : String,
      (Pallet.rowCallback today prow ⟨date, cs⟩).cells = prow.cells.set 9 ptxt ∧
      (Stencil.rowCallback today srow
        ⟨date, cs, JSNum.nan, JSNum.nan, JSNum.nan, JSNum.nan, JSNum.nan⟩).cells =
        srow.cells.set 14 stxt ∧
      ((∀ r, date = some r → 10 < ceilDays r today) → ptxt = stxt) ∧
      ((∃ r, date = some r ∧ ceilDays r today ≤ 10) →
        ptxt ≠ stxt ∧ ptxt = toUpperCase stxt) := by
  have hth : ∀ st : Row × String, Stencil.tensionHighlight
      (Stencil.tensions ⟨date, cs, JSNum.nan, JSNum.nan, JSNum.nan, JSNum.nan, JSNum.nan⟩)
      st = st := fun st => rfl
  cases date with
  | none =>
    refine ⟨?_, cs.orEmpty, cs.orEmpty, ?_, ?_, fun _ => rfl, ?_⟩
    · rw [stencil_rowCallback_eq, hth]
      simp only [Pallet.rowCallback, Stencil.revalidationDateHighlight, diffDays,
        Option.map, setCellText_highlights]
      rw [highlights_removeClass, highlights_removeClass]
    · simp [Pallet.rowCallback, diffDays, setCellText, removeClass]
    · rw [stencil_rowCallback_eq, hth]
      simp [Stencil.revalidationDateHighlight, diffDays, setCellText, removeClass]
    · rintro ⟨r, hr, -⟩
      exact absurd hr (by simp)
  | some r =>
    have hd : diffDays (some r) today = some (ceilDays r today) := rfl
    by_cases h1 : ceilDays r today ≤ 1
    · refine ⟨?_, "REVALIDATION TIME END", "Revalidation Time End", ?_, ?_, ?_, ?_⟩
      · rw [stencil_rowCallback_eq, hth]
        simp only [Pallet.rowCallback, Stencil.revalidationDateHighlight, hd, h1, if_true,
          setCellText_highlights]
        rw [highlights_addClass_removeClass _ _ (by decide),
          highlights_addClass_removeClass _ _ (by decide)]
      · simp [Pallet.rowCallback, hd, h1, setCellText, addClass_cells, removeClass_cells]
      · rw [stencil_rowCallback_eq, hth]
        simp [Stencil.revalidationDateHighlight, hd, h1, setCellText, addClass_cells,
          removeClass_cells]
      · intro h
        have := h r rfl
        omega
      · intro _
        exact ⟨by decide, by decide⟩
    · by_cases h5 : ceilDays r today ≤ 5
      · refine ⟨?_, "RE-VALIDATION NEED TO DONE SOON", "Re-Validation Need to Done Soon",
          ?_, ?_, ?_, ?_⟩
        · rw [stencil_rowCallback_eq, hth]
          simp only [Pallet.rowCallback, Stencil.revalidationDateHighlight, hd, h1, h5,
            if_true, if_false, setCellText_highlights]
          rw [highlights_addClass_removeClass _ _ (by decide),
            highlights_addClass_removeClass _ _ (by decide)]
        · simp [Pallet.rowCallback, hd, h1, h5, setCellText, addClass_cells,
            removeClass_cells]
        · rw [stencil_rowCallback_eq, hth]
          simp [Stencil.revalidationDateHighlight, hd, h1, h5, setCellText, addClass_cells,
            removeClass_cells]
        · intro h
          have := h r rfl
          omega
        · intro _
          exact ⟨by decide, by decide⟩
      · by_cases h10 : ceilDays r today ≤ 10
        · refine ⟨?_, "RE-VALIDATION NEED TO DONE SOON", "Re-Validation Need to Done Soon",
            ?_, ?_, ?_, ?_⟩
          · rw [stencil_rowCallback_eq, hth]
            simp only [Pallet.rowCallback, Stencil.revalidationDateHighlight, hd, h1, h5,
              h10, if_true, if_false, setCellText_highlights]
            rw [highlights_addClass_removeClass _ _ (by decide),
              highlights_addClass_removeClass _ _ (by decide)]
          · simp [Pallet.rowCallback, hd, h1, h5, h10, setCellText, addClass_cells,
              removeClass_cells]
          · rw [stencil_rowCallback_eq, hth]
            simp [Stencil.revalidationDateHighlight, hd, h1, h5, h10, setCellText,
              addClass_cells, removeClass_cells]
          · intro h
            have := h r rfl
            omega
          · intro _
            exact ⟨by decide, by decide⟩
        · refine ⟨?_, cs.orEmpty, cs.orEmpty, ?_, ?_, fun _ => rfl, ?_⟩
          · rw [stencil_rowCallback_eq, hth]
            simp only [Pallet.rowCallback, Stencil.revalidationDateHighlight, hd, h1, h5,
              h10, if_false, setCellText_highlights]
            rw [highlights_removeClass, highlights_removeClass]
          · simp [Pallet.rowCallback, hd, h1, h5, h10, setCellText, removeClass]
          · rw [stencil_rowCallback_eq, hth]
            simp [Stencil.revalidationDateHighlight, hd, h1, h5, h10, setCellText,
              removeClass]
          · rintro ⟨r2, hr2, hle⟩
            have : r2 = r := (Option.some.inj hr2).symm
            subst this
            exact absurd hle h10

/-- Witness for C12 (amended): an expired date, stored text "MOVE". -/
theorem variants_same_date_block_witness :
    (Pallet.rowCallback 0 ⟨["odd"], List.replicate 12 "x"⟩
      ⟨some (-5), JSVal.str "MOVE"⟩).highlights =
    (Stencil.rowCallback 0 ⟨["even", "case1"], List.replicate 16 "x"⟩
      ⟨some (-5), JSVal.str "MOVE", JSNum.nan, JSNum.nan, JSNum.nan, JSNum.nan,
        JSNum.nan⟩).highlights :=
  (variants_same_date_block 0 ⟨["odd"], List.replicate 12 "x"⟩
    ⟨["even", "case1"], List.replicate 16 "x"⟩ (some (-5)) (JSVal.str "MOVE")).1

/-! ## C14: NaN tension values are skipped -/

/-- The loop gives the same result on the list without its NaN entries. -/
theorem tensionHighlight_filter (ts : List JSNum) (st : Row × String) :
    Stencil.tensionHighlight ts st =
      Stencil.tensionHighlight (ts.filter (fun t => !t.isNaN)) st := by
  induction ts with
  | nil => rfl
  | cons t rest ih =>
    by_cases h : t.isNaN = true
    · have hf : (t :: rest).filter (fun t => !t.isNaN) =
          rest.filter (fun t => !t.isNaN) := by
        simp [List.filter, h]
      rw [hf, ← ih]
      simp [Stencil.tensionHighlight, h]
    · have hn : t.isNaN = false := by simpa using h
      have hf : (t :: rest).filter (fun t => !t.isNaN) =
          t :: rest.filter (fun t => !t.isNaN) := by
        simp [List.filter, hn]
      rw [hf]
      simp only [Stencil.tensionHighlight, hn, ih]

/-- C14. NaN tension entries are skipped and the scan continues: the stencil callback
returns what it returns when the loop runs over the tension list with the NaN entries
removed, and the loop itself agrees on both lists from any starting state; for instance a
NaN followed by 34 still gives "Stencil EOL". -/
theorem stencil_nan_skipped (today : ℤ) (row : Row) (data : Stencil.Data) :
    Stencil.rowCallback today row data =
      setCellText 14
        (Stencil.tensionHighlight ((Stencil.tensions data).filter (fun t => !t.isNaN))
          (Stencil.revalidationDateHighlight (diffDays data.stencil_revalidation_dt today)
            (removeClass highlightClasses row, data.status.orEmpty))).2
        (Stencil.tensionHighlight ((Stencil.tensions data).filter (fun t => !t.isNaN))
          (Stencil.revalidationDateHighlight (diffDays data.stencil_revalidation_dt today)
            (removeClass highlightClasses row, data.status.orEmpty))).1 ∧
    (∀ (ts : List JSNum) (st : Row × String),
      Stencil.tensionHighlight ts st =
        Stencil.tensionHighlight (ts.filter (fun t => !t.isNaN)) st) ∧
    (Stencil.rowCallback today ⟨[], List.replicate 16 "x"⟩
      ⟨none, JSVal.null, JSNum.nan, JSNum.fin 34, JSNum.nan, JSNum.fin 40,
        JSNum.nan⟩).cells[14]? = some "Stencil EOL" := by
  refine ⟨?_, tensionHighlight_filter, ?_⟩
  · rw [stencil_rowCallback_eq, ← tensionHighlight_filter]
  · have h : diffDays (none : Option ℤ) today = none := rfl
    rw [stencil_rowCallback_eq, h]
    decide

/-! ## C16: previously applied markers are cleared first -/

/-- C16. The highlight classes on the row after a callback depend on the record and `now`
only, not on the classes the row carried before; and running a callback a second time with
the same record and `now` returns the row it returned the first time. -/
theorem markers_cleared_first (today : ℤ) (sdata : Stencil.Data) (pdata : Pallet.Data)
    (row1 row2 : Row) :
    (Stencil.rowCallback today row1 sdata).highlights =
      (Stencil.rowCallback today row2 sdata).highlights ∧
    (Pallet.rowCallback today row1 pdata).highlights =
      (Pallet.rowCallback today row2 pdata).highlights ∧
    Stencil.rowCallback today (Stencil.rowCallback today row1 sdata) sdata =
      Stencil.rowCallback today row1 sdata ∧
    Pallet.rowCallback today (Pallet.rowCallback today row1 pdata) pdata =
      Pallet.rowCallback today row1 pdata := by
  obtain ⟨D, T, stxt, hD, hT, hs⟩ := stencil_rowCallback_shape today sdata
  obtain ⟨P, ptxt, hP, hp⟩ := pallet_rowCallback_shape today pdata
  obtain ⟨-, -, hDh, -⟩ := dateClasses_facts D hD
  obtain ⟨hTh, -⟩ := tensionClasses_facts T hT
  obtain ⟨-, -, hPh, -⟩ := dateClasses_facts P hP
  have hDT : ∀ c ∈ D ++ T, c ∈ highlightClasses := by
    intro c hc
    rcases List.mem_append.1 hc with h | h
    · exact hDh c h
    · exact hTh c h
  have hsh : ∀ row : Row, (Stencil.rowCallback today row sdata).highlights = D ++ T := by
    intro row
    rw [hs row, List.append_assoc]
    exact highlights_mk_append row (D ++ T) _ hDT
  have hph : ∀ row : Row, (Pallet.rowCallback today row pdata).highlights = P := by
    intro row
    rw [hp row]
    exact highlights_mk_append row P _ hPh
  refine ⟨by rw [hsh row1, hsh row2], by rw [hph row1, hph row2], ?_, ?_⟩
  · rw [hs (Stencil.rowCallback today row1 sdata), hs row1]
    simp only [List.append_assoc, List.set_set]
    rw [removeClass_mk_append row1 (D ++ T) _ hDT]
  · rw [hp (Pallet.rowCallback today row1 pdata), hp row1]
    simp only [List.set_set]
    rw [removeClass_mk_append row1 P _ hPh]

/-! ## Helper lemmas: the array of arrays of `makeSheet` -/

/-- Indexing a list that starts with a header, continues with mapped rows and ends with a
footer. -/
theorem getElem?_header_rows_footer {α β : Type} (hdr ftr : β) (f : α → β) (data : List α) :
    ((hdr :: data.map f) ++ [ftr]).length = data.length + 2 ∧
    ((hdr :: data.map f) ++ [ftr])[0]? = some hdr ∧
    (∀ (i : Nat) (r : α), data[i]? = some r →
      ((hdr :: data.map f) ++ [ftr])[i + 1]? = some (f r)) ∧
    ((hdr :: data.map f) ++ [ftr])[data.length + 1]? = some ftr := by
  refine ⟨by simp, by simp, ?_, ?_⟩
  · intro i r hi
    have hlt : i < data.length := by
      by_contra h
      rw [List.getElem?_eq_none (by omega)] at hi
      exact absurd hi (by simp)
    rw [List.cons_append, List.getElem?_cons_succ,
      List.getElem?_append_left (by simpa using hlt), List.getElem?_map, hi]
    rfl
  · rw [List.cons_append, List.getElem?_cons_succ,
      List.getElem?_append_right (by simp)]
    simp

/-- The value `v ?? ""` spelled out. -/
theorem nullish_str_eq (v : JSValue) :
    v.nullish (JSValue.str "") =
      match v with
      | JSValue.undefined => JSValue.str ""
      | JSValue.null => JSValue.str ""
      | w => w := by
  cases v <;> rfl

/-- The cell of record `i` under column `j` in the stencil sheet. -/
theorem stencil_makeSheet_cell (numToString : JSNum → String) (data : List Record)
    (cols : List String) (sheetName : String) (i j : Nat) (r : Record) (k : String)
    (hi : data[i]? = some r) (hj : cols[j]? = some k) :
    ((Stencil.makeSheet numToString data cols sheetName).aoa[i + 1]?).bind
      (fun row => row[j]?) = some ((getProp r k).nullish (JSValue.str "")) := by
  have h := (getElem?_header_rows_footer (cols.map (fun c => JSValue.str (toUpperCase c)))
    [JSValue.str "Stencil Master List"]
    (fun r => cols.map (fun k => (getProp r k).nullish (JSValue.str ""))) data).2.2.1 i r hi
  simp only [Stencil.makeSheet]
  rw [h]
  simp [List.getElem?_map, hj]

/-- The cell of record `i` under column `j` in the pallet sheet. -/
theorem pallet_makeSheet_cell (numToString : JSNum → String)
    (newDate : JSValue → Option LocalDate) (data : List Record)
    (cols : List String) (sheetName : String) (i j : Nat) (r : Record) (k : String)
    (hi : data[i]? = some r) (hj : cols[j]? = some k) :
    ((Pallet.makeSheet numToString newDate data cols sheetName).aoa[i + 1]?).bind
      (fun row => row[j]?) =
      some (if k = "out_time" ∨ k = "in_time" then
          Pallet.formatExcelDate newDate (getProp r k)
        else (getProp r k).nullish (JSValue.str "")) := by
  have h := (getElem?_header_rows_footer (cols.map (fun c => JSValue.str (toUpperCase c)))
    [JSValue.str "Pallet Master List"]
    (fun r => cols.map (fun k =>
      if ["out_time", "in_time"].contains k then
        Pallet.formatExcelDate newDate (getProp r k)
      else (getProp r k).nullish (JSValue.str ""))) data).2.2.1 i r hi
  simp only [Pallet.makeSheet]
  rw [h]
  simp [List.getElem?_map, hj]

/-- The stored text behind `v ?? ""` for a text field. -/
theorem nullish_toValue (v : JSVal) :
    v.toValue.nullish (JSValue.str "") = JSValue.str v.orEmpty := by
  cases v with
  | undefined => rfl
  | null => rfl
  | str s =>
    simp only [JSVal.toValue, JSValue.nullish, JSVal.orEmpty]
    split_ifs with h
    · rw [h]
    · rfl

/-- The stencil callback when neither block fires. -/
theorem stencil_rowCallback_passthrough (today : ℤ) (row : Row) (data : Stencil.Data)
    (hs : ∀ r, data.stencil_revalidation_dt = some r → 10 < ceilDays r today)
    (hno : ∀ u ∈ Stencil.tensions data,
      u.lt 35 = false ∧ u.strictEq 35 = false ∧ u.strictEq 36 = false) :
    Stencil.rowCallback today row data =
      setCellText 14 data.status.orEmpty (removeClass highlightClasses row) := by
  have hdate : Stencil.revalidationDateHighlight
      (diffDays data.stencil_revalidation_dt today)
      (removeClass highlightClasses row, data.status.orEmpty) =
      (removeClass highlightClasses row, data.status.orEmpty) := by
    cases hd : data.stencil_revalidation_dt with
    | none => simp [Stencil.revalidationDateHighlight, diffDays]
    | some r =>
      have h := hs r hd
      have h1 : ¬ ceilDays r today ≤ 1 := by omega
      have h5 : ¬ ceilDays r today ≤ 5 := by omega
      have h10 : ¬ ceilDays r today ≤ 10 := by omega
      simp [Stencil.revalidationDateHighlight, diffDays, h1, h5, h10]
  rw [stencil_rowCallback_eq, tensionHighlight_none _ _ hno, hdate]

/-- The pallet callback when the date block does not fire. -/
theorem pallet_rowCallback_passthrough (today : ℤ) (row : Row) (data : Pallet.Data)
    (hp : ∀ r, data.pallet_revalidation_dt = some r → 10 < ceilDays r today) :
    Pallet.rowCallback today row data =
      setCellText 9 data.condition_status.orEmpty (removeClass highlightClasses row) := by
  cases hd : data.pallet_revalidation_dt with
  | none => simp [Pallet.rowCallback, diffDays, hd]
  | some r =>
    have h := hp r hd
    have h1 : ¬ ceilDays r today ≤ 1 := by omega
    have h5 : ¬ ceilDays r today ≤ 5 := by omega
    have h10 : ¬ ceilDays r today ≤ 10 := by omega
    simp [Pallet.rowCallback, diffDays, hd, h1, h5, h10]

/-! ## C15: the status column of the exported sheet -/

/-- C15 (as stated, refuted). A stencil record with stored status "MOVE" and an expired
revalidation date: the sheet "Status" holds "MOVE" in the status column, while the status
page shows "Revalidation Time End" for the same record. -/
theorem export_status_counterexample :
    ((Stencil.makeSheet (fun _ => "")
        [[("stencil_revalidation_dt", JSValue.str "2020-01-01"),
          ("status", JSValue.str "MOVE")]]
        Stencil.statusSheetCols "Status").aoa[1]?).bind (fun row => row[14]?) =
      some (JSValue.str "MOVE") ∧
    (Stencil.rowCallback 0 ⟨[], List.replicate 16 "x"⟩
      ⟨some (-5), JSVal.str "MOVE", JSNum.nan, JSNum.nan, JSNum.nan, JSNum.nan,
        JSNum.nan⟩).cells[14]? = some "Revalidation Time End" := by
  have h : ceilDays (-5) 0 = 0 := by rw [ceilDays_eq]; decide
  constructor
  · decide
  · simp only [stencil_rowCallback_eq, diffDays, Option.map, h]
    decide

/-- C15 (amended). The export carries the stored status, not the derived one: for every
record of the exported list, the status column of the sheet "Status" (stencil: column 14,
`status`; pallet: column 9, `condition_status`) holds the stored text, with `""` for a
missing or `null` field; this is the text the status page shows when the revalidation date
is unparseable or more than 10 days off and (stencil) no tension test fires. -/
theorem export_carries_stored_status (numToString : JSNum → String)
    (newDate : JSValue → Option LocalDate) (today : ℤ)
    (slist : List Record) (i : Nat) (rs : Record) (sd : Stencil.Data) (srow : Row)
    (plist : List Record) (j : Nat) (rp : Record) (pd : Pallet.Data) (prow : Row)
    (hi : slist[i]? = some rs) (hs : getProp rs "status" = sd.status.toValue)
    (hj : plist[j]? = some rp)
    (hp : getProp rp "condition_status" = pd.condition_status.toValue) :
    ((Stencil.makeSheet numToString slist Stencil.statusSheetCols "Status").aoa[i + 1]?).bind
        (fun row => row[14]?) =
      some (JSValue.str (match sd.status with
        | JSVal.str s => s
        | _ => "")) ∧
    ((Pallet.makeSheet numToString newDate plist Pallet.statusSheetCols
        "Status").aoa[j + 1]?).bind (fun row => row[9]?) =
      some (JSValue.str (match pd.condition_status with
        | JSVal.str s => s
        | _ => "")) ∧
    ((∀ r, sd.stencil_revalidation_dt = some r → 10 < ceilDays r today) →
      (∀ u ∈ Stencil.tensions sd,
        u.lt 35 = false ∧ u.strictEq 35 = false ∧ u.strictEq 36 = false) →
      14 < srow.cells.length →
      (Stencil.rowCallback today srow sd).cells[14]? =
        some (match sd.status with
          | JSVal.str s => s
          | _ => "")) ∧
    ((∀ r, pd.pallet_revalidation_dt = some r → 10 < ceilDays r today) →
      9 < prow.cells.length →
      (Pallet.rowCallback today prow pd).cells[9]? =
        some (match pd.condition_status with
          | JSVal.str s => s
          | _ => "")) := by
  refine ⟨?_, ?_, ?_, ?_⟩
  · rw [stencil_makeSheet_cell numToString slist Stencil.statusSheetCols "Status" i 14 rs
      "status" hi (by decide), hs, nullish_toValue, orEmpty_eq]
  · rw [pallet_makeSheet_cell numToString newDate plist Pallet.statusSheetCols "Status" j 9
      rp "condition_status" hj (by decide), hp, if_neg (by decide), nullish_toValue,
      orEmpty_eq]
  · intro hdate hno hcell
    rw [stencil_rowCallback_passthrough today srow sd hdate hno, ← orEmpty_eq]
    exact setCellText_get _ _ _ (by rw [removeClass_cells]; exact hcell)
  · intro hdate hcell
    rw [pallet_rowCallback_passthrough today prow pd hdate, ← orEmpty_eq]
    exact setCellText_get _ _ _ (by rw [removeClass_cells]; exact hcell)

/-- Witness for C15 (amended): a stencil record with stored status "MOVE" and a pallet
record without a stored condition. -/
theorem export_carries_stored_status_witness :
    ((Stencil.makeSheet (fun _ => "")
        [[("stencil_revalidation_dt", JSValue.str "2020-01-01"),
          ("status", JSValue.str "MOVE")]]
        Stencil.statusSheetCols "Status").aoa[0 + 1]?).bind (fun row => row[14]?) =
      some (JSValue.str "MOVE") ∧
    ((Pallet.makeSheet (fun _ => "") (fun _ => none)
        [[("fg", JSValue.str "FG1"), ("condition_status", JSValue.null)]]
        Pallet.statusSheetCols "Status").aoa[0 + 1]?).bind (fun row => row[9]?) =
      some (JSValue.str "") :=
  ⟨(export_carries_stored_status (fun _ => "") (fun _ => none) 0
      [[("stencil_revalidation_dt", JSValue.str "2020-01-01"),
        ("status", JSValue.str "MOVE")]] 0
      [("stencil_revalidation_dt", JSValue.str "2020-01-01"), ("status", JSValue.str "MOVE")]
      ⟨some (-5), JSVal.str "MOVE", JSNum.nan, JSNum.nan, JSNum.nan, JSNum.nan, JSNum.nan⟩
      ⟨[], List.replicate 16 "x"⟩
      [[("fg", JSValue.str "FG1"), ("condition_status", JSValue.null)]] 0
      [("fg", JSValue.str "FG1"), ("condition_status", JSValue.null)]
      ⟨none, JSVal.null⟩ ⟨[], List.replicate 12 "x"⟩
      rfl (by decide) rfl (by decide)).1,
   (export_carries_stored_status (fun _ => "") (fun _ => none) 0
      [[("stencil_revalidation_dt", JSValue.str "2020-01-01"),
        ("status", JSValue.str "MOVE")]] 0
      [("stencil_revalidation_dt", JSValue.str "2020-01-01"), ("status", JSValue.str "MOVE")]
      ⟨some (-5), JSVal.str "MOVE", JSNum.nan, JSNum.nan, JSNum.nan, JSNum.nan, JSNum.nan⟩
      ⟨[], List.replicate 16 "x"⟩
      [[("fg", JSValue.str "FG1"), ("condition_status", JSValue.null)]] 0
      [("fg", JSValue.str "FG1"), ("condition_status", JSValue.null)]
      ⟨none, JSVal.null⟩ ⟨[], List.replicate 12 "x"⟩
      rfl (by decide) rfl (by decide)).2.1⟩

/-! ## C18: the layout of the array of arrays -/

/-- C18 (as stated, refuted). In the pallet sheet "ISOS" the cell under `out_time` does not
hold the record value: a stored "2024-01-15T10:30:00" that parses to 15 January 2024, 10:30
local time, is written as "15/01/2024 10:30 AM". -/
theorem makeSheet_layout_counterexample :
    getProp [("pallet_no", JSValue.str "P1"), ("out_time", JSValue.str "2024-01-15T10:30:00")]
      "out_time" = JSValue.str "2024-01-15T10:30:00" ∧
    ((Pallet.makeSheet (fun _ => "") (fun _ => some ⟨15, 0, 2024, 10, 30⟩)
        [[("pallet_no", JSValue.str "P1"),
          ("out_time", JSValue.str "2024-01-15T10:30:00")]]
        Pallet.isosSheetCols "ISOS").aoa[1]?).bind (fun row => row[5]?) =
      some (JSValue.str "15/01/2024 10:30 AM") := by
  constructor <;> decide

/-- C18 (amended). For every list of `n` records and every column list, the array of arrays
has `n + 2` rows: row 0 is the column names in upper case, row `i + 1` has one cell per
column and holds record `i` in column order, and the last row is the one-cell footer. A
cell holds the record value with a missing or `null` value replaced by `""`, except that in
the pallet variant the columns `out_time` and `in_time` hold `formatExcelDate` of the
value. -/
theorem makeSheet_layout (numToString : JSNum → String)
    (newDate : JSValue → Option LocalDate) (data : List Record) (cols : List String)
    (sheetName : String) :
    ((Stencil.makeSheet numToString data cols sheetName).aoa.length = data.length + 2 ∧
      (Stencil.makeSheet numToString data cols sheetName).aoa[0]? =
        some (cols.map (fun c => JSValue.str (toUpperCase c))) ∧
      (∀ (i : Nat) (r : Record), data[i]? = some r →
        ((Stencil.makeSheet numToString data cols sheetName).aoa[i + 1]?).map List.length =
          some cols.length) ∧
      (∀ (i j : Nat) (r : Record) (k : String), data[i]? = some r → cols[j]? = some k →
        ((Stencil.makeSheet numToString data cols sheetName).aoa[i + 1]?).bind
            (fun row => row[j]?) =
          some (match getProp r k with
            | JSValue.undefined => JSValue.str ""
            | JSValue.null => JSValue.str ""
            | v => v)) ∧
      (Stencil.makeSheet numToString data cols sheetName).aoa[data.length + 1]? =
        some [JSValue.str "Stencil Master List"]) ∧
    ((Pallet.makeSheet numToString newDate data cols sheetName).aoa.length =
        data.length + 2 ∧
      (Pallet.makeSheet numToString newDate data cols sheetName).aoa[0]? =
        some (cols.map (fun c => JSValue.str (toUpperCase c))) ∧
      (∀ (i : Nat) (r : Record), data[i]? = some r →
        ((Pallet.makeSheet numToString newDate data cols sheetName).aoa[i + 1]?).map
            List.length = some cols.length) ∧
      (∀ (i j : Nat) (r : Record) (k : String), data[i]? = some r → cols[j]? = some k →
        ((Pallet.makeSheet numToString newDate data cols sheetName).aoa[i + 1]?).bind
            (fun row => row[j]?) =
          some (if k = "out_time" ∨ k = "in_time" then
              Pallet.formatExcelDate newDate (getProp r k)
            else match getProp r k with
              | JSValue.undefined => JSValue.str ""
              | JSValue.null => JSValue.str ""
              | v => v)) ∧
      (Pallet.makeSheet numToString newDate data cols sheetName).aoa[data.length + 1]? =
        some [JSValue.str "Pallet Master List"]) := by
  have hS := getElem?_header_rows_footer (cols.map (fun c => JSValue.str (toUpperCase c)))
    [JSValue.str "Stencil Master List"]
    (fun r => cols.map (fun k => (getProp r k).nullish (JSValue.str ""))) data
  have hP := getElem?_header_rows_footer (cols.map (fun c => JSValue.str (toUpperCase c)))
    [JSValue.str "Pallet Master List"]
    (fun r => cols.map (fun k =>
      if ["out_time", "in_time"].contains k then
        Pallet.formatExcelDate newDate (getProp r k)
      else (getProp r k).nullish (JSValue.str ""))) data
  refine ⟨⟨hS.1, hS.2.1, ?_, ?_, hS.2.2.2⟩, ⟨hP.1, hP.2.1, ?_, ?_, hP.2.2.2⟩⟩
  · intro i r hi
    simp only [Stencil.makeSheet]
    rw [hS.2.2.1 i r hi]
    simp
  · intro i j r k hi hj
    rw [stencil_makeSheet_cell numToString data cols sheetName i j r k hi hj,
      nullish_str_eq]
  · intro i r hi
    simp only [Pallet.makeSheet]
    rw [hP.2.2.1 i r hi]
    simp
  · intro i j r k hi hj
    rw [pallet_makeSheet_cell numToString newDate data cols sheetName i j r k hi hj,
      nullish_str_eq]

/-- Witness for C18 (amended): two records under the stencil "Home" columns give four rows,
and the second record, without a `side`, has `""` in that column of row 2. -/
theorem makeSheet_layout_witness :
    (Stencil.makeSheet (fun _ => "")
      [[("fg", JSValue.str "FG1"), ("side", JSValue.str "TOP")],
        [("fg", JSValue.str "FG2"), ("side", JSValue.null)]]
      Stencil.homeSheetCols "Home").aoa.length = 2 + 2 ∧
    ((Stencil.makeSheet (fun _ => "")
      [[("fg", JSValue.str "FG1"), ("side", JSValue.str "TOP")],
        [("fg", JSValue.str "FG2"), ("side", JSValue.null)]]
      Stencil.homeSheetCols "Home").aoa[1 + 1]?).bind (fun row => row[2]?) =
      some (JSValue.str "") :=
  ⟨(makeSheet_layout (fun _ => "") (fun _ => none)
      [[("fg", JSValue.str "FG1"), ("side", JSValue.str "TOP")],
        [("fg", JSValue.str "FG2"), ("side", JSValue.null)]]
      Stencil.homeSheetCols "Home").1.1,
   (makeSheet_layout (fun _ => "") (fun _ => none)
      [[("fg", JSValue.str "FG1"), ("side", JSValue.str "TOP")],
        [("fg", JSValue.str "FG2"), ("side", JSValue.null)]]
      Stencil.homeSheetCols "Home").1.2.2.2.1 1 2
      [("fg", JSValue.str "FG2"), ("side", JSValue.null)] "side" rfl rfl⟩

/-! ## C20: which pallet columns are passed through formatExcelDate -/

/-- C20 (the code at the failing input). A pallet record with `date_received`
"2024-01-15T10:30:00" under the "Received List" columns: the cell of column 9 holds the
stored string unchanged, although `formatExcelDate` turns that string, parsed as 15 January
2024, 10:30 local time, into "15/01/2024 10:30 AM"; the same value under `out_time` in
the "ISOS" columns is written reformatted. -/
theorem date_received_not_reformatted :
    Pallet.receivedSheetCols[9]? = some "date_received" ∧
    ((Pallet.makeSheet (fun _ => "") (fun _ => some ⟨15, 0, 2024, 10, 30⟩)
        [[("pallet_no", JSValue.str "P1"),
          ("date_received", JSValue.str "2024-01-15T10:30:00")]]
        Pallet.receivedSheetCols "Received List").aoa[1]?).bind (fun row => row[9]?) =
      some (JSValue.str "2024-01-15T10:30:00") ∧
    Pallet.formatExcelDate (fun _ => some ⟨15, 0, 2024, 10, 30⟩)
        (JSValue.str "2024-01-15T10:30:00") =
      JSValue.str "15/01/2024 10:30 AM" ∧
    ((Pallet.makeSheet (fun _ => "") (fun _ => some ⟨15, 0, 2024, 10, 30⟩)
        [[("pallet_no", JSValue.str "P1"),
          ("out_time", JSValue.str "2024-01-15T10:30:00")]]
        Pallet.isosSheetCols "ISOS").aoa[1]?).bind (fun row => row[5]?) =
      some (JSValue.str "15/01/2024 10:30 AM") := by
  refine ⟨?_, ?_, ?_, ?_⟩ <;> decide

/-! ## C21: formatExcelDate -/

/-- The 12-hour clock of `formatExcelDate`: `hours % 12 || 12`. -/
theorem hour12_eq (h : Nat) :
    (if h % 12 = 0 then 12 else h % 12) = (h + 11) % 12 + 1 := by
  split_ifs with h0 <;> omega

/-- C21. `formatExcelDate` returns `""` for a falsy input (missing, `null`, the empty
string), returns a non-empty input string unchanged when it does not parse as a date, and
otherwise returns day "/" month "/" year " " hour ":" minutes " " suffix, where day,
month (from 1) and minutes are padded with a zero to 2 digits, the hour is that of the
12-hour clock (`hours` modulo 12 with 0 shown as 12, always in 1..12) and the suffix is
"PM" exactly when `hours >= 12`; so hour 0 gives "12:.. AM", hour 12 "12:.. PM" and
hour 13 "1:.. PM". -/
theorem formatExcelDate_spec (newDate : JSValue → Option LocalDate) (s : String)
    (d : LocalDate) :
    (∀ v : JSValue, v.truthy = false → Pallet.formatExcelDate newDate v = JSValue.str "") ∧
    Pallet.formatExcelDate newDate JSValue.undefined = JSValue.str "" ∧
    Pallet.formatExcelDate newDate JSValue.null = JSValue.str "" ∧
    Pallet.formatExcelDate newDate (JSValue.str "") = JSValue.str "" ∧
    (s ≠ "" → newDate (JSValue.str s) = none →
      Pallet.formatExcelDate newDate (JSValue.str s) = JSValue.str s) ∧
    (s ≠ "" → newDate (JSValue.str s) = some d →
      Pallet.formatExcelDate newDate (JSValue.str s) =
        JSValue.str (padStart2 (toString d.date) ++ "/" ++
          padStart2 (toString (d.month + 1)) ++ "/" ++ toString d.fullYear ++ " " ++
          toString ((d.hours + 11) % 12 + 1) ++ ":" ++ padStart2 (toString d.minutes) ++
          " " ++ (if 12 ≤ d.hours then "PM" else "AM"))) ∧
    (1 ≤ (d.hours + 11) % 12 + 1 ∧ (d.hours + 11) % 12 + 1 ≤ 12 ∧
      ((d.hours + 11) % 12 + 1) % 12 = d.hours % 12) ∧
    (∀ n, n < 100 → (padStart2 (toString n)).length = 2 ∧
      (n < 10 → padStart2 (toString n) = "0" ++ toString n) ∧
      (10 ≤ n → padStart2 (toString n) = toString n)) ∧
    Pallet.formatExcelDate (fun _ => some ⟨5, 0, 2024, 0, 7⟩) (JSValue.str "x") =
      JSValue.str "05/01/2024 12:07 AM" ∧
    Pallet.formatExcelDate (fun _ => some ⟨15, 11, 2024, 12, 0⟩) (JSValue.str "x") =
      JSValue.str "15/12/2024 12:00 PM" ∧
    Pallet.formatExcelDate (fun _ => some ⟨31, 9, 2024, 13, 30⟩) (JSValue.str "x") =
      JSValue.str "31/10/2024 1:30 PM" := by
  have hfalsy : ∀ v : JSValue, v.truthy = false →
      Pallet.formatExcelDate newDate v = JSValue.str "" := by
    intro v hv
    simp [Pallet.formatExcelDate, hv]
  have htruthy : s ≠ "" → (JSValue.str s).truthy = true := by
    intro hs
    simp [JSValue.truthy, hs]
  refine ⟨hfalsy, hfalsy _ rfl, hfalsy _ rfl, hfalsy _ (by decide), ?_, ?_, by omega, ?_,
    by decide, by decide, by decide⟩
  · intro hs hnone
    simp [Pallet.formatExcelDate, htruthy hs, hnone]
  · intro hs hsome
    simp only [Pallet.formatExcelDate, htruthy hs, hsome, Bool.not_true, Bool.false_eq_true,
      if_false, hour12_eq]
  · set_option maxRecDepth 100000 in decide

/-! ## C24: the cell index of the status column -/

/-- C24. The index 14 that the stencil callback writes to is the 0-based position of
`status` in the columns of the stencil status table, the index 9 of the pallet callback is
the position of `condition_status` in the columns of the pallet status table, and no other
cell of the row is rewritten: the row keeps its number of cells and every cell at another
index keeps its text. -/
theorem status_cell_index (today : ℤ) (srow : Row) (sdata : Stencil.Data) (prow : Row)
    (pdata : Pallet.Data) :
    Stencil.statusTableColumns.indexOf "status" = 14 ∧
    Stencil.statusTableColumns[14]? = some "status" ∧
    Pallet.statusTableColumns.indexOf "condition_status" = 9 ∧
    Pallet.statusTableColumns[9]? = some "condition_status" ∧
    (Stencil.rowCallback today srow sdata).cells.length = srow.cells.length ∧
    (∀ i, i ≠ 14 → (Stencil.rowCallback today srow sdata).cells[i]? = srow.cells[i]?) ∧
    (Pallet.rowCallback today prow pdata).cells.length = prow.cells.length ∧
    (∀ i, i ≠ 9 → (Pallet.rowCallback today prow pdata).cells[i]? = prow.cells[i]?) := by
  obtain ⟨D, T, stxt, -, -, hs⟩ := stencil_rowCallback_shape today sdata
  obtain ⟨P, ptxt, -, hp⟩ := pallet_rowCallback_shape today pdata
  refine ⟨by decide, by decide, by decide, by decide, ?_, ?_, ?_, ?_⟩
  · rw [hs srow]
    simp
  · intro i hi
    rw [hs srow]
    exact List.getElem?_set_ne (Ne.symm hi)
  · rw [hp prow]
    simp
  · intro i hi
    rw [hp prow]
    exact List.getElem?_set_ne (Ne.symm hi)

/-! ## C25: urgency is monotone in the revalidation date -/

/-- The date rank of a cleared row. -/
theorem dateSeverity_removeClass (row : Row) :
    dateSeverity (removeClass highlightClasses row) = 0 := by
  have h : ∀ c : String, c ∈ highlightClasses →
      c ∉ (removeClass highlightClasses row).classes := by
    intro c hc hmem
    exact ((mem_removeClass _ _ _).1 hmem).2 hc
  simp [dateSeverity, h "case3" (by decide), h "case2" (by decide), h "case1" (by decide)]

/-- The date rank after the date block added one class to a cleared row. -/
theorem dateSeverity_addClass (row : Row) (c : String)
    (hc : c = "case1" ∨ c = "case2" ∨ c = "case3") :
    dateSeverity (addClass c (removeClass highlightClasses row)) =
      if c = "case3" then 3 else if c = "case2" then 2 else 1 := by
  have h : ∀ k : String, k ∈ highlightClasses →
      (k ∈ (addClass c (removeClass highlightClasses row)).classes ↔ k = c) := by
    intro k hk
    rw [mem_addClass, mem_removeClass]
    constructor
    · rintro (h | h)
      · exact absurd hk h.2
      · exact h
    · exact fun h => Or.inr h
  unfold dateSeverity
  rw [if_congr (h "case3" (by decide)) rfl rfl, if_congr (h "case2" (by decide)) rfl rfl,
    if_congr (h "case1" (by decide)) rfl rfl]
  rcases hc with rfl | rfl | rfl <;> decide

/-- The tension block does not change the date rank. -/
theorem dateSeverity_tensionHighlight (ts : List JSNum) (st : Row × String) :
    dateSeverity (Stencil.tensionHighlight ts st).1 = dateSeverity st.1 := by
  have h : ∀ t : String, t = "tension-red" ∨ t = "tension-pink" →
      dateSeverity (addClass t st.1) = dateSeverity st.1 := by
    intro t ht
    have hk : ∀ k : String, k = "case1" ∨ k = "case2" ∨ k = "case3" →
        (k ∈ (addClass t st.1).classes ↔ k ∈ st.1.classes) := by
      intro k hk
      rw [mem_addClass]
      constructor
      · rintro (h | h)
        · exact h
        · rcases hk with rfl | rfl | rfl <;> rcases ht with rfl | rfl <;>
            exact absurd h (by decide)
      · exact fun h => Or.inl h
    unfold dateSeverity
    rw [if_congr (hk "case3" (by simp)) rfl rfl, if_congr (hk "case2" (by simp)) rfl rfl,
      if_congr (hk "case1" (by simp)) rfl rfl]
  rcases tensionHighlight_uniform ts with hu | hu | hu <;> rw [hu st]
  · exact h _ (Or.inl rfl)
  · exact h _ (Or.inr rfl)

/-- The date rank after the pallet callback, by window. -/
theorem pallet_dateSeverity (today : ℤ) (row : Row) (cs : JSVal) (r : ℤ) :
    dateSeverity (Pallet.rowCallback today row ⟨some r, cs⟩) =
      if ceilDays r today ≤ 1 then 3 else if ceilDays r today ≤ 5 then 2
      else if ceilDays r today ≤ 10 then 1 else 0 := by
  have hset : ∀ (i : Nat) (txt : String) (x : Row),
      dateSeverity (setCellText i txt x) = dateSeverity x := fun _ _ _ => rfl
  by_cases h1 : ceilDays r today ≤ 1
  · have hrow : Pallet.rowCallback today row ⟨some r, cs⟩ =
        setCellText 9 "REVALIDATION TIME END"
          (addClass "case3" (removeClass highlightClasses row)) := by
      simp [Pallet.rowCallback, diffDays, h1]
    rw [hrow, hset, dateSeverity_addClass _ _ (by simp), if_pos h1]
    rfl
  · by_cases h10 : ceilDays r today ≤ 10
    · rw [pallet_rowCallback_soon today row cs r (by omega) h10, hset,
        dateSeverity_addClass _ _ (by split_ifs <;> simp), if_neg h1]
      by_cases h5 : ceilDays r today ≤ 5
      · simp [h5]
      · simp [h5, h10]
    · have h5 : ¬ ceilDays r today ≤ 5 := by omega
      have hrow : Pallet.rowCallback today row ⟨some r, cs⟩ =
          setCellText 9 cs.orEmpty (removeClass highlightClasses row) := by
        simp [Pallet.rowCallback, diffDays, h1, h5, h10]
      rw [hrow, hset, dateSeverity_removeClass, if_neg h1, if_neg h5, if_neg h10]

/-- The date rank after the stencil callback, by window. -/
theorem stencil_dateSeverity (today : ℤ) (row : Row) (data : Stencil.Data) (r : ℤ)
    (hr : data.stencil_revalidation_dt = some r) :
    dateSeverity (Stencil.rowCallback today row data) =
      if ceilDays r today ≤ 1 then 3 else if ceilDays r today ≤ 5 then 2
      else if ceilDays r today ≤ 10 then 1 else 0 := by
  have hd : diffDays data.stencil_revalidation_dt today = some (ceilDays r today) := by
    simp [diffDays, hr]
  have hset : ∀ (i : Nat) (txt : String) (x : Row),
      dateSeverity (setCellText i txt x) = dateSeverity x := fun _ _ _ => rfl
  rw [stencil_rowCallback_eq, hset, dateSeverity_tensionHighlight, hd]
  by_cases h1 : ceilDays r today ≤ 1
  · rw [revalidationDateHighlight_critical _ _ h1, dateSeverity_addClass _ _ (by simp),
      if_pos h1]
    rfl
  · by_cases h10 : ceilDays r today ≤ 10
    · rw [revalidationDateHighlight_soon _ _ (by omega) h10,
        dateSeverity_addClass _ _ (by split_ifs <;> simp), if_neg h1]
      by_cases h5 : ceilDays r today ≤ 5
      · simp [h5]
      · simp [h5, h10]
    · have h5 : ¬ ceilDays r today ≤ 5 := by omega
      have hst : Stencil.revalidationDateHighlight (some (ceilDays r today))
          (removeClass highlightClasses row, data.status.orEmpty) =
          (removeClass highlightClasses row, data.status.orEmpty) := by
        simp [Stencil.revalidationDateHighlight, h1, h5, h10]
      rw [hst, dateSeverity_removeClass, if_neg h1, if_neg h5, if_neg h10]

/-- C25. For a fixed `now` and two parseable revalidation dates `d1 <= d2`,
`diffDays d1 <= diffDays d2`, and the date rank of the row (`case3` above `case2` above
`case1` above no date class) for `d1` is at least that for `d2`, in the pallet callback and
in the stencil callback: a later deadline never makes a row more urgent. -/
theorem urgency_monotone (today : ℤ) (d1 d2 : ℤ) (prow : Row) (cs : JSVal) (srow : Row)
    (sdata : Stencil.Data) (h : d1 ≤ d2) :
    ceilDays d1 today ≤ ceilDays d2 today ∧
    dateSeverity (Pallet.rowCallback today prow ⟨some d2, cs⟩) ≤
      dateSeverity (Pallet.rowCallback today prow ⟨some d1, cs⟩) ∧
    dateSeverity (Stencil.rowCallback today srow
        { sdata with stencil_revalidation_dt := some d2 }) ≤
      dateSeverity (Stencil.rowCallback today srow
        { sdata with stencil_revalidation_dt := some d1 }) := by
  have hmono : ceilDays d1 today ≤ ceilDays d2 today := by
    rw [ceilDays_le_iff]
    have h2 := (ceilDays_le_iff d2 today (ceilDays d2 today)).1 (le_refl _)
    omega
  have hrank : (if ceilDays d2 today ≤ 1 then 3 else if ceilDays d2 today ≤ 5 then 2
      else if ceilDays d2 today ≤ 10 then 1 else 0) ≤
      (if ceilDays d1 today ≤ 1 then 3 else if ceilDays d1 today ≤ 5 then 2
      else if ceilDays d1 today ≤ 10 then 1 else 0) := by
    split_ifs <;> omega
  refine ⟨hmono, ?_, ?_⟩
  · rw [pallet_dateSeverity, pallet_dateSeverity]
    exact hrank
  · rw [stencil_dateSeverity today srow _ d2 rfl, stencil_dateSeverity today srow _ d1 rfl]
    exact hrank

/-- Witness for C25: a date 3 days off against a date 8 days off, stencil tension 34. -/
theorem urgency_monotone_witness :
    ceilDays (3 * 86400000) 0 ≤ ceilDays (8 * 86400000) 0 ∧
    dateSeverity (Pallet.rowCallback 0 ⟨[], List.replicate 12 "x"⟩
        ⟨some (8 * 86400000), JSVal.null⟩) ≤
      dateSeverity (Pallet.rowCallback 0 ⟨[], List.replicate 12 "x"⟩
        ⟨some (3 * 86400000), JSVal.null⟩) ∧
    dateSeverity (Stencil.rowCallback 0 ⟨[], List.replicate 16 "x"⟩
        { (⟨none, JSVal.null, JSNum.fin 34, JSNum.nan, JSNum.nan, JSNum.nan,
            JSNum.nan⟩ : Stencil.Data) with stencil_revalidation_dt := some (8 * 86400000) }) ≤
      dateSeverity (Stencil.rowCallback 0 ⟨[], List.replicate 16 "x"⟩
        { (⟨none, JSVal.null, JSNum.fin 34, JSNum.nan, JSNum.nan, JSNum.nan,
            JSNum.nan⟩ : Stencil.Data) with stencil_revalidation_dt := some (3 * 86400000) }) :=
  urgency_monotone 0 (3 * 86400000) (8 * 86400000) ⟨[], List.replicate 12 "x"⟩ JSVal.null
    ⟨[], List.replicate 16 "x"⟩
    ⟨none, JSVal.null, JSNum.fin 34, JSNum.nan, JSNum.nan, JSNum.nan, JSNum.nan⟩
    (by decide)

/-! ## C2: stencil, critical window -/

/-- C2 (as stated, refuted). With `diffDays = 0` the stencil callback shows
"Revalidation Time End" (mixed case, not "REVALIDATION TIME END") when no tension value
parses, and with `tension_a = 34` it shows "Stencil EOL" and the row carries `tension-red`
next to `case3`. -/
theorem stencil_critical_window_counterexample :
    ceilDays (-5) 0 ≤ 1 ∧
    (Stencil.rowCallback 0 ⟨["odd"], List.replicate 16 "x"⟩
      ⟨some (-5), JSVal.str "MOVE", JSNum.nan, JSNum.nan, JSNum.nan, JSNum.nan,
        JSNum.nan⟩).cells[14]? ≠ some "REVALIDATION TIME END" ∧
    (Stencil.rowCallback 0 ⟨["odd"], List.replicate 16 "x"⟩
      ⟨some (-5), JSVal.str "MOVE", JSNum.fin 34, JSNum.nan, JSNum.nan, JSNum.nan,
        JSNum.nan⟩).cells[14]? = some "Stencil EOL" ∧
    (Stencil.rowCallback 0 ⟨["odd"], List.replicate 16 "x"⟩
      ⟨some (-5), JSVal.str "MOVE", JSNum.fin 34, JSNum.nan, JSNum.nan, JSNum.nan,
        JSNum.nan⟩).highlights = ["case3", "tension-red"] := by
  have h : ceilDays (-5) 0 = 0 := by rw [ceilDays_eq]; decide
  refine ⟨by rw [h]; decide, ?_, ?_, ?_⟩ <;>
    simp only [stencil_rowCallback_eq, diffDays, Option.map, h] <;> decide

/-- The row after the date block of the critical window and a tension class. -/
theorem critical_then_tension (row : Row) (t txt : String)
    (ht : t = "tension-red" ∨ t = "tension-pink") (hcell : 14 < row.cells.length) :
    (setCellText 14 txt
      (addClass t (addClass "case3" (removeClass highlightClasses row)))).cells[14]? =
      some txt ∧
    (setCellText 14 txt
      (addClass t (addClass "case3" (removeClass highlightClasses row)))).highlights =
      ["case3", t] := by
  have hnot : t ∉ (removeClass highlightClasses row).classes ++ ["case3"] := by
    intro hmem
    rcases List.mem_append.1 hmem with h | h
    · rcases ht with rfl | rfl <;> exact ((mem_removeClass _ _ _).1 h).2 (by decide)
    · rcases ht with rfl | rfl <;> exact absurd h (by decide)
  rw [addClass_removeClass_eq "case3" row (by decide), addClass_mk _ _ _ hnot]
  refine ⟨?_, ?_⟩
  · exact setCellText_get _ _ _ hcell
  · rw [setCellText_highlights, List.append_assoc]
    apply highlights_mk_append
    intro c hc
    rcases ht with rfl | rfl <;>
      (simp only [List.cons_append, List.nil_append, List.mem_cons, List.mem_singleton,
        List.not_mem_nil, or_false] at hc
       rcases hc with rfl | rfl <;> decide)

/-- C2 (amended). Stencil status page: when `stencil_revalidation_dt` parses and
`diffDays <= 1`, the row carries `case3` and neither `case1` nor `case2`, whatever the stored
status and the tension values are. When no tension test fires, the status cell shows
"Revalidation Time End" and `case3` is the only highlight class. When the first tension
value on which a test fires is below 35, the cell shows "Stencil EOL" and the highlight
classes are `case3` and `tension-red`; when it equals 35 or 36, the cell shows
"Stencil Re-Order Soon" and the highlight classes are `case3` and `tension-pink`. -/
theorem stencil_critical_window (today : ℤ) (row : Row) (data : Stencil.Data) (reval : ℤ)
    (hparse : data.stencil_revalidation_dt = some reval)
    (hdiff : ceilDays reval today ≤ 1)
    (hcell : 14 < row.cells.length) :
    "case3" ∈ (Stencil.rowCallback today row data).classes ∧
    "case1" ∉ (Stencil.rowCallback today row data).classes ∧
    "case2" ∉ (Stencil.rowCallback today row data).classes ∧
    ((∀ u ∈ Stencil.tensions data,
        u.lt 35 = false ∧ u.strictEq 35 = false ∧ u.strictEq 36 = false) →
      (Stencil.rowCallback today row data).cells[14]? = some "Revalidation Time End" ∧
      (Stencil.rowCallback today row data).highlights = ["case3"]) ∧
    (∀ (pre : List JSNum) (t : JSNum) (post : List JSNum),
      Stencil.tensions data = pre ++ t :: post →
      (∀ u ∈ pre, u.lt 35 = false ∧ u.strictEq 35 = false ∧ u.strictEq 36 = false) →
      t.lt 35 = true →
      (Stencil.rowCallback today row data).cells[14]? = some "Stencil EOL" ∧
      (Stencil.rowCallback today row data).highlights = ["case3", "tension-red"]) ∧
    (∀ (pre : List JSNum) (w : JSNum) (post : List JSNum),
      Stencil.tensions data = pre ++ w :: post →
      (∀ u ∈ pre, u.lt 35 = false) →
      (w = JSNum.fin 35 ∨ w = JSNum.fin 36) →
      (Stencil.rowCallback today row data).cells[14]? = some "Stencil Re-Order Soon" ∧
      (Stencil.rowCallback today row data).highlights = ["case3", "tension-pink"]) := by
  have hd : diffDays data.stencil_revalidation_dt today = some (ceilDays reval today) := by
    simp [diffDays, hparse]
  have hlen : 14 < (addClass "case3" (removeClass highlightClasses row)).cells.length := by
    rw [addClass_cells, removeClass_cells]; exact hcell
  have hc3 : "case3" ∈ (addClass "case3" (removeClass highlightClasses row)).classes :=
    (mem_addClass _ _ _).2 (Or.inr rfl)
  have hc : ∀ c : String, c = "case1" ∨ c = "case2" →
      c ∉ (addClass "case3" (removeClass highlightClasses row)).classes := by
    intro c hcc
    rw [mem_addClass, mem_removeClass]
    rintro (h | h)
    · rcases hcc with rfl | rfl <;> exact h.2 (by decide)
    · rcases hcc with rfl | rfl <;> exact absurd h (by decide)
  have hct : ∀ c t : String, c = "case1" ∨ c = "case2" →
      t = "tension-red" ∨ t = "tension-pink" →
      c ∉ (addClass t (addClass "case3" (removeClass highlightClasses row))).classes := by
    intro c t hcc ht
    rw [mem_addClass]
    rintro (h | h)
    · exact hc c hcc h
    · rcases hcc with rfl | rfl <;> rcases ht with rfl | rfl <;> exact absurd h (by decide)
  rw [stencil_rowCallback_eq, hd, revalidationDateHighlight_critical _ _ hdiff]
  refine ⟨?_, ?_, ?_, ?_, ?_, ?_⟩
  · rcases tensionHighlight_uniform (Stencil.tensions data) with h | h | h <;>
      rw [h, setCellText_classes]
    · exact hc3
    · exact (mem_addClass _ _ _).2 (Or.inl hc3)
    · exact (mem_addClass _ _ _).2 (Or.inl hc3)
  · rcases tensionHighlight_uniform (Stencil.tensions data) with h | h | h <;>
      rw [h, setCellText_classes]
    · exact hc _ (Or.inl rfl)
    · exact hct _ _ (Or.inl rfl) (Or.inl rfl)
    · exact hct _ _ (Or.inl rfl) (Or.inr rfl)
  · rcases tensionHighlight_uniform (Stencil.tensions data) with h | h | h <;>
      rw [h, setCellText_classes]
    · exact hc _ (Or.inr rfl)
    · exact hct _ _ (Or.inr rfl) (Or.inl rfl)
    · exact hct _ _ (Or.inr rfl) (Or.inr rfl)
  · intro hno
    rw [tensionHighlight_none _ _ hno]
    exact ⟨setCellText_get _ _ _ hlen,
      by rw [setCellText_highlights]
         exact highlights_addClass_removeClass "case3" row (by decide)⟩
  · intro pre t post hsplit hpre hfail
    rw [hsplit, tensionHighlight_skip pre _ _ hpre, tensionHighlight_fail t post _ hfail]
    exact critical_then_tension row "tension-red" "Stencil EOL" (Or.inl rfl) hcell
  · intro pre w post hsplit hpre hw
    rw [hsplit, tensionHighlight_warn pre w post _ hpre hw]
    exact critical_then_tension row "tension-pink" "Stencil Re-Order Soon" (Or.inr rfl)
      hcell

/-- Witness for C2 (amended): an expired date with `tension_a = 34` gives "Stencil EOL"
with `case3` and `tension-red`; with tensions 40 and 36 it gives "Stencil Re-Order Soon"
with `case3` and `tension-pink`. -/
theorem stencil_critical_window_witness :
    ((Stencil.rowCallback 0 ⟨["odd"], List.replicate 16 "x"⟩
        ⟨some (-5), JSVal.str "MOVE", JSNum.fin 34, JSNum.nan, JSNum.nan, JSNum.nan,
          JSNum.nan⟩).cells[14]? = some "Stencil EOL" ∧
      (Stencil.rowCallback 0 ⟨["odd"], List.replicate 16 "x"⟩
        ⟨some (-5), JSVal.str "MOVE", JSNum.fin 34, JSNum.nan, JSNum.nan, JSNum.nan,
          JSNum.nan⟩).highlights = ["case3", "tension-red"]) ∧
    ((Stencil.rowCallback 0 ⟨["odd"], List.replicate 16 "x"⟩
        ⟨some (-5), JSVal.str "MOVE", JSNum.fin 40, JSNum.fin 36, JSNum.nan, JSNum.nan,
          JSNum.nan⟩).cells[14]? = some "Stencil Re-Order Soon" ∧
      (Stencil.rowCallback 0 ⟨["odd"], List.replicate 16 "x"⟩
        ⟨some (-5), JSVal.str "MOVE", JSNum.fin 40, JSNum.fin 36, JSNum.nan, JSNum.nan,
          JSNum.nan⟩).highlights = ["case3", "tension-pink"]) :=
  ⟨(stencil_critical_window 0 ⟨["odd"], List.replicate 16 "x"⟩
      ⟨some (-5), JSVal.str "MOVE", JSNum.fin 34, JSNum.nan, JSNum.nan, JSNum.nan, JSNum.nan⟩
      (-5) rfl (by rw [ceilDays_eq]; decide) (by decide)).2.2.2.2.1
      [] (JSNum.fin 34) [JSNum.nan, JSNum.nan, JSNum.nan, JSNum.nan] rfl (by decide)
      (by decide),
   (stencil_critical_window 0 ⟨["odd"], List.replicate 16 "x"⟩
      ⟨some (-5), JSVal.str "MOVE", JSNum.fin 40, JSNum.fin 36, JSNum.nan, JSNum.nan,
        JSNum.nan⟩
      (-5) rfl (by rw [ceilDays_eq]; decide) (by decide)).2.2.2.2.2
      [JSNum.fin 40] (JSNum.fin 36) [JSNum.nan, JSNum.nan, JSNum.nan] rfl (by decide)
      (Or.inr rfl)⟩

/-! ## C19: the column widths -/

/-- The running maximum of the loop in `colWidth`. -/
theorem foldl_maxLen (f : List JSValue → Nat) (rows : List (List JSValue)) (m0 : Nat) :
    m0 ≤ rows.foldl (fun m r => if f r > m then f r else m) m0 ∧
    (∀ r ∈ rows, f r ≤ rows.foldl (fun m r => if f r > m then f r else m) m0) ∧
    (rows.foldl (fun m r => if f r > m then f r else m) m0 = m0 ∨
      ∃ r ∈ rows, rows.foldl (fun m r => if f r > m then f r else m) m0 = f r) := by
  induction rows generalizing m0 with
  | nil => simp
  | cons r rest ih =>
    simp only [List.foldl_cons, List.mem_cons]
    obtain ⟨h1, h2, h3⟩ := ih (if f r > m0 then f r else m0)
    have hm : m0 ≤ (if f r > m0 then f r else m0) := by split_ifs <;> omega
    have hr : f r ≤ (if f r > m0 then f r else m0) := by split_ifs <;> omega
    refine ⟨le_trans hm h1, ?_, ?_⟩
    · rintro x (rfl | hx)
      · exact le_trans hr h1
      · exact h2 x hx
    · rcases h3 with h | ⟨x, hx, h⟩
      · by_cases hgt : f r > m0
        · exact Or.inr ⟨r, Or.inl rfl, by rw [h, if_pos hgt]⟩
        · exact Or.inl (by rw [h, if_neg hgt])
      · exact Or.inr ⟨x, Or.inr hx, h⟩

/-- What `colWidth` computes: 2 more than the largest of the column name length and the
lengths of `String(cell)` over the truthy cells of the column; a falsy cell counts as
empty. -/
theorem colWidth_spec (numToString : JSNum → String) (rows : List (List JSValue)) (i : Nat)
    (c : String) :
    jsLength c + 2 ≤ colWidth numToString rows i c ∧
    (∀ r ∈ rows, (r.getD i JSValue.undefined).truthy = true →
      jsLength ((r.getD i JSValue.undefined).toStr numToString) + 2 ≤
        colWidth numToString rows i c) ∧
    (colWidth numToString rows i c = jsLength c + 2 ∨
      ∃ r ∈ rows, (r.getD i JSValue.undefined).truthy = true ∧
        colWidth numToString rows i c =
          jsLength ((r.getD i JSValue.undefined).toStr numToString) + 2) := by
  obtain ⟨h1, h2, h3⟩ := foldl_maxLen
    (fun r => jsLength (if (r.getD i JSValue.undefined).truthy
      then (r.getD i JSValue.undefined).toStr numToString else "")) rows (jsLength c)
  unfold colWidth
  refine ⟨by simpa using h1, ?_, ?_⟩
  · intro r hr ht
    have := h2 r hr
    simp only [ht, if_true] at this
    simpa using this
  · rcases h3 with h | ⟨r, hr, h⟩
    · exact Or.inl (by simpa using h)
    · by_cases ht : (r.getD i JSValue.undefined).truthy = true
      · refine Or.inr ⟨r, hr, ht, ?_⟩
        simp only [ht, if_true] at h
        simpa using h
      · refine Or.inl ?_
        simp only [ht] at h
        have h0 : jsLength "" = 0 := rfl
        simp only [Bool.false_eq_true, if_false, h0] at h
        have hgoal := le_antisymm (h ▸ Nat.zero_le (jsLength c)) h1
        simpa using hgoal

/-- The width of column `i` over rows built from the records by a cell function. -/
theorem colWidth_of_records (numToString : JSNum → String) (f : Record → String → JSValue)
    (data : List Record) (cols : List String) (i : Nat) (c : String)
    (hc : cols[i]? = some c) :
    jsLength c + 2 ≤
      colWidth numToString (data.map (fun r => cols.map (fun k => f r k))) i c ∧
    (∀ r ∈ data, (f r c).truthy = true →
      jsLength ((f r c).toStr numToString) + 2 ≤
        colWidth numToString (data.map (fun r => cols.map (fun k => f r k))) i c) ∧
    (colWidth numToString (data.map (fun r => cols.map (fun k => f r k))) i c =
        jsLength c + 2 ∨
      ∃ r ∈ data, (f r c).truthy = true ∧
        colWidth numToString (data.map (fun r => cols.map (fun k => f r k))) i c =
          jsLength ((f r c).toStr numToString) + 2) := by
  have hget : ∀ r : Record, (cols.map (fun k => f r k)).getD i JSValue.undefined = f r c := by
    intro r
    rw [List.getD_eq_getElem?_getD, List.getElem?_map, hc]
    rfl
  obtain ⟨h1, h2, h3⟩ := colWidth_spec numToString
    (data.map (fun r => cols.map (fun k => f r k))) i c
  refine ⟨h1, ?_, ?_⟩
  · intro r hr ht
    have := h2 (cols.map (fun k => f r k)) (List.mem_map.2 ⟨r, hr, rfl⟩)
    rw [hget r] at this
    exact this ht
  · rcases h3 with h | ⟨row, hrow, ht, h⟩
    · exact Or.inl h
    · obtain ⟨r, hr, rfl⟩ := List.mem_map.1 hrow
      rw [hget r] at ht h
      exact Or.inr ⟨r, hr, ht, h⟩

/-- C19 (as stated, refuted). A record whose `fg` is the boolean `false`, under the stencil
"Home" columns: the cell of column 1 holds `false`, whose text "false" has 5 characters,
more than the 2 of the column name, yet the width of column 1 is 4 = 2 + 2 and not
7 = 5 + 2; the same holds in the pallet `makeSheet`. -/
theorem colWidth_falsy_cell :
    ((Stencil.makeSheet (fun _ => "") [[("fg", JSValue.bool false)]]
      Stencil.homeSheetCols "Home").aoa[1]?).bind (fun row => row[1]?) =
      some (JSValue.bool false) ∧
    jsLength ((JSValue.bool false).toStr (fun _ => "")) = 5 ∧
    Stencil.homeSheetCols[1]? = some "fg" ∧ jsLength "fg" = 2 ∧
    (Stencil.makeSheet (fun _ => "") [[("fg", JSValue.bool false)]]
      Stencil.homeSheetCols "Home").colWidths[1]? = some 4 ∧
    (Pallet.makeSheet (fun _ => "") (fun _ => none) [[("fg", JSValue.bool false)]]
      ["id", "fg"] "Home").colWidths[1]? = some 4 ∧
    (Stencil.makeSheet (fun _ => "") [[("fg", JSValue.bool false)]]
      Stencil.homeSheetCols "Home").colWidths[1]? ≠
      some (2 + max (jsLength "fg") (jsLength ((JSValue.bool false).toStr (fun _ => "")))) := by
  refine ⟨?_, ?_, ?_, ?_, ?_, ?_, ?_⟩ <;> decide

/-- C19 (amended). For every data list and column list, the width (`wch`) of column `i` is
2 more than the maximum of the column name's length and the lengths of `String(v)` over
the cells `v` of the record rows in that column that are truthy: a cell holding a falsy
value (`false`, 0, the empty string) is counted as empty. The cell of a record is its
value with a missing or `null` value replaced by `""`, and in the pallet variant
`formatExcelDate` of the value under `out_time` and `in_time`. -/
theorem makeSheet_colWidths (numToString : JSNum → String)
    (newDate : JSValue → Option LocalDate) (data : List Record) (cols : List String)
    (sheetName : String) (i : Nat) (c : String) (hc : cols[i]? = some c) :
    (∃ w : Nat,
      (Stencil.makeSheet numToString data cols sheetName).colWidths[i]? = some w ∧
      jsLength c + 2 ≤ w ∧
      (∀ r ∈ data, ((getProp r c).nullish (JSValue.str "")).truthy = true →
        jsLength (((getProp r c).nullish (JSValue.str "")).toStr numToString) + 2 ≤ w) ∧
      (w = jsLength c + 2 ∨
        ∃ r ∈ data, ((getProp r c).nullish (JSValue.str "")).truthy = true ∧
          w = jsLength (((getProp r c).nullish (JSValue.str "")).toStr numToString) + 2)) ∧
    (∃ w : Nat,
      (Pallet.makeSheet numToString newDate data cols sheetName).colWidths[i]? = some w ∧
      jsLength c + 2 ≤ w ∧
      (∀ r ∈ data,
        (if c = "out_time" ∨ c = "in_time" then Pallet.formatExcelDate newDate (getProp r c)
          else (getProp r c).nullish (JSValue.str "")).truthy = true →
        jsLength ((if c = "out_time" ∨ c = "in_time" then
            Pallet.formatExcelDate newDate (getProp r c)
          else (getProp r c).nullish (JSValue.str "")).toStr numToString) + 2 ≤ w) ∧
      (w = jsLength c + 2 ∨
        ∃ r ∈ data,
          (if c = "out_time" ∨ c = "in_time" then
              Pallet.formatExcelDate newDate (getProp r c)
            else (getProp r c).nullish (JSValue.str "")).truthy = true ∧
          w = jsLength ((if c = "out_time" ∨ c = "in_time" then
              Pallet.formatExcelDate newDate (getProp r c)
            else (getProp r c).nullish (JSValue.str "")).toStr numToString) + 2)) := by
  have hS := colWidth_of_records numToString
    (fun r k => (getProp r k).nullish (JSValue.str "")) data cols i c hc
  have hP := colWidth_of_records numToString
    (fun r k => if ["out_time", "in_time"].contains k then
        Pallet.formatExcelDate newDate (getProp r k)
      else (getProp r k).nullish (JSValue.str "")) data cols i c hc
  have hcond : (["out_time", "in_time"].contains c = true) ↔
      (c = "out_time" ∨ c = "in_time") := by simp
  simp only [hcond] at hP
  refine ⟨⟨_, ?_, hS⟩, ⟨_, ?_, hP⟩⟩
  · simp only [Stencil.makeSheet, List.getElem?_mapIdx, hc, Option.map]
  · simp only [Pallet.makeSheet, List.getElem?_mapIdx, hc, Option.map, hcond]

/-- Witness for C19 (amended): the column `fg` of two records with the values "FG1" and
"ASSEMBLY-1": the width is at least 2 more than the 10 characters of the second. -/
theorem makeSheet_colWidths_witness :
    10 + 2 ≤ ((Stencil.makeSheet (fun _ => "")
      [[("fg", JSValue.str "FG1")], [("fg", JSValue.str "ASSEMBLY-1")]]
      Stencil.homeSheetCols "Home").colWidths[1]?).getD 0 := by
  obtain ⟨w, hw, -, hrows, -⟩ := (makeSheet_colWidths (fun _ => "") (fun _ => none)
    [[("fg", JSValue.str "FG1")], [("fg", JSValue.str "ASSEMBLY-1")]]
    Stencil.homeSheetCols "Home" 1 "fg" rfl).1
  rw [hw]
  exact hrows [("fg", JSValue.str "ASSEMBLY-1")] (by decide) (by decide)

/-! ## C22: the condition-status gate of the ISOS scan -/

/-- C22. On a successful pallet lookup the scan is denied exactly when the pallet's
`condition_status` is a non-empty string whose upper-cased form is one of "MOVE",
"REWORK", "SCRAP", "REVALIDATION TIME END", "RE-VALIDATION NEED TO DONE SOON": then
one alert is shown and the modal, its title, the form field and `currentAction` are left as
they were; for every other `condition_status` no alert is shown, the modal opens and
`currentAction` is "IN" when `active_cycle` is truthy and "OUT" otherwise. The upper-casing
is the built-in one, here any function `upper`. -/
theorem isos_condition_gate (upper : String → String) (page : Pallet.IsosPage)
    (palletNo : String) (data : Pallet.LookupData) (cs : JSVal)
    (hok : data.ok = true) (hcs : data.condition_status = some cs) :
    ((∃ s, cs = JSVal.str s ∧ s ≠ "" ∧ upper s ∈ Pallet.blockedStatuses) ↔
      (Pallet.scanLookup upper page palletNo data).alerts ≠ page.alerts) ∧
    ((∃ s, cs = JSVal.str s ∧ s ≠ "" ∧ upper s ∈ Pallet.blockedStatuses) →
      Pallet.scanLookup upper page palletNo data =
        { page with
          scanInput := ""
          alerts := page.alerts ++
            ["❌ Access Denied: Pallet is in Condition Status \"" ++ cs.orEmpty ++ "\""] }) ∧
    (¬ (∃ s, cs = JSVal.str s ∧ s ≠ "" ∧ upper s ∈ Pallet.blockedStatuses) →
      (Pallet.scanLookup upper page palletNo data).alerts = page.alerts ∧
      (Pallet.scanLookup upper page palletNo data).modalShown = true ∧
      (Pallet.scanLookup upper page palletNo data).palletNoField = palletNo ∧
      (Pallet.scanLookup upper page palletNo data).currentAction =
        some (if data.active_cycle = true then "IN" else "OUT")) := by
  have hgate : Pallet.gateBlocks upper cs = true ↔
      ∃ s, cs = JSVal.str s ∧ s ≠ "" ∧ upper s ∈ Pallet.blockedStatuses := by
    cases cs with
    | undefined => simp [Pallet.gateBlocks]
    | null => simp [Pallet.gateBlocks]
    | str t =>
      by_cases ht : t = ""
      · simp [Pallet.gateBlocks, ht]
      · simp [Pallet.gateBlocks, ht]
  have hblocked : (∃ s, cs = JSVal.str s ∧ s ≠ "" ∧ upper s ∈ Pallet.blockedStatuses) →
      Pallet.scanLookup upper page palletNo data =
        { page with
          scanInput := ""
          alerts := page.alerts ++
            ["❌ Access Denied: Pallet is in Condition Status \"" ++ cs.orEmpty ++ "\""] } := by
    intro h
    simp [Pallet.scanLookup, hok, hcs, hgate.2 h]
  have hfree : ¬ (∃ s, cs = JSVal.str s ∧ s ≠ "" ∧ upper s ∈ Pallet.blockedStatuses) →
      (Pallet.scanLookup upper page palletNo data).alerts = page.alerts ∧
      (Pallet.scanLookup upper page palletNo data).modalShown = true ∧
      (Pallet.scanLookup upper page palletNo data).palletNoField = palletNo ∧
      (Pallet.scanLookup upper page palletNo data).currentAction =
        some (if data.active_cycle = true then "IN" else "OUT") := by
    intro h
    have hg : Pallet.gateBlocks upper cs = false := by
      cases hb : Pallet.gateBlocks upper cs
      · rfl
      · exact absurd (hgate.1 hb) h
    cases hac : data.active_cycle <;> simp [Pallet.scanLookup, hok, hcs, hg, hac]
  refine ⟨⟨?_, ?_⟩, hblocked, hfree⟩
  · intro h
    rw [hblocked h]
    simp
  · intro h
    by_contra hn
    exact h (hfree hn).1

/-- Witness for C22: with the upper-casing of the letters a to z, "move" in lower case is
denied, and an absent status with no active cycle opens the modal for OUT; with an
upper-casing that, like the built-in one, maps the long s to S, "ſcrap" is denied. -/
theorem isos_condition_gate_witness :
    (Pallet.scanLookup toUpperCase ⟨none, false, "", "", "P1", [], []⟩ "P1"
      ⟨true, JSVal.null, some (JSVal.str "move"), true⟩) =
      ⟨none, false, "", "", "",
        ["❌ Access Denied: Pallet is in Condition Status \"move\""], []⟩ ∧
    (Pallet.scanLookup toUpperCase ⟨none, false, "", "", "P1", [], []⟩ "P1"
      ⟨true, JSVal.null, some JSVal.null, false⟩).currentAction = some "OUT" ∧
    (Pallet.scanLookup (fun s => if s = "ſcrap" then "SCRAP" else toUpperCase s)
      ⟨none, false, "", "", "P1", [], []⟩ "P1"
      ⟨true, JSVal.null, some (JSVal.str "ſcrap"), true⟩) =
      ⟨none, false, "", "", "",
        ["❌ Access Denied: Pallet is in Condition Status \"ſcrap\""], []⟩ :=
  ⟨(isos_condition_gate toUpperCase ⟨none, false, "", "", "P1", [], []⟩ "P1"
      ⟨true, JSVal.null, some (JSVal.str "move"), true⟩ (JSVal.str "move") rfl rfl).2.1
      ⟨"move", rfl, by decide, by decide⟩,
   ((isos_condition_gate toUpperCase ⟨none, false, "", "", "P1", [], []⟩ "P1"
      ⟨true, JSVal.null, some JSVal.null, false⟩ JSVal.null rfl rfl).2.2 (by
        rintro ⟨s, hs, -, -⟩
        exact absurd hs (by simp))).2.2.2,
   (isos_condition_gate (fun s => if s = "ſcrap" then "SCRAP" else toUpperCase s)
      ⟨none, false, "", "", "P1", [], []⟩ "P1"
      ⟨true, JSVal.null, some (JSVal.str "ſcrap"), true⟩ (JSVal.str "ſcrap") rfl rfl).2.1
      ⟨"ſcrap", rfl, by decide, by decide⟩⟩

/-! ## C23: the operator validation of the ISOS submit -/

/-- When every entry carries a string `operator_id`, `validIds` is the list of their
upper-cased forms. -/
theorem validIdsOf_map_str (upper : String → String) (ids : List String) :
    Pallet.validIdsOf upper (ids.map JSVal.str) = some (ids.map upper) := by
  induction ids with
  | nil => rfl
  | cons s rest ih => simp [Pallet.validIdsOf, ih]

/-- An entry without a string `operator_id` makes the `map` throw. -/
theorem validIdsOf_none (upper : String → String) (ops : List JSVal)
    (h : ∃ o ∈ ops, ∀ s, o ≠ JSVal.str s) :
    Pallet.validIdsOf upper ops = none := by
  induction ops with
  | nil =>
    obtain ⟨o, ho, -⟩ := h
    exact absurd ho (List.not_mem_nil o)
  | cons o rest ih =>
    cases o with
    | undefined => rfl
    | null => rfl
    | str s =>
      obtain ⟨o2, ho2, hne⟩ := h
      rcases List.mem_cons.1 ho2 with rfl | hmem
      · exact absurd rfl (hne s)
      · simp [Pallet.validIdsOf, ih ⟨o2, hmem, hne⟩]

/-- What the submit handler does. When the list is fetched and every entry has a string
`operator_id`, the request is sent if and only if the entered ID, trimmed and upper-cased,
equals the upper-cased `operator_id` of some entry, and otherwise one alert is shown and
nothing is sent; a failed fetch or an entry without a string `operator_id` gives the alert
"Could not validate operator ID" and sends nothing. No step compares the ID with the
names OP-USER1 to OP-USER20. -/
theorem submitClick_spec (upper : String → String) (page : Pallet.IsosPage)
    (operator_id : JSVal) (operators : Option (List JSVal)) (ids : List String) :
    (operators = none →
      Pallet.submitClick upper page operator_id operators =
        { page with alerts := page.alerts ++ ["Could not validate operator ID"] }) ∧
    (∀ ops, operators = some ops → (∃ o ∈ ops, ∀ s, o ≠ JSVal.str s) →
      Pallet.submitClick upper page operator_id operators =
        { page with alerts := page.alerts ++ ["Could not validate operator ID"] }) ∧
    (operators = some (ids.map JSVal.str) →
      (Pallet.opIdOf upper operator_id ∈ ids.map upper →
        Pallet.submitClick upper page operator_id operators =
          { page with requests := page.requests ++
            [if page.currentAction = some "OUT" then "/api/isos_out"
              else "/api/isos_in"] }) ∧
      (Pallet.opIdOf upper operator_id ∉ ids.map upper →
        Pallet.submitClick upper page operator_id operators =
          { page with alerts := page.alerts ++
            ["❌ Invalid Operator ID are Notallowed."] }) ∧
      ((Pallet.submitClick upper page operator_id operators).requests ≠ page.requests ↔
        Pallet.opIdOf upper operator_id ∈ ids.map upper)) ∧
    (∀ s, s ≠ "" → Pallet.opIdOf upper (JSVal.str s) = upper (jsTrim s)) ∧
    Pallet.opIdOf upper (JSVal.str "") = "" ∧
    Pallet.opIdOf upper JSVal.undefined = "" := by
  have hin : operators = some (ids.map JSVal.str) →
      Pallet.opIdOf upper operator_id ∈ ids.map upper →
      Pallet.submitClick upper page operator_id operators =
        { page with requests := page.requests ++
          [if page.currentAction = some "OUT" then "/api/isos_out"
            else "/api/isos_in"] } := by
    intro hops hmem
    have hc : (ids.map upper).contains (Pallet.opIdOf upper operator_id) = true := by
      simpa using hmem
    simp only [Pallet.submitClick, hops, Option.bind, validIdsOf_map_str, hc]
    rfl
  have hout : operators = some (ids.map JSVal.str) →
      Pallet.opIdOf upper operator_id ∉ ids.map upper →
      Pallet.submitClick upper page operator_id operators =
        { page with alerts := page.alerts ++
          ["❌ Invalid Operator ID are Notallowed."] } := by
    intro hops hmem
    have hc : (ids.map upper).contains (Pallet.opIdOf upper operator_id) = false := by
      simpa using hmem
    simp only [Pallet.submitClick, hops, Option.bind, validIdsOf_map_str, hc]
    rfl
  refine ⟨?_, ?_, ?_, ?_, rfl, rfl⟩
  · intro h
    simp [Pallet.submitClick, h]
  · intro ops h hbad
    simp [Pallet.submitClick, h, validIdsOf_none upper ops hbad]
  · intro hops
    refine ⟨hin hops, hout hops, ⟨?_, ?_⟩⟩
    · intro hne
      by_contra hmem
      rw [hout hops hmem] at hne
      exact hne rfl
    · intro hmem
      rw [hin hops hmem]
      simp
  · intro t ht
    simp [Pallet.opIdOf, ht]

/-- C23 (the code at the failing input). The operator list answers with the single entry
"ADMIN" and the form holds "admin": the handler shows no alert and sends the request,
here to `/api/isos_in`, although the ID is none of OP-USER1 to OP-USER20. An unlisted
"OP-USER1" is refused on the same list. The upper-casing is that of the letters a to z,
which is what the built-in one does on these IDs. -/
theorem operator_not_restricted :
    Pallet.submitClick toUpperCase ⟨some "IN", true, "Scan IN: P1", "P1", "", [], []⟩
        (JSVal.str "admin") (some [JSVal.str "ADMIN"]) =
      ⟨some "IN", true, "Scan IN: P1", "P1", "", [], ["/api/isos_in"]⟩ ∧
    Pallet.submitClick toUpperCase ⟨some "IN", true, "Scan IN: P1", "P1", "", [], []⟩
        (JSVal.str "OP-USER1") (some [JSVal.str "ADMIN"]) =
      ⟨some "IN", true, "Scan IN: P1", "P1", "",
        ["❌ Invalid Operator ID are Notallowed."], []⟩ := by
  constructor <;> decide

/-! ## C13: the callbacks never raise on a record -/

theorem orEmpty_str (t : String) : (JSVal.str t).orEmpty = t := by
  simp only [JSVal.orEmpty]
  split_ifs with h
  · exact h.symm
  · rfl

/-- On an object the raw pallet callback returns what the callback on the parsed fields
returns. -/
theorem pallet_rowCallbackRaw_obj (dateParse : JSValue → Option ℤ)
    (numToString : JSNum → String) (today : ℤ) (row : Row) (r : Record) :
    Pallet.rowCallbackRaw dateParse numToString today row (RowData.obj r) =
      Except.ok (Pallet.rowCallback today row
        ⟨dateParse (getProp r "pallet_revalidation_dt"),
          JSVal.str (storedText numToString (getProp r "condition_status"))⟩) := by
  simp only [Pallet.rowCallbackRaw, Pallet.rowCallback, getField, orEmpty_str]
  rfl

/-- On an object the raw stencil callback returns what the callback on the parsed fields
returns. -/
theorem stencil_rowCallbackRaw_obj (dateParse : JSValue → Option ℤ)
    (parseFloat : JSValue → JSNum) (numToString : JSNum → String) (today : ℤ) (row : Row)
    (r : Record) :
    Stencil.rowCallbackRaw dateParse parseFloat numToString today row (RowData.obj r) =
      Except.ok (Stencil.rowCallback today row
        ⟨dateParse (getProp r "stencil_revalidation_dt"),
          JSVal.str (storedText numToString (getProp r "status")),
          parseFloat (getProp r "tension_a"), parseFloat (getProp r "tension_b"),
          parseFloat (getProp r "tension_c"), parseFloat (getProp r "tension_d"),
          parseFloat (getProp r "tension_e")⟩) := by
  simp only [Stencil.rowCallbackRaw, Stencil.rowCallback, Stencil.tensions, getField,
    orEmpty_str]
  rfl

/-- The raw callbacks do raise when `data` itself is `null` or missing: the first property
access throws. -/
theorem rowCallbackRaw_no_object (dateParse : JSValue → Option ℤ)
    (parseFloat : JSValue → JSNum) (numToString : JSNum → String) (today : ℤ) (row : Row) :
    Stencil.rowCallbackRaw dateParse parseFloat numToString today row RowData.null =
      Except.error JSError.typeError ∧
    Stencil.rowCallbackRaw dateParse parseFloat numToString today row RowData.undefined =
      Except.error JSError.typeError ∧
    Pallet.rowCallbackRaw dateParse numToString today row RowData.null =
      Except.error JSError.typeError ∧
    Pallet.rowCallbackRaw dateParse numToString today row RowData.undefined =
      Except.error JSError.typeError :=
  ⟨rfl, rfl, rfl, rfl⟩

/-- C13. The classifier never fails on a record: for every record object, whatever its
fields hold (revalidation date missing, `null` or not a date; each tension value missing,
`null` or non-numeric), and every `now`, the callback followed from the raw `data` ends
without an exception and returns the row that the callback on the parsed fields returns.
When the date does not parse and (stencil) no tension value parses, that row has the
classes of the input with the five highlight classes removed, so no highlight class, and
the stored text written unchanged at the status index (the empty string for a missing,
`null` or empty field). -/
theorem rowCallback_never_raises (dateParse : JSValue → Option ℤ)
    (parseFloat : JSValue → JSNum) (numToString : JSNum → String) (today : ℤ)
    (prow srow : Row) (r : Record) :
    Pallet.rowCallbackRaw dateParse numToString today prow (RowData.obj r) =
      Except.ok (Pallet.rowCallback today prow
        ⟨dateParse (getProp r "pallet_revalidation_dt"),
          JSVal.str (storedText numToString (getProp r "condition_status"))⟩) ∧
    Stencil.rowCallbackRaw dateParse parseFloat numToString today srow (RowData.obj r) =
      Except.ok (Stencil.rowCallback today srow
        ⟨dateParse (getProp r "stencil_revalidation_dt"),
          JSVal.str (storedText numToString (getProp r "status")),
          parseFloat (getProp r "tension_a"), parseFloat (getProp r "tension_b"),
          parseFloat (getProp r "tension_c"), parseFloat (getProp r "tension_d"),
          parseFloat (getProp r "tension_e")⟩) ∧
    (dateParse (getProp r "pallet_revalidation_dt") = none →
      Pallet.rowCallbackRaw dateParse numToString today prow (RowData.obj r) =
        Except.ok ⟨prow.classes.filter (fun c => !highlightClasses.contains c),
          prow.cells.set 9 (storedText numToString (getProp r "condition_status"))⟩) ∧
    (dateParse (getProp r "stencil_revalidation_dt") = none →
      parseFloat (getProp r "tension_a") = JSNum.nan →
      parseFloat (getProp r "tension_b") = JSNum.nan →
      parseFloat (getProp r "tension_c") = JSNum.nan →
      parseFloat (getProp r "tension_d") = JSNum.nan →
      parseFloat (getProp r "tension_e") = JSNum.nan →
      Stencil.rowCallbackRaw dateParse parseFloat numToString today srow (RowData.obj r) =
        Except.ok ⟨srow.classes.filter (fun c => !highlightClasses.contains c),
          srow.cells.set 14 (storedText numToString (getProp r "status"))⟩) ∧
    (∀ cells : List String,
      Row.highlights ⟨prow.classes.filter (fun c => !highlightClasses.contains c), cells⟩
        = []) ∧
    (∀ t : String, storedText numToString (JSValue.str t) = t) ∧
    storedText numToString JSValue.undefined = "" ∧
    storedText numToString JSValue.null = "" := by
  refine ⟨pallet_rowCallbackRaw_obj _ _ _ _ _, stencil_rowCallbackRaw_obj _ _ _ _ _ _,
    ?_, ?_, ?_, ?_, rfl, rfl⟩
  · intro hd
    rw [pallet_rowCallbackRaw_obj, pallet_rowCallback_passthrough _ _ _
      (fun x hx => by rw [hd] at hx; exact absurd hx (by simp)), orEmpty_str]
    rfl
  · intro hd ha hb hc he hf
    rw [stencil_rowCallbackRaw_obj, stencil_rowCallback_passthrough _ _ _
      (fun x hx => by rw [hd] at hx; exact absurd hx (by simp))
      (by
        intro u hu
        simp only [Stencil.tensions, ha, hb, hc, he, hf, List.mem_cons, List.mem_singleton,
          List.not_mem_nil, or_false, or_self] at hu
        rw [hu]
        exact ⟨rfl, rfl, rfl⟩), orEmpty_str]
    rfl
  · intro cells
    exact highlights_removeClass ⟨prow.classes, cells⟩
  · intro t
    by_cases ht : t = ""
    · rw [ht]; rfl
    · simp [storedText, JSValue.truthy, JSValue.toStr, ht]

/-! ## C17: what the result depends on -/

/-- C17 (as stated, refuted). The callback takes `row` and `data` and no date: it reads the
wall clock inside its body. A call takes one reading off the clock, and two calls with the
same row and the same pallet record, whose date lies 5 days after the first reading, return
different rows when the clock moved on by 5 days between them: "RE-VALIDATION NEED TO DONE
SOON" with `case2` first, "REVALIDATION TIME END" with `case3` second. -/
theorem clock_read_inside_counterexample :
    (Pallet.rowCallbackCall ⟨[], List.replicate 12 "x"⟩
      ⟨some (5 * 86400000), JSVal.str "MOVE"⟩ ⟨0, [5 * 86400000]⟩).2 ≠
      ⟨0, [5 * 86400000]⟩ ∧
    (Pallet.rowCallbackCall ⟨[], List.replicate 12 "x"⟩
      ⟨some (5 * 86400000), JSVal.str "MOVE"⟩ ⟨0, [5 * 86400000]⟩).1 =
      ⟨["case2"], List.replicate 9 "x" ++ ["RE-VALIDATION NEED TO DONE SOON", "x", "x"]⟩ ∧
    (Pallet.rowCallbackCall ⟨[], List.replicate 12 "x"⟩
      ⟨some (5 * 86400000), JSVal.str "MOVE"⟩
      (Pallet.rowCallbackCall ⟨[], List.replicate 12 "x"⟩
        ⟨some (5 * 86400000), JSVal.str "MOVE"⟩ ⟨0, [5 * 86400000]⟩).2).1 =
      ⟨["case3"], List.replicate 9 "x" ++ ["REVALIDATION TIME END", "x", "x"]⟩ ∧
    (Pallet.rowCallbackCall ⟨[], List.replicate 12 "x"⟩
      ⟨some (5 * 86400000), JSVal.str "MOVE"⟩ ⟨0, [5 * 86400000]⟩).1 ≠
    (Pallet.rowCallbackCall ⟨[], List.replicate 12 "x"⟩
      ⟨some (5 * 86400000), JSVal.str "MOVE"⟩
      (Pallet.rowCallbackCall ⟨[], List.replicate 12 "x"⟩
        ⟨some (5 * 86400000), JSVal.str "MOVE"⟩ ⟨0, [5 * 86400000]⟩).2).1 := by
  have e5 : ceilDays (5 * 86400000) 0 = 5 := by rw [ceilDays_eq]; decide
  have e0 : ceilDays (5 * 86400000) (5 * 86400000) = 0 := by rw [ceilDays_eq]; decide
  have hclock : ∀ (row : Row) (data : Pallet.Data),
      (Pallet.rowCallbackCall row data ⟨0, [5 * 86400000]⟩).2 = ⟨5 * 86400000, []⟩ :=
    fun _ _ => rfl
  have ha : (Pallet.rowCallbackCall ⟨[], List.replicate 12 "x"⟩
      ⟨some (5 * 86400000), JSVal.str "MOVE"⟩ ⟨0, [5 * 86400000]⟩).1 =
      ⟨["case2"], List.replicate 9 "x" ++ ["RE-VALIDATION NEED TO DONE SOON", "x", "x"]⟩ := by
    simp only [Pallet.rowCallbackCall, WallClock.newDate, Pallet.rowCallback, diffDays,
      Option.map, e5]
    decide
  have hb : (Pallet.rowCallbackCall ⟨[], List.replicate 12 "x"⟩
      ⟨some (5 * 86400000), JSVal.str "MOVE"⟩ ⟨5 * 86400000, []⟩).1 =
      ⟨["case3"], List.replicate 9 "x" ++ ["REVALIDATION TIME END", "x", "x"]⟩ := by
    simp only [Pallet.rowCallbackCall, WallClock.newDate, Pallet.rowCallback, diffDays,
      Option.map, e0]
    decide
  refine ⟨?_, ha, ?_, ?_⟩
  · rw [hclock]; decide
  · rw [hclock, hb]
  · rw [hclock, ha, hb]; decide

/-- C17 (amended). The status text and the highlight classes are a function of the record
(revalidation date, tension values, stored text) and of the reading of the wall clock that
the callback takes itself at the call; the date is not passed in. A call returns the row of
the callback at the current reading and leaves the clock one reading further. For one
record, two calls at clocks with the same current reading, on any two rows that have the
status cell, give the same status text and the same highlight classes, whatever classes and
texts the rows carried before and whatever the later readings are: no other state is
carried across calls. -/
theorem classifier_deterministic (sdata : Stencil.Data) (pdata : Pallet.Data)
    (srow1 srow2 prow1 prow2 : Row) (clock1 clock2 : WallClock)
    (hnow : clock1.now = clock2.now)
    (hs1 : 14 < srow1.cells.length) (hs2 : 14 < srow2.cells.length)
    (hp1 : 9 < prow1.cells.length) (hp2 : 9 < prow2.cells.length) :
    (Stencil.rowCallbackCall srow1 sdata clock1).1 =
      Stencil.rowCallback clock1.now srow1 sdata ∧
    (Pallet.rowCallbackCall prow1 pdata clock1).1 =
      Pallet.rowCallback clock1.now prow1 pdata ∧
    (Stencil.rowCallbackCall srow1 sdata clock1).2 = clock1.newDate.2 ∧
    (Pallet.rowCallbackCall prow1 pdata clock1).2 = clock1.newDate.2 ∧
    (Stencil.rowCallbackCall srow1 sdata clock1).1.cells[14]? =
      (Stencil.rowCallbackCall srow2 sdata clock2).1.cells[14]? ∧
    (Stencil.rowCallbackCall srow1 sdata clock1).1.highlights =
      (Stencil.rowCallbackCall srow2 sdata clock2).1.highlights ∧
    (Pallet.rowCallbackCall prow1 pdata clock1).1.cells[9]? =
      (Pallet.rowCallbackCall prow2 pdata clock2).1.cells[9]? ∧
    (Pallet.rowCallbackCall prow1 pdata clock1).1.highlights =
      (Pallet.rowCallbackCall prow2 pdata clock2).1.highlights := by
  have hS : ∀ (row : Row) (clock : WallClock), (Stencil.rowCallbackCall row sdata clock).1 =
      Stencil.rowCallback clock.now row sdata := fun _ _ => rfl
  have hP : ∀ (row : Row) (clock : WallClock), (Pallet.rowCallbackCall row pdata clock).1 =
      Pallet.rowCallback clock.now row pdata := fun _ _ => rfl
  obtain ⟨D, T, stxt, hD, hT, hs⟩ := stencil_rowCallback_shape clock1.now sdata
  obtain ⟨P, ptxt, hPc, hp⟩ := pallet_rowCallback_shape clock1.now pdata
  obtain ⟨-, -, hDh, -⟩ := dateClasses_facts D hD
  obtain ⟨hTh, -⟩ := tensionClasses_facts T hT
  obtain ⟨-, -, hPh, -⟩ := dateClasses_facts P hPc
  have hDT : ∀ c ∈ D ++ T, c ∈ highlightClasses := by
    intro c hc
    rcases List.mem_append.1 hc with h | h
    · exact hDh c h
    · exact hTh c h
  refine ⟨rfl, rfl, rfl, rfl, ?_, ?_, ?_, ?_⟩
  · rw [hS, hS, ← hnow, hs srow1, hs srow2]
    simp [hs1, hs2]
  · rw [hS, hS, ← hnow, hs srow1, hs srow2, List.append_assoc, List.append_assoc,
      highlights_mk_append srow1 (D ++ T) _ hDT, highlights_mk_append srow2 (D ++ T) _ hDT]
  · rw [hP, hP, ← hnow, hp prow1, hp prow2]
    simp [hp1, hp2]
  · rw [hP, hP, ← hnow, hp prow1, hp prow2, highlights_mk_append prow1 P _ hPh,
      highlights_mk_append prow2 P _ hPh]

/-- Witness for C17 (amended): a fresh row against a row marked `case3` and `tension-red`
with other texts, at two clocks that agree on the current reading only. -/
theorem classifier_deterministic_witness :
    (Stencil.rowCallbackCall ⟨["odd"], List.replicate 16 "x"⟩
      ⟨none, JSVal.str "MOVE", JSNum.fin 36, JSNum.nan, JSNum.nan, JSNum.nan, JSNum.nan⟩
      ⟨0, [5]⟩).1.cells[14]? =
      (Stencil.rowCallbackCall ⟨["even", "case3", "tension-red"], List.replicate 16 "y"⟩
        ⟨none, JSVal.str "MOVE", JSNum.fin 36, JSNum.nan, JSNum.nan, JSNum.nan, JSNum.nan⟩
        ⟨0, [7, 9]⟩).1.cells[14]? ∧
    (Stencil.rowCallbackCall ⟨["odd"], List.replicate 16 "x"⟩
      ⟨none, JSVal.str "MOVE", JSNum.fin 36, JSNum.nan, JSNum.nan, JSNum.nan, JSNum.nan⟩
      ⟨0, [5]⟩).1.highlights =
      (Stencil.rowCallbackCall ⟨["even", "case3", "tension-red"], List.replicate 16 "y"⟩
        ⟨none, JSVal.str "MOVE", JSNum.fin 36, JSNum.nan, JSNum.nan, JSNum.nan, JSNum.nan⟩
        ⟨0, [7, 9]⟩).1.highlights :=
  ⟨(classifier_deterministic
      ⟨none, JSVal.str "MOVE", JSNum.fin 36, JSNum.nan, JSNum.nan, JSNum.nan, JSNum.nan⟩
      ⟨none, JSVal.str "MOVE"⟩
      ⟨["odd"], List.replicate 16 "x"⟩
      ⟨["even", "case3", "tension-red"], List.replicate 16 "y"⟩
      ⟨["odd"], List.replicate 12 "x"⟩ ⟨["even", "case3"], List.replicate 12 "y"⟩
      ⟨0, [5]⟩ ⟨0, [7, 9]⟩ rfl (by decide) (by decide) (by decide) (by decide)).2.2.2.2.1,
   (classifier_deterministic
      ⟨none, JSVal.str "MOVE", JSNum.fin 36, JSNum.nan, JSNum.nan, JSNum.nan, JSNum.nan⟩
      ⟨none, JSVal.str "MOVE"⟩
      ⟨["odd"], List.replicate 16 "x"⟩
      ⟨["even", "case3", "tension-red"], List.replicate 16 "y"⟩
      ⟨["odd"], List.replicate 12 "x"⟩ ⟨["even", "case3"], List.replicate 12 "y"⟩
      ⟨0, [5]⟩ ⟨0, [7, 9]⟩ rfl (by decide) (by decide) (by decide)
      (by decide)).2.2.2.2.2.1⟩

/-! ## C9: the ceiling boundary of diffDays -/

/-- An integer is its own rounding. -/
theorem roundHalfEven_intCast (n : ℤ) : roundHalfEven (n : ℚ) = n := by
  unfold roundHalfEven
  rw [Int.floor_intCast]
  simp

/-- Rounding to an integer moves a value by at most one half. -/
theorem abs_roundHalfEven_sub_le (s : ℚ) : |(roundHalfEven s : ℚ) - s| ≤ 1 / 2 := by
  have h1 : (⌊s⌋ : ℚ) ≤ s := Int.floor_le s
  have h2 : s < ⌊s⌋ + 1 := Int.lt_floor_add_one s
  unfold roundHalfEven
  rw [abs_le]
  split_ifs with ha hb hc
  · constructor <;> linarith
  · push_cast
    constructor <;> linarith
  · constructor <;> linarith
  · push_cast
    constructor <;> linarith

/-- An integer of magnitude below 2^53 is a double. -/
theorem roundDouble_intCast (x : ℤ) (h : |x| < 2 ^ 53) : roundDouble (x : ℚ) = x := by
  unfold roundDouble
  by_cases h0 : (x : ℚ) = 0
  · rw [if_pos h0, h0]
  · rw [if_neg h0]
    have hpos : (0 : ℚ) < |(x : ℚ)| := abs_pos.2 h0
    have hlt : |(x : ℚ)| < ((2 : ℕ) : ℚ) ^ (53 : ℤ) := by
      have : (|x| : ℤ) < 2 ^ 53 := h
      have h2 : ((|x| : ℤ) : ℚ) < ((2 ^ 53 : ℤ) : ℚ) := by exact_mod_cast this
      rw [Int.cast_abs] at h2
      norm_num at h2 ⊢
      exact h2
    have hL : Int.log 2 |(x : ℚ)| < 53 := (Int.lt_zpow_iff_log_lt (by norm_num) hpos).1 hlt
    obtain ⟨k, hk⟩ : ∃ k : ℕ, Int.log 2 |(x : ℚ)| - 52 = -(k : ℤ) :=
      ⟨(52 - Int.log 2 |(x : ℚ)|).toNat, by omega⟩
    rw [hk, zpow_neg, zpow_natCast]
    have hk2 : ((2 : ℚ) ^ k) ≠ 0 := pow_ne_zero _ (by norm_num)
    have hs : (x : ℚ) / ((2 : ℚ) ^ k)⁻¹ = ((x * 2 ^ k : ℤ) : ℚ) := by
      push_cast
      field_simp
    rw [hs, roundHalfEven_intCast]
    push_cast
    field_simp

/-- Rounding to a double moves a value by at most half a unit in the last place. -/
theorem abs_roundDouble_sub_le (q : ℚ) (hq : q ≠ 0) :
    |roundDouble q - q| ≤ 2 ^ (Int.log 2 |q| - 52) / 2 := by
  unfold roundDouble
  rw [if_neg hq]
  have hpos : (0 : ℚ) < 2 ^ (Int.log 2 |q| - 52) := zpow_pos (by norm_num) _
  have hs := abs_roundHalfEven_sub_le (q / 2 ^ (Int.log 2 |q| - 52))
  have heq : (roundHalfEven (q / 2 ^ (Int.log 2 |q| - 52)) : ℚ) * 2 ^ (Int.log 2 |q| - 52) - q
      = ((roundHalfEven (q / 2 ^ (Int.log 2 |q| - 52)) : ℚ) - q / 2 ^ (Int.log 2 |q| - 52))
        * 2 ^ (Int.log 2 |q| - 52) := by
    field_simp
  rw [heq, abs_mul, abs_of_pos hpos]
  calc |(roundHalfEven (q / 2 ^ (Int.log 2 |q| - 52)) : ℚ) - q / 2 ^ (Int.log 2 |q| - 52)|
        * 2 ^ (Int.log 2 |q| - 52)
      ≤ 1 / 2 * 2 ^ (Int.log 2 |q| - 52) := mul_le_mul_of_nonneg_right hs hpos.le
    _ = 2 ^ (Int.log 2 |q| - 52) / 2 := by ring

/-- Below 2^27 half a unit in the last place is at most 2^-27. -/
theorem abs_roundDouble_sub_le_small (q : ℚ) (hq : q ≠ 0) (hlt : |q| < 134217728) :
    |roundDouble q - q| ≤ 1 / 134217728 := by
  have hpos : (0 : ℚ) < |q| := abs_pos.2 hq
  have hlt2 : |q| < ((2 : ℕ) : ℚ) ^ (27 : ℤ) := by norm_num; exact hlt
  have hL : Int.log 2 |q| < 27 := (Int.lt_zpow_iff_log_lt (by norm_num) hpos).1 hlt2
  have hle : (2 : ℚ) ^ (Int.log 2 |q| - 52) ≤ 2 ^ (-26 : ℤ) :=
    zpow_le_zpow_right₀ (by norm_num) (by omega)
  have h := abs_roundDouble_sub_le q hq
  have h26 : (2 : ℚ) ^ (-26 : ℤ) = 1 / 67108864 := by norm_num [zpow_neg]
  rw [h26] at hle
  linarith

/-- The computation in doubles gives the exact ceiling as long as the difference of the two
time values is below 2^53 in magnitude: the difference is then exact, and the rounded
quotient stays on the same side of every integer, because a quotient that is not an integer
is at least 1/86400000 away from one and the rounding moves it by at most 2^-27. -/
theorem ceilDaysDouble_eq_ceilDays (reval today : ℤ) (h : |reval - today| < 2 ^ 53) :
    ceilDaysDouble reval today = ceilDays reval today := by
  have hD : (msPerDay : ℚ) = 86400000 := by rw [msPerDay_eq]; norm_num
  unfold ceilDaysDouble
  rw [roundDouble_intCast _ h]
  have hz1 : reval - today ≤ ceilDays reval today * msPerDay :=
    (ceilDays_le_iff reval today _).1 (le_refl _)
  have hz2 : (ceilDays reval today - 1) * msPerDay < reval - today := by
    by_contra hc
    have := (ceilDays_le_iff reval today (ceilDays reval today - 1)).2 (not_lt.1 hc)
    omega
  rw [msPerDay_eq] at hz1 hz2
  have habs := abs_lt.1 h
  rw [Int.ceil_eq_iff]
  set x := reval - today with hx
  set z := ceilDays reval today with hz
  set q : ℚ := (x : ℚ) / (msPerDay : ℚ) with hq
  have hqd : q * 86400000 = x := by
    rw [hq, hD]; field_simp
  have hz1q : (x : ℚ) ≤ z * 86400000 := by exact_mod_cast hz1
  have hz2q : ((z : ℚ) - 1) * 86400000 + 1 ≤ x := by
    have : (z - 1) * 86400000 + 1 ≤ x := by omega
    exact_mod_cast this
  by_cases hxz : x = z * 86400000
  · have hqz : q = (z : ℚ) := by
      have : (x : ℚ) = z * 86400000 := by exact_mod_cast hxz
      rw [hq, hD, this]; field_simp
    have hzabs : |z| < 2 ^ 53 := by
      rw [abs_lt]
      constructor <;> omega
    rw [hqz, roundDouble_intCast z hzabs]
    constructor <;> linarith
  · have hlt : x ≤ z * 86400000 - 1 := by omega
    have hltq : (x : ℚ) ≤ z * 86400000 - 1 := by exact_mod_cast hlt
    have hq0 : q ≠ 0 := by
      intro h0
      rw [h0] at hqd
      have hx0 : x = 0 := by exact_mod_cast hqd.symm
      omega
    have hxl : (-(2 ^ 53 : ℤ) : ℚ) < x := by exact_mod_cast habs.1
    have hxu : (x : ℚ) < ((2 ^ 53 : ℤ) : ℚ) := by exact_mod_cast habs.2
    have hqabs : |q| < 134217728 := by
      rw [abs_lt]
      push_cast at hxl hxu
      constructor <;> nlinarith
    have herr := abs_le.1 (abs_roundDouble_sub_le_small q hq0 hqabs)
    constructor <;> linarith [herr.1, herr.2]

/-- The binary logarithm of a natural number between two powers of 2. -/
theorem Int_log_two (n : ℕ) (m : ℕ) (h1 : 2 ^ m ≤ n) (h2 : n < 2 ^ (m + 1)) (hn : n ≠ 0) :
    Int.log 2 ((n : ℚ)) = m := by
  rw [Int.log_natCast]
  have : Nat.log 2 n = m := (Nat.log_eq_iff (Or.inr ⟨by norm_num, hn⟩)).2 ⟨h1, h2⟩
  rw [this]

/-- The difference 9072000000000001 lies above 2^53, halfway between two doubles, and is
rounded to the even one. -/
theorem roundDouble_example :
    roundDouble ((8640000000000000 - (-432000000000001) : ℤ) : ℚ) = 9072000000000000 := by
  have hq : (((8640000000000000 - (-432000000000001) : ℤ)) : ℚ) = ((9072000000000001 : ℕ) : ℚ) := by
    norm_num
  have hlog := Int_log_two 9072000000000001 53 (by norm_num) (by norm_num) (by norm_num)
  unfold roundDouble
  rw [hq, if_neg (by norm_num), abs_of_pos (by norm_num), hlog]
  have hs : ((9072000000000001 : ℕ) : ℚ) / 2 ^ (((53 : ℕ) : ℤ) - 52) = 9072000000000001 / 2 := by
    norm_num
  rw [hs]
  have hf : ⌊(9072000000000001 / 2 : ℚ)⌋ = 4536000000000000 := by
    rw [Int.floor_eq_iff]; constructor <;> norm_num
  have hr : roundHalfEven (9072000000000001 / 2 : ℚ) = 4536000000000000 := by
    unfold roundHalfEven
    rw [hf]
    norm_num
  rw [hr]
  norm_num

/-- The value of `diffDays` in doubles for the two time values 8640000000000000 and
-432000000000001. -/
theorem ceilDaysDouble_example :
    ceilDaysDouble 8640000000000000 (-432000000000001) = 105000000 := by
  unfold ceilDaysDouble
  rw [roundDouble_example]
  have hD : (msPerDay : ℚ) = 86400000 := by rw [msPerDay_eq]; norm_num
  have hq : (9072000000000000 : ℚ) / (msPerDay : ℚ) = ((105000000 : ℤ) : ℚ) := by
    rw [hD]; norm_num
  rw [hq, roundDouble_intCast _ (by norm_num), Int.ceil_intCast]

/-- C9 (as stated, refuted). For the time values `reval = 8640000000000000` and
`now = -432000000000001`, both valid, the difference 9072000000000001 is not a double: the
source computes `diffDays = 105000000`, and 105000000 days are 1 ms short of the
difference, so the computed value is not the least integer `n` with
`n * 86400000 >= reval - now`, which is 105000001. -/
theorem ceilDays_double_counterexample :
    ceilDaysDouble 8640000000000000 (-432000000000001) = 105000000 ∧
    ¬ (8640000000000000 - (-432000000000001) ≤
      ceilDaysDouble 8640000000000000 (-432000000000001) * 86400000) ∧
    ceilDays 8640000000000000 (-432000000000001) = 105000001 := by
  refine ⟨ceilDaysDouble_example, ?_, ?_⟩
  · rw [ceilDaysDouble_example]; decide
  · rw [ceilDays_eq]; decide

/-- C9 (amended). For integer millisecond timestamps with `|reval - now| < 2^53`, the
`diffDays` that the source computes in doubles is the exact ceiling: the least integer `n`
with `n * 86400000 >= reval - now`. For every `now`, a date one day minus one millisecond
ahead gives 1 and triggers the critical rule in both callbacks, exactly one day ahead
gives 1, and one day plus one millisecond gives 2. -/
theorem ceilDays_least (reval now : ℤ) (row : Row) (cs : JSVal) (sdata : Stencil.Data)
    (hbound : |reval - now| < 2 ^ 53) :
    ceilDaysDouble reval now = ceilDays reval now ∧
    reval - now ≤ ceilDaysDouble reval now * 86400000 ∧
    (∀ n : ℤ, reval - now ≤ n * 86400000 → ceilDaysDouble reval now ≤ n) ∧
    ceilDaysDouble (now + 86400000 - 1) now = 1 ∧
    ceilDaysDouble (now + 86400000) now = 1 ∧
    ceilDaysDouble (now + 86400000 + 1) now = 2 ∧
    (Pallet.rowCallback now row ⟨some (now + 86400000 - 1), cs⟩).highlights = ["case3"] ∧
    "case3" ∈ (Stencil.rowCallback now row
      { sdata with stencil_revalidation_dt := some (now + 86400000 - 1) }).classes := by
  have hle : ∀ r n : ℤ, ceilDays r now ≤ n ↔ r - now ≤ n * 86400000 := by
    intro r n
    rw [ceilDays_le_iff, msPerDay_eq]
  have hval : ∀ r k : ℤ, (k - 1) * 86400000 < r - now → r - now ≤ k * 86400000 →
      ceilDays r now = k := by
    intro r k hlo hhi
    apply le_antisymm
    · exact (hle r k).2 hhi
    · by_contra hc
      have h1 : ceilDays r now ≤ k - 1 := by omega
      have := (hle r (k - 1)).1 h1
      omega
  have hdbl : ∀ r : ℤ, |r - now| < 2 ^ 53 → ceilDaysDouble r now = ceilDays r now :=
    fun r hr => ceilDaysDouble_eq_ceilDays r now hr
  have hb1 : |now + 86400000 - 1 - now| < 2 ^ 53 := by
    rw [abs_lt]; constructor <;> omega
  have hb2 : |now + 86400000 - now| < 2 ^ 53 := by
    rw [abs_lt]; constructor <;> omega
  have hb3 : |now + 86400000 + 1 - now| < 2 ^ 53 := by
    rw [abs_lt]; constructor <;> omega
  have e1 : ceilDays (now + 86400000 - 1) now = 1 := hval _ 1 (by omega) (by omega)
  have hrow : Pallet.rowCallback now row ⟨some (now + 86400000 - 1), cs⟩ =
      setCellText 9 "REVALIDATION TIME END"
        (addClass "case3" (removeClass highlightClasses row)) := by
    simp [Pallet.rowCallback, diffDays, e1]
  refine ⟨hdbl reval hbound, ?_, ?_, ?_, ?_, ?_, ?_, ?_⟩
  · rw [hdbl reval hbound]
    exact (hle reval _).1 (le_refl _)
  · intro n hn
    rw [hdbl reval hbound]
    exact (hle reval n).2 hn
  · rw [hdbl _ hb1]; exact e1
  · rw [hdbl _ hb2]; exact hval _ 1 (by omega) (by omega)
  · rw [hdbl _ hb3]; exact hval _ 2 (by omega) (by omega)
  · rw [hrow, setCellText_highlights]
    exact highlights_addClass_removeClass "case3" row (by decide)
  · have hd : diffDays
        ({ sdata with stencil_revalidation_dt := some (now + 86400000 - 1) } :
          Stencil.Data).stencil_revalidation_dt now =
        some (ceilDays (now + 86400000 - 1) now) := rfl
    rw [stencil_rowCallback_eq, hd, revalidationDateHighlight_critical _ _ (le_of_eq e1),
      setCellText_classes]
    have hc3 : "case3" ∈ (addClass "case3" (removeClass highlightClasses row)).classes :=
      (mem_addClass _ _ _).2 (Or.inr rfl)
    rcases tensionHighlight_uniform (Stencil.tensions
      { sdata with stencil_revalidation_dt := some (now + 86400000 - 1) }) with h | h | h <;>
      rw [h]
    · exact hc3
    · exact (mem_addClass _ _ _).2 (Or.inl hc3)
    · exact (mem_addClass _ _ _).2 (Or.inl hc3)

/-- Witness for C9 (amended): a date 2.5 days ahead: the computation in doubles gives the
exact ceiling, and 3 days bound the difference, so `diffDays <= 3`. -/
theorem ceilDays_least_witness :
    ceilDaysDouble 216000000 0 = ceilDays 216000000 0 ∧ ceilDaysDouble 216000000 0 ≤ 3 :=
  ⟨(ceilDays_least 216000000 0 ⟨[], []⟩ JSVal.null
      ⟨none, JSVal.null, JSNum.nan, JSNum.nan, JSNum.nan, JSNum.nan, JSNum.nan⟩
      (by decide)).1,
   (ceilDays_least 216000000 0 ⟨[], []⟩ JSVal.null
      ⟨none, JSVal.null, JSNum.nan, JSNum.nan, JSNum.nan, JSNum.nan, JSNum.nan⟩
      (by decide)).2.2.1 3 (by decide)⟩

end StencilMaster
